import Mathlib

/-!
# partner-go-telegram-bot: a shallow embedding of `main.go`

The bot keeps its data in a relational store (users, follow requests, watch
list, media), a key-value cache with expiry (the browsed partner list) and
talks to its users through outbound messages.  The embedding below turns each
handler of `main.go` into a pure function on an explicit `Store`, returning the
new store together with the messages sent.

Conventions.
* Go strings are Lean strings (valid UTF-8, as the transport decodes them);
  `len` of a string is its UTF-8 byte count.
* `int64` identifiers are integers; `int` counters are integers and additions
  wrap at 64 bits (`wrapInt`).
* A table is the list of its rows, in the order in which the store
  enumerates them.  `User` and `FollowRequest` embed `gorm.Model`: every query
  on them is scoped to the rows that are not marked deleted (`deleted_at IS
  NULL`), and `Delete` marks a row instead of removing it.  The program never
  deletes a user, so only `FollowRequest` carries the mark (`Deleted`).
* The timestamps of the rows are written but never read by `main.go`; they are
  left out.
* Calls to the store, the cache and the transport are taken to succeed; a
  handler sees one instant `now` for all its clock reads.
-/

namespace PartnerBot

/-! ## Validation layer -/

/-- Code point ranges of the Unicode category Nd (decimal digits), the range
table consulted by Go's `unicode.IsDigit` above Latin-1. -/
def digitRanges : List (Nat × Nat) :=
  [(0x30, 0x39), (0x660, 0x669), (0x6F0, 0x6F9), (0x7C0, 0x7C9), (0x966, 0x96F),
   (0x9E6, 0x9EF), (0xA66, 0xA6F), (0xAE6, 0xAEF), (0xB66, 0xB6F), (0xBE6, 0xBEF),
   (0xC66, 0xC6F), (0xCE6, 0xCEF), (0xD66, 0xD6F), (0xDE6, 0xDEF), (0xE50, 0xE59),
   (0xED0, 0xED9), (0xF20, 0xF29), (0x1040, 0x1049), (0x1090, 0x1099),
   (0x17E0, 0x17E9), (0x1810, 0x1819), (0x1946, 0x194F), (0x19D0, 0x19D9),
   (0x1A80, 0x1A89), (0x1A90, 0x1A99), (0x1B50, 0x1B59), (0x1BB0, 0x1BB9),
   (0x1C40, 0x1C49), (0x1C50, 0x1C59), (0xA620, 0xA629), (0xA8D0, 0xA8D9),
   (0xA900, 0xA909), (0xA9D0, 0xA9D9), (0xA9F0, 0xA9F9), (0xAA50, 0xAA59),
   (0xABF0, 0xABF9), (0xFF10, 0xFF19), (0x104A0, 0x104A9), (0x10D30, 0x10D39),
   (0x11066, 0x1106F), (0x110F0, 0x110F9), (0x11136, 0x1113F), (0x111D0, 0x111D9),
   (0x112F0, 0x112F9), (0x11450, 0x11459), (0x114D0, 0x114D9), (0x11650, 0x11659),
   (0x116C0, 0x116C9), (0x11730, 0x11739), (0x118E0, 0x118E9), (0x11950, 0x11959),
   (0x11C50, 0x11C59), (0x11D50, 0x11D59), (0x11DA0, 0x11DA9), (0x16A60, 0x16A69),
   (0x16AC0, 0x16AC9), (0x16B50, 0x16B59), (0x1D7CE, 0x1D7FF), (0x1E140, 0x1E149),
   (0x1E2F0, 0x1E2F9), (0x1E950, 0x1E959), (0x1FBF0, 0x1FBF9)]

/-- Go's `unicode.IsDigit`: below U+0100 only `0`..`9`, above it the Nd table. -/
def unicodeIsDigit (r : Char) : Bool :=
  if r.toNat ≤ 0xFF then
    decide (0x30 ≤ r.toNat ∧ r.toNat ≤ 0x39)
  else
    digitRanges.any fun p => decide (p.1 ≤ r.toNat ∧ r.toNat ≤ p.2)

/-- Go's `strings.ReplaceAll(s, old, "")` for a one-character `old`: every
occurrence of the character is dropped. -/
def removeAll (s : String) (old : Char) : String :=
  ⟨s.data.filter fun c => c != old⟩

/-- Go's `len(s)` on a string: the number of bytes of its UTF-8 encoding. -/
def len (s : String) : Nat :=
  s.utf8ByteSize

/-- The loop of `isNumeric` over the runes of the string. -/
def isNumericLoop : List Char → Bool
  | [] => true
  | char :: rest => if !unicodeIsDigit char then false else isNumericLoop rest

/-- Source `isNumeric` checks if a given string contains only numeric characters. -/
def isNumeric (str : String) : Bool :=
  isNumericLoop str.data

/-- Source `isValidMobileNumber`: strips spaces, `-` and `_`, then accepts the result
when `len` is 11 and `isNumeric` holds; otherwise the sentinel `"error"`. -/
def isValidMobileNumber (mobileNumber : String) : String :=
  let mobileNumber := removeAll mobileNumber ' '
  let mobileNumber := removeAll mobileNumber '-'
  let mobileNumber := removeAll mobileNumber '_'
  if len mobileNumber = 11 ∧ isNumeric mobileNumber = true then
    mobileNumber
  else
    "error"

/-- The string the claim speaks of: `s` without its spaces, `-` and `_`. -/
def stripped (s : String) : String :=
  removeAll (removeAll (removeAll s ' ') '-') '_'

/-! ## Data model -/

/-- A row of the `users` table (the `User` struct).  `ID` is the primary key
of `gorm.Model`, handed out in creation order.  `Latitude`, `Longitude` and
the two follow-request associations are never read or written by a handler
and are left out. -/
structure User where
  ID : Nat
  TelegramID : Int
  Username : String
  Name : String
  MobileNumber : String
  EnglishLevel : String
  Gender : String
  MediaID : Nat
  CurrentQuestion : Int
  CurrentFindPartnerQuestion : Int
  LastSelectedEnglishLevel : String
  LastSelectedGender : String
  LastFindPartnerTime : Int
  CountWatchPartnerLimit : Int
  CurrentNumberInPartnerList : Int
  CurrentEditProfileQuestion : String
deriving DecidableEq, Repr

/-- A row of the `media` table. -/
structure Media where
  ID : Nat
  Filename : String
deriving DecidableEq, Repr

/-- A row of the `follow_requests` table.  `Deleted` says that the
`deleted_at` column of `gorm.Model` is set: the row was soft-deleted. -/
structure FollowRequest where
  ID : Nat
  RequesterID : Int
  TargetID : Int
  Accepted : Bool
  Deleted : Bool
deriving DecidableEq, Repr

/-- A row of the `watch_lists` table. -/
structure WatchList where
  ID : Nat
  UserID : Int
  WatchID : Int
deriving DecidableEq, Repr

/-- An entry of the Redis cache: the key, the decoded partner list stored
under it and the instant at which it expires. -/
structure CacheEntry where
  key : String
  partners : List User
  expiresAt : Int
deriving DecidableEq, Repr

/-- The persistent state the handlers work on: the four tables, the cache and
the last value handed out by the insert sequence of each table. -/
structure Store where
  users : List User
  medias : List Media
  followRequests : List FollowRequest
  watchLists : List WatchList
  followRequestSeq : Nat
  watchListSeq : Nat
  cache : List CacheEntry
  userSeq : Nat
  mediaSeq : Nat
deriving DecidableEq, Repr

/-! ## Matching engine -/

/-- Source `getWatchIDs`: the `watch_id` column of the rows with `user_id = telegramID`. -/
def getWatchIDs (s : Store) (telegramID : Int) : List Int :=
  (s.watchLists.filter fun w => decide (w.UserID = telegramID)).map fun w => w.WatchID

/-- Source `getMatchingPartners`: one of two queries, chosen by the gender filter,
each with `LIMIT 10` and, when the watch ids are not empty, the extra
condition `NOT (telegram_id IN watchIDs)`. -/
def getMatchingPartners (s : Store) (englishLevel gender : String) (telegramID : Int) :
    List User :=
  let watchIDs := getWatchIDs s telegramID
  if gender = "no matter" then
    let query : User → Bool := fun u =>
      decide (u.EnglishLevel = englishLevel ∧ u.TelegramID ≠ telegramID)
    let query : User → Bool :=
      if watchIDs.length > 0 then fun u => query u && !decide (u.TelegramID ∈ watchIDs)
      else query
    (s.users.filter query).take 10
  else
    let query : User → Bool := fun u =>
      decide (u.EnglishLevel = englishLevel ∧ u.Gender = gender ∧ u.TelegramID ≠ telegramID)
    let query : User → Bool :=
      if watchIDs.length > 0 then fun u => query u && !decide (u.TelegramID ∈ watchIDs)
      else query
    (s.users.filter query).take 10

/-- The match predicate in the words of the specification: level equal,
gender equal or filter "no matter", not the requester, not in the exclusion
set. -/
def matchPredicate (level gender : String) (requester : Int) (exclusion : List Int)
    (u : User) : Bool :=
  decide (u.EnglishLevel = level ∧ (u.Gender = gender ∨ gender = "no matter") ∧
    u.TelegramID ≠ requester ∧ u.TelegramID ∉ exclusion)

/-! ## Outbound messages -/

/-- The reply markups the handlers attach to a message: none at all, the
remove-keyboard markup, the reply keyboards declared at the top of `main.go`
and an inline keyboard given by its rows of (label, callback data) buttons. -/
inductive Keyboard where
  | noMarkup
  | removeKeyboard
  | mainKeyboard
  | englishLevelKeyboard
  | selectGenderKeyboard
  | selectGenderFilterKeyboard
  | selectNextOrAcceptPartnerKeyboard
  | backToHomeMenuKeyboard
  | iDoNotWantToEnterMobileMenuKeyboard
  | editProfileMenuKeyboard
  | editEnglishLevelKeyboard
  | editGenderKeyboard
  | inlineKeyboard (rows : List (List (String × String)))
deriving DecidableEq, Repr

/-- What a handler hands to `bot.Send`: a text message or a photo upload.
Lines written with `log` or `fmt.Println` go to the process log, not to a
chat, and are not recorded. -/
inductive Outbound where
  | message (chatID : Int) (text : String) (replyMarkup : Keyboard)
  | photo (chatID : Int) (filename : String) (caption : String) (replyMarkup : Keyboard)
deriving DecidableEq, Repr

/-- The chat a message is addressed to. -/
def Outbound.recipient : Outbound → Int
  | .message chatID _ _ => chatID
  | .photo chatID _ _ _ => chatID

/-- Source `sendMessage`: the first extra argument is the reply markup; without one
the keyboard is removed. -/
def sendMessage (chatID : Int) (text : String) (args : List Keyboard) : Outbound :=
  match args with
  | markup :: _ => .message chatID text markup
  | [] => .message chatID text .removeKeyboard

/-- Source `sendErrorMessage`: a plain message without reply markup. -/
def sendErrorMessage (chatID : Int) (message : String) : Outbound :=
  .message chatID message .noMarkup

/-! ## Store access -/

/-- Go's `int` arithmetic: the result of an addition wrapped to 64 bits. -/
def wrapInt (x : Int) : Int :=
  (x + 2 ^ 63) % 2 ^ 64 - 2 ^ 63

/-- The element of a slice at an `int` index, `none` where Go panics with
index out of range. -/
def index? {α : Type} (xs : List α) (i : Int) : Option α :=
  if i < 0 then none else xs.get? i.toNat

/-- One step of `ORDER BY id LIMIT 1`: keep the row with the smaller key. -/
def leastKey (acc : Option User) (u : User) : Option User :=
  match acc with
  | none => some u
  | some a => if u.ID < a.ID then some u else some a

/-- Query `db.Where(...).First(&row)` on users: the matching row with the least
primary key, `none` for record not found. -/
def firstUser (s : Store) (cond : User → Bool) : Option User :=
  (s.users.filter cond).foldl leastKey none

/-- Query `db.First(&media, id)`: the media row with that primary key. -/
def firstMedia (s : Store) (id : Nat) : Option Media :=
  s.medias.find? fun m => decide (m.ID = id)

/-- Query `db.Save(user)` for a user that was loaded from the store: every column
of the row with the primary key of `user` is overwritten. -/
def saveUser (s : Store) (user : User) : Store :=
  { s with users := s.users.map fun u => if u.ID = user.ID then user else u }

/-! ## Pagination cache -/

/-- One hour (`time.Hour`) in nanoseconds, the unit of `time.Duration`. -/
def hour : Int := 3600 * 1000000000

/-- The expiry passed to Redis by `cachePartners`: `12*time.Hour`. -/
def cacheTTL : Int := 12 * hour

/-- The Redis key of a requester: `"partners:" + strconv.FormatInt(id, 10)`. -/
def redisKey (telegramID : Int) : String :=
  "partners:" ++ toString telegramID

/-- Source `cachePartners`: `SET key value EX 12h`, which replaces whatever was
stored under the key.  The JSON encoding of the list is not modelled: the
entry holds the list that decoding gives back. -/
def cachePartners (s : Store) (now : Int) (partners : List User) (telegramID : Int) : Store :=
  { s with cache :=
      ⟨redisKey telegramID, partners, now + cacheTTL⟩ ::
        s.cache.filter fun e => decide (e.key ≠ redisKey telegramID) }

/-- Source `getPartnersFromCache`: the list under the requester's key, `none` (the
error return) when the key is absent or its expiry has passed. -/
def getPartnersFromCache (s : Store) (now : Int) (telegramID : Int) : Option (List User) :=
  match s.cache.find? fun e => decide (e.key = redisKey telegramID) with
  | some e => if now < e.expiresAt then some e.partners else none
  | none => none

/-! ## Browsing -/

/-- Source `has24HoursPassed`: the whole hours between `lastTime` and now,
truncated toward zero, are at least 24.  (`Duration.Hours` is a float; its
truncation to `int` is at least 24 exactly when the duration holds 24 whole
hours.) -/
def has24HoursPassed (now lastTime : Int) : Bool :=
  decide (Int.tdiv (now - lastTime) hour ≥ 24)

/-- Source `showPartnerDetail`.  Returns the store, the user record as the caller
sees it afterwards (the function writes through the pointer) and the messages
sent; `none` when `partners[partnerKeyToShow]` is out of range. -/
def showPartnerDetail (s : Store) (now : Int) (chatID : Int) (user : User)
    (partners : List User) (partnerKeyToShow : Int) :
    Option (Store × User × List Outbound) :=
  if has24HoursPassed now user.LastFindPartnerTime = false ∧ user.CountWatchPartnerLimit ≥ 20 then
    some (s, user,
      [sendMessage chatID "🔒⏰ You need to wait 24 hours before finding the next partner."
        [.backToHomeMenuKeyboard]])
  else
    match index? partners partnerKeyToShow with
    | none => none
    | some partner =>
      let partnerDetailsText :=
        "👥 Partner Details:\nName: " ++ partner.Name ++ "\nEnglish Level: " ++
          partner.EnglishLevel ++ "\n"
      let user := { user with CurrentNumberInPartnerList := 0 }
      let user := { user with CountWatchPartnerLimit := wrapInt (user.CountWatchPartnerLimit + 1) }
      let s := saveUser s user
      let newWatch : WatchList :=
        { ID := s.watchListSeq + 1, UserID := chatID, WatchID := partner.TelegramID }
      let s := { s with watchLists := s.watchLists ++ [newWatch], watchListSeq := s.watchListSeq + 1 }
      let menu := sendMessage chatID "Please ✅ Follow or Watch ➡️ Next Partner..."
        [.selectNextOrAcceptPartnerKeyboard]
      if partner.MediaID ≠ 0 then
        match firstMedia s partner.MediaID with
        | none => some (s, user, [])
        | some media =>
          some (s, user, [.photo chatID media.Filename partnerDetailsText .noMarkup, menu])
      else
        some (s, user,
          [sendMessage chatID partnerDetailsText [.selectNextOrAcceptPartnerKeyboard], menu])

/-- Source `setCurrentFindPartnerQuestion`: the question number defaults to 1000. -/
def setCurrentFindPartnerQuestion (s : Store) (user : User) (number : List Int) :
    Store × User :=
  let user :=
    match number with
    | n :: _ => { user with CurrentFindPartnerQuestion := n }
    | [] => { user with CurrentFindPartnerQuestion := 1000 }
  (saveUser s user, user)

/-- Source `processFindPartnerAnswers`: run the query, cache its result, show the
first partner if there is one, and set the find-partner question to 1002. -/
def processFindPartnerAnswers (s : Store) (now : Int) (chatID : Int) (user : User) :
    Option (Store × User × List Outbound) :=
  let partners :=
    getMatchingPartners s user.LastSelectedEnglishLevel user.LastSelectedGender user.TelegramID
  let s := cachePartners s now partners user.TelegramID
  if partners.length > 0 then
    let (s, user) :=
      if has24HoursPassed now user.LastFindPartnerTime = true then
        let user := { user with LastFindPartnerTime := now, CountWatchPartnerLimit := 0 }
        (saveUser s user, user)
      else (s, user)
    match showPartnerDetail s now chatID user partners 0 with
    | none => none
    | some (s, user, out) =>
      let (s, user) := setCurrentFindPartnerQuestion s user [1002]
      some (s, user, out)
  else
    let out := [sendMessage chatID "No matching partners found. Try adjusting your preferences."
      [.mainKeyboard]]
    let (s, user) := setCurrentFindPartnerQuestion s user [1002]
    some (s, user, out)

/-- Source `handleNextPartner`. -/
def handleNextPartner (s : Store) (now : Int) (chatID : Int) (user : User) :
    Option (Store × User × List Outbound) :=
  let currentPositionInCache : Int :=
    if user.CurrentNumberInPartnerList > 0 then wrapInt (user.CurrentNumberInPartnerList + 1)
    else 1
  match getPartnersFromCache s now user.TelegramID with
  | none => some (s, user, [])
  | some partners =>
    let partnersLength : Int := partners.length
    if partnersLength > currentPositionInCache then
      match showPartnerDetail s now chatID user partners currentPositionInCache with
      | none => none
      | some (s, user, out) =>
        let user := { user with CurrentNumberInPartnerList := currentPositionInCache }
        some (saveUser s user, user, out)
    else
      some (s, user, [sendErrorMessage chatID "dont exist another partner for you."])

/-! ## Follow-request workflow -/

/-- Source `isFollowRequestExists`: counts the rows with the given requester and
target among the rows not marked deleted (the scope of
`db.Model(&FollowRequest{})`); the `accepted` column is not part of the
condition. -/
def isFollowRequestExists (s : Store) (requesterID targetID : Int) : Bool :=
  let count :=
    (s.followRequests.filter fun r =>
      decide (r.RequesterID = requesterID ∧ r.TargetID = targetID ∧ r.Deleted = false)).length
  decide (count > 0)

/-- Source `sendFollowRequestMessage`: the photo with the request caption and the
two inline buttons, sent only inside the `user.MediaID != 0` branch and only
when the media row is found. -/
def sendFollowRequestMessage (s : Store) (partnerID : Int) (user : User) (requesterID : Int) :
    List Outbound :=
  let messageText :=
    user.Name ++ " is requesting to follow you. ✅ Accept or ❌ Decline? \nEnglish Level: " ++
      user.EnglishLevel ++ "\n"
  let keyboard := Keyboard.inlineKeyboard
    [[("✅ Accept", "accept_follow:" ++ toString requesterID),
      ("❌ Decline", "decline_follow:" ++ toString requesterID)]]
  if user.MediaID ≠ 0 then
    match firstMedia s user.MediaID with
    | none => []
    | some media => [.photo partnerID media.Filename messageText keyboard]
  else
    []

/-- Source `handleFollowRequest`, called with the chat of the inbound message and the
user loaded for it.  `none` when `partners[user.CurrentNumberInPartnerList]`
is out of range. -/
def handleFollowRequest (s : Store) (now : Int) (chatID : Int) (user : User) :
    Option (Store × List Outbound) :=
  match getPartnersFromCache s now user.TelegramID with
  | none => some (s, [])
  | some partners =>
    match index? partners user.CurrentNumberInPartnerList with
    | none => none
    | some partner =>
      let partnerID := partner.TelegramID
      if !isFollowRequestExists s user.TelegramID partnerID then
        let followRequest : FollowRequest :=
          { ID := s.followRequestSeq + 1, RequesterID := user.TelegramID,
            TargetID := partnerID, Accepted := false, Deleted := false }
        let s := { s with followRequests := s.followRequests ++ [followRequest],
                          followRequestSeq := s.followRequestSeq + 1 }
        some (s, sendFollowRequestMessage s partnerID user user.TelegramID ++
          [sendMessage chatID "Your follow request has been sent!" [.backToHomeMenuKeyboard]])
      else
        some (s, [sendMessage chatID "You have already sent a follow request to this partner."
          [.backToHomeMenuKeyboard]])

/-- The condition of the accept and decline queries:
`requester_id = ? AND target_id = ? AND accepted = false`, scoped to the rows
not marked deleted. -/
def isPending (requesterID targetID : Int) (r : FollowRequest) : Bool :=
  decide (r.RequesterID = requesterID ∧ r.TargetID = targetID ∧ r.Accepted = false ∧
    r.Deleted = false)

/-- The `UPDATE ... SET accepted = true` of `handleAcceptFollow` on one row. -/
def acceptRow (requesterID targetID : Int) (r : FollowRequest) : FollowRequest :=
  if isPending requesterID targetID r then { r with Accepted := true } else r

/-- The `Delete` of `handleDeclineFollow` on one row: `FollowRequest` embeds
`gorm.Model`, so the statement is `UPDATE ... SET deleted_at = now`; the row
stays in the table. -/
def declineRow (requesterID targetID : Int) (r : FollowRequest) : FollowRequest :=
  if isPending requesterID targetID r then { r with Deleted := true } else r

/-- Source `handleAcceptFollow`, called with the chat of the callback and the partner
id parsed from its data. -/
def handleAcceptFollow (s : Store) (chatID : Int) (partnerID : Int) : Store × List Outbound :=
  match firstUser s fun u => decide (u.TelegramID = chatID) with
  | none => (s, [])
  | some existUser =>
    let rowsAffected :=
      (s.followRequests.filter (isPending partnerID existUser.TelegramID)).length
    let s := { s with followRequests := s.followRequests.map (acceptRow partnerID existUser.TelegramID) }
    if rowsAffected = 0 then
      (s, [sendMessage existUser.TelegramID "No follow request found to Accept."
        [.backToHomeMenuKeyboard]])
    else
      let messageText :=
        if existUser.Username ≠ "" then
          existUser.Name ++ " has accepted your follow request! 🎉\nAccepted username: @" ++
            existUser.Username
        else
          existUser.Name ++ " has accepted your follow request! 🎉\nAccepted Mobile Number: " ++
            existUser.MobileNumber
      let out := [sendMessage partnerID messageText [.backToHomeMenuKeyboard]]
      match firstUser s fun u => decide (u.TelegramID = partnerID) with
      | none => (s, out)
      | some existUser2 =>
        let messageText2 :=
          if existUser2.Username ≠ "" then
            "You have accepted the follow request \n username: @" ++ existUser2.Username
          else
            "You have accepted the follow request \n Mobile Number: " ++
              existUser2.MobileNumber ++ ": "
        (s, out ++ [sendMessage existUser.TelegramID messageText2 [.backToHomeMenuKeyboard]])

/-- Source `handleDeclineFollow`, called with the chat of the callback and the
partner id parsed from its data.  The `Delete` marks the rows it hits as
deleted; `RowsAffected` is the number of rows hit. -/
def handleDeclineFollow (s : Store) (chatID : Int) (partnerID : Int) : Store × List Outbound :=
  match firstUser s fun u => decide (u.TelegramID = chatID) with
  | none => (s, [])
  | some existUser =>
    let rowsAffected :=
      (s.followRequests.filter (isPending partnerID existUser.TelegramID)).length
    let s := { s with followRequests := s.followRequests.map (declineRow partnerID existUser.TelegramID) }
    if rowsAffected = 0 then
      (s, [sendMessage existUser.TelegramID "No follow request found to delete."
        [.backToHomeMenuKeyboard]])
    else
      (s, [sendMessage partnerID (existUser.Name ++ " has declined your follow request. 😔")
            [.backToHomeMenuKeyboard],
           sendMessage existUser.TelegramID "You have declined the follow request."
            [.backToHomeMenuKeyboard]])

/-! ## Inbound messages -/

/-- One size of an uploaded photo as the transport delivers it.  `Ext` is the
extension (`filepath.Ext`) of the path that `bot.GetFile` reports for the
file. -/
structure PhotoSize where
  FileID : String
  FileSize : Int
  Ext : String
deriving DecidableEq, Repr

/-- The fields of `update.Message` that the handlers read: the chat, the
text, the user name of the sender and the photo sizes (empty when the
message carries no photo). -/
structure Message where
  ChatID : Int
  Text : String
  FromUserName : String
  Photo : List PhotoSize
deriving DecidableEq, Repr

/-! ## Onboarding -/

/-- The first question of the onboarding, `iota` 0. -/
def QuestionName : Int := 0

/-- The second question of the onboarding. -/
def QuestionMobileNumber : Int := 1

/-- The third question of the onboarding. -/
def QuestionEnglishLevel : Int := 2

/-- The fourth question of the onboarding. -/
def QuestionProfilePhoto : Int := 3

/-- The fifth question of the onboarding. -/
def QuestionGender : Int := 4

/-- The cursor value of a user who answered every question. -/
def QuestionDone : Int := 5

/-- Source `isValidEnglishLevel`: one of the three levels, and then the test
`englishLevel != ""`. -/
def isValidEnglishLevel (englishLevel : String) : Bool :=
  if englishLevel = "Beginner" ∨ englishLevel = "Intermediate" ∨ englishLevel = "Advanced" then
    decide (englishLevel ≠ "")
  else
    false

/-- Source `validSelectedGender`: the button captions mapped to the stored
values, `"error"` for any other text. -/
def validSelectedGender (gender : String) : String :=
  if gender = "👨 Male" then "male"
  else if gender = "👩 Female" then "female"
  else if gender = "🤷‍♂️ Does Not Matter" then "no matter"
  else "error"

/-- The zero value of `time.Time` (1 January of year 1), in nanoseconds before
the Unix epoch. -/
def zeroTime : Int := -62135596800 * 1000000000

/-- The row `FirstOrCreate` inserts: the Telegram id and zero values. -/
def newUser (id : Nat) (telegramID : Int) : User :=
  { ID := id, TelegramID := telegramID, Username := "", Name := "", MobileNumber := "",
    EnglishLevel := "", Gender := "", MediaID := 0, CurrentQuestion := 0,
    CurrentFindPartnerQuestion := 0, LastSelectedEnglishLevel := "", LastSelectedGender := "",
    LastFindPartnerTime := zeroTime, CountWatchPartnerLimit := 0,
    CurrentNumberInPartnerList := 0, CurrentEditProfileQuestion := "" }

/-- Query `db.FirstOrCreate(&user, User{TelegramID: chatID})` for a chat id
other than 0 (Telegram has no chat 0): the user of the chat, inserted with
zero values when there is none. -/
def firstOrCreateUser (s : Store) (telegramID : Int) : Store × User :=
  match firstUser s fun u => decide (u.TelegramID = telegramID) with
  | some user => (s, user)
  | none =>
    let user := newUser (s.userSeq + 1) telegramID
    ({ s with users := s.users ++ [user], userSeq := s.userSeq + 1 }, user)

/-- Source `sendReplyBackMessageFeatures`: the main keyboard with the first
extra argument followed by " ." as text, or the welcome-back text. -/
def sendReplyBackMessageFeatures (chatID : Int) (dynamicMessageArgs : List String) :
    Outbound :=
  match dynamicMessageArgs with
  | arg :: _ => .message chatID (arg ++ " .") .mainKeyboard
  | [] => .message chatID "🤗 Welcome back! 👋" .mainKeyboard

/-- Source `processUserAnswers`: the final save and the confirmation. -/
def processUserAnswers (s : Store) (user : User) : Store × List Outbound :=
  (saveUser s user, [sendReplyBackMessageFeatures user.TelegramID ["Thank you for completing the registration! You are now a registered user."]])

/-- Source `sendPhotoQuestion`. -/
def sendPhotoQuestion (chatID : Int) : Outbound :=
  .message chatID "Upload your profile photo." .removeKeyboard

/-- Source `askQuestion`: the question of the current cursor; at `QuestionDone`
the registration is finished; any other cursor value sends nothing. -/
def askQuestion (s : Store) (chatID : Int) (user : User) : Store × List Outbound :=
  if user.CurrentQuestion = QuestionName then
    (s, [sendMessage chatID "What's your name?" []])
  else if user.CurrentQuestion = QuestionMobileNumber then
    (s, [sendMessage chatID "What's your mobile number?" [.iDoNotWantToEnterMobileMenuKeyboard]])
  else if user.CurrentQuestion = QuestionEnglishLevel then
    (s, [sendMessage chatID "What's your English level?" [.englishLevelKeyboard]])
  else if user.CurrentQuestion = QuestionProfilePhoto then
    (s, [sendPhotoQuestion chatID])
  else if user.CurrentQuestion = QuestionGender then
    (s, [sendMessage chatID "What is your gender?" [.selectGenderKeyboard]])
  else if user.CurrentQuestion = QuestionDone then
    processUserAnswers s user
  else
    (s, [])

/-- Source `processNextQuestion`: `user.CurrentQuestion++`, save, ask. -/
def processNextQuestion (s : Store) (chatID : Int) (user : User) :
    Store × User × List Outbound :=
  let user := { user with CurrentQuestion := wrapInt (user.CurrentQuestion + 1) }
  let s := saveUser s user
  let (s, out) := askQuestion s chatID user
  (s, user, out)

/-- The statement after the `switch` of `processUserAnswer`, reached by every
branch that does not return: move to the next question. -/
def thenNextQuestion (s : Store) (chatID : Int) (user : User) (out : List Outbound) :
    Store × User × List Outbound :=
  let (s, user, asked) := processNextQuestion s chatID user
  (s, user, out ++ asked)

/-- The loop of `getHighestQualityPhoto`: the index of the first photo whose
size exceeds every size before it and 0. -/
def highestQualityIndex : List PhotoSize → Nat → Nat → Int → Nat
  | [], _, best, _ => best
  | photo :: rest, i, best, bestSize =>
    if photo.FileSize > bestSize then highestQualityIndex rest (i + 1) i photo.FileSize
    else highestQualityIndex rest (i + 1) best bestSize

/-- Source `getHighestQualityPhoto` on a non-empty slice `first :: rest`. -/
def getHighestQualityPhoto (first : PhotoSize) (rest : List PhotoSize) : PhotoSize :=
  (first :: rest).getD (highestQualityIndex (first :: rest) 0 0 0) first

/-- Source `savePhotoToMediaTable`: the file goes to
`storage/<chat id><extension>` and a media row with that file name is
inserted; the result is the key of the row.  The download and the file
system are not modelled. -/
def savePhotoToMediaTable (s : Store) (photo : PhotoSize) (userTelegramID : Int) :
    Store × Nat :=
  let media : Media :=
    { ID := s.mediaSeq + 1, Filename := "storage/" ++ toString userTelegramID ++ photo.Ext }
  ({ s with medias := s.medias ++ [media], mediaSeq := s.mediaSeq + 1 }, media.ID)

/-- Source `handlePhotoUpload`: the media key of the stored photo, or 0 and an
error message when the message has no photo. -/
def handlePhotoUpload (s : Store) (message : Message) : Store × Nat × List Outbound :=
  match message.Photo with
  | first :: rest =>
    let photo := getHighestQualityPhoto first rest
    let (s, mediaID) := savePhotoToMediaTable s photo message.ChatID
    (s, mediaID, [])
  | [] => (s, 0, [sendErrorMessage message.ChatID "Please upload a photo."])

/-- Source `handleExistingUser`: frees the photo the user holds: the media row
is deleted, `MediaID` is set to 0 and the user is saved.  Nothing happens when
the user holds no photo or the media row is not found. -/
def handleExistingUser (s : Store) (user : User) : Store × User :=
  if user.MediaID ≠ 0 then
    match firstMedia s user.MediaID with
    | none => (s, user)
    | some media =>
      let remaining := s.medias.filter fun m => decide (m.ID ≠ media.ID)
      let s := { s with medias := remaining }
      let user := { user with MediaID := 0 }
      (saveUser s user, user)
  else
    (s, user)

/-! ## Profile editing -/

/-- Source `setCurrentEditProfileQuestion`: both branches store the given
value; then the user is saved. -/
def setCurrentEditProfileQuestion (s : Store) (user : User) (question : String) :
    Store × User :=
  let user :=
    if question = "empty" then { user with CurrentEditProfileQuestion := "empty" }
    else { user with CurrentEditProfileQuestion := question }
  (saveUser s user, user)

/-- Source `handleEditProfileName`.  The test of the source, that the kind of
`update.Message.Text` is string, holds for every message, so the re-prompt
branch is never taken. -/
def handleEditProfileName (s : Store) (message : Message) (user : User) :
    Store × User × List Outbound :=
  let user := { user with Name := message.Text }
  let s := saveUser s user
  let (s, user) := setCurrentEditProfileQuestion s user "empty"
  (s, user, [sendMessage message.ChatID "Your name has been edited successfully" [.editProfileMenuKeyboard]])

/-- Source `handleEditProfileEnglishLevel`. -/
def handleEditProfileEnglishLevel (s : Store) (message : Message) (user : User) :
    Store × User × List Outbound :=
  if message.Text = "Beginner" ∨ message.Text = "Intermediate" ∨ message.Text = "Advanced" then
    let user := { user with EnglishLevel := message.Text }
    let s := saveUser s user
    let (s, user) := setCurrentEditProfileQuestion s user "empty"
    (s, user, [sendMessage message.ChatID "Your English Level has been edited successfully" [.editProfileMenuKeyboard]])
  else
    (s, user, [sendMessage message.ChatID "Please Select Your English Level" [.editEnglishLevelKeyboard]])

/-- The tail of `handleEditProfileGender` after the gender was set. -/
def saveEditedGender (s : Store) (message : Message) (user : User) :
    Store × User × List Outbound :=
  let s := saveUser s user
  let (s, user) := setCurrentEditProfileQuestion s user "empty"
  (s, user, [sendMessage message.ChatID "Your Gender has been edited successfully" [.editProfileMenuKeyboard]])

/-- Source `handleEditProfileGender`. -/
def handleEditProfileGender (s : Store) (message : Message) (user : User) :
    Store × User × List Outbound :=
  if message.Text = "👨 Male" then
    saveEditedGender s message { user with Gender := "male" }
  else if message.Text = "👩 Female" then
    saveEditedGender s message { user with Gender := "female" }
  else
    (s, user, [sendMessage message.ChatID "Please Select Your Gender" [.editGenderKeyboard]])

/-- The `default` branch of the `switch` in `processUserAnswer`: the answer to
an edit question.  With the edit cursor at "empty" the function returns; the
photo edit without a photo returns after its error message; every other path
goes on to the next question. -/
def processEditAnswer (s : Store) (message : Message) (user : User) :
    Store × User × List Outbound :=
  if user.CurrentEditProfileQuestion ≠ "empty" then
    if user.CurrentEditProfileQuestion = "name" then
      let (s, user, out) := handleEditProfileName s message user
      thenNextQuestion s message.ChatID user out
    else if user.CurrentEditProfileQuestion = "english_level" then
      let (s, user, out) := handleEditProfileEnglishLevel s message user
      thenNextQuestion s message.ChatID user out
    else if user.CurrentEditProfileQuestion = "gender" then
      let (s, user, out) := handleEditProfileGender s message user
      thenNextQuestion s message.ChatID user out
    else if user.CurrentEditProfileQuestion = "profile_photo" then
      if message.Photo ≠ [] then
        let (s, user) := handleExistingUser s user
        let (s, mediaID, out) := handlePhotoUpload s message
        let user := { user with MediaID := mediaID }
        let s := saveUser s user
        let (s, user) := setCurrentEditProfileQuestion s user "empty"
        thenNextQuestion s message.ChatID user
          (out ++ [sendMessage message.ChatID "Your Profile Photo has been updated successfully" [.editProfileMenuKeyboard]])
      else
        (s, user, [sendErrorMessage message.ChatID "Please Upload a Your Profile Photo."])
    else
      thenNextQuestion s message.ChatID user []
  else
    (s, user, [])

/-- Source `processUserAnswer`: stores the user name of the sender in the
record, handles the answer to the current question and, unless the answer was
rejected, moves to the next question. -/
def processUserAnswer (s : Store) (message : Message) (user : User) :
    Store × User × List Outbound :=
  let user := { user with Username := message.FromUserName }
  if user.CurrentQuestion = QuestionName then
    thenNextQuestion s message.ChatID { user with Name := message.Text } []
  else if user.CurrentQuestion = QuestionMobileNumber then
    if message.Text = "⏭️ I do not want to enter mobile number" then
      thenNextQuestion s message.ChatID { user with MobileNumber := "empty" } []
    else
      let checkValidMobile := isValidMobileNumber message.Text
      if checkValidMobile ≠ "error" then
        thenNextQuestion s message.ChatID { user with MobileNumber := checkValidMobile } []
      else
        (s, user, [sendErrorMessage message.ChatID "Invalid mobile number. Please enter a valid 11-digit mobile number."])
  else if user.CurrentQuestion = QuestionEnglishLevel then
    if isValidEnglishLevel message.Text then
      thenNextQuestion s message.ChatID { user with EnglishLevel := message.Text } []
    else
      (s, user, [sendErrorMessage message.ChatID "Invalid English level. Please select from Beginner, Intermediate, or Advanced."])
  else if user.CurrentQuestion = QuestionProfilePhoto then
    if message.Photo ≠ [] then
      let (s, user) := handleExistingUser s user
      let (s, mediaID, out) := handlePhotoUpload s message
      thenNextQuestion s message.ChatID { user with MediaID := mediaID } out
    else
      (s, user, [sendErrorMessage message.ChatID "Please Upload a Your Profile Photo."])
  else if user.CurrentQuestion = QuestionGender then
    let SelectedGender := validSelectedGender message.Text
    if SelectedGender = "male" ∨ SelectedGender = "female" then
      thenNextQuestion s message.ChatID { user with Gender := SelectedGender } []
    else
      (s, user, [sendErrorMessage message.ChatID "Invalid Gender. Please select from Male or Female."])
  else
    processEditAnswer s message user

/-! ## Routing of inbound messages -/

/-- Source `showUserDetails`: the profile photo with the details as caption;
nothing is sent when the user holds no photo or the media row is not found. -/
def showUserDetails (s : Store) (chatID : Int) (user : User) : List Outbound :=
  let profileDetailsText :=
    "🧑‍💼 User Profile Details:\nName: " ++ user.Name ++ "\nMobile Number: " ++
      user.MobileNumber ++ "\nEnglish Level: " ++ user.EnglishLevel ++ "\nGender: " ++
      user.Gender
  if user.MediaID ≠ 0 then
    match firstMedia s user.MediaID with
    | none => []
    | some media => [.photo chatID media.Filename profileDetailsText .noMarkup]
  else
    []

/-- The text of the first message of `startBot` to a new user. -/
def welcomeText : String :=
  "Welcome to the English Partner Go Bot! 🇬🇧👥\n\nسلام از آشنایی با شما خوشحالم. این ربات به شما کمک میکند تا پارتنر هم سطح خود برای تمرین زبان انگلیسی پیدا کنید. مراحل ثبت نام را انجام دهید و پروفایل خود را بسازید و سپس شروع کنید. شماره موبایل شما محفوظ و غیر قابل نمایش خواهد ماند و تنها آی دی تلگرام شما و عکس پروفایلی که اپلود میکنید به دیگران نمایش داده خواهد شد."

/-- Source `startBot`: a user with a name and a mobile number gets the
welcome-back message; anyone else is created if needed, put at the first
question and asked it. -/
def startBot (s : Store) (message : Message) : Store × List Outbound :=
  match firstUser s fun u =>
      decide (u.TelegramID = message.ChatID ∧ u.Name ≠ "" ∧ u.MobileNumber ≠ "") with
  | some existingUser => (s, [sendReplyBackMessageFeatures existingUser.TelegramID []])
  | none =>
    let (s, user) := firstOrCreateUser s message.ChatID
    let user := { user with CurrentQuestion := QuestionName }
    let s := saveUser s user
    let (s, out) := askQuestion s message.ChatID user
    (s, Outbound.message message.ChatID welcomeText .noMarkup :: out)

/-- Source `handleFindPartner`: the find-partner question becomes 1000 and the
English level filter is asked. -/
def handleFindPartner (s : Store) (chatID : Int) (user : User) :
    Store × User × List Outbound :=
  let (s, user) := setCurrentFindPartnerQuestion s user []
  (s, user, [sendMessage chatID "What's the preferred English level of your potential partner?" [.englishLevelKeyboard]])

/-- Source `handleEnglishLevelFilter`. -/
def handleEnglishLevelFilter (s : Store) (message : Message) (user : User) :
    Store × User × List Outbound :=
  if message.Text = "Beginner" ∨ message.Text = "Intermediate" ∨ message.Text = "Advanced" then
    let user := { user with CurrentFindPartnerQuestion := 1001,
                            LastSelectedEnglishLevel := message.Text }
    (saveUser s user, user, [sendMessage message.ChatID "What's the preferred gender of your potential partner?" [.selectGenderFilterKeyboard]])
  else
    (s, user, [sendErrorMessage message.ChatID "Invalid English level option. Please select from Beginner, Intermediate, or Advanced."])

/-- Source `handleGenderFilter`: a valid filter is stored and the search runs. -/
def handleGenderFilter (s : Store) (now : Int) (message : Message) (user : User) :
    Option (Store × User × List Outbound) :=
  if message.Text = "👨 Male" ∨ message.Text = "👩 Female" ∨ message.Text = "🤷‍♂️ Does Not Matter" then
    let (s, user) := setCurrentFindPartnerQuestion s user []
    let checkValidGender := validSelectedGender message.Text
    let invalid :=
      if checkValidGender = "error" then [sendErrorMessage message.ChatID "Invalid gender option. Please select from Male or Female."] else []
    let user := { user with LastSelectedGender := checkValidGender }
    let s := saveUser s user
    match processFindPartnerAnswers s now message.ChatID user with
    | none => none
    | some (s, user, out) => some (s, user, invalid ++ out)
  else
    some (s, user, [sendErrorMessage message.ChatID "Invalid gender option. Please select from Male or Female."])

/-- Source `handleUserResponse`: loads (or creates) the user of the chat and
routes the message by its text; a text that is no command goes to the filter
dialogue when the find-partner question is 1000 or 1001, and to
`processUserAnswer` otherwise.  `none` when the routed handler runs out of
range. -/
def handleUserResponse (s : Store) (now : Int) (message : Message) :
    Option (Store × List Outbound) :=
  let (s, user) := firstOrCreateUser s message.ChatID
  if message.Text = "Next Question" then
    let (s, _, out) := processNextQuestion s message.ChatID user
    some (s, out)
  else if message.Text = "🧑‍💼 Show Profile" then
    some (s, showUserDetails s message.ChatID user)
  else if message.Text = "🧑‍💼🛠️ Edit Profile" then
    some (s, [sendMessage message.ChatID "Choose one of the options below:" [.editProfileMenuKeyboard]])
  else if message.Text = "👤 Edit Name" then
    let (s, _) := setCurrentEditProfileQuestion s user "name"
    some (s, [sendMessage message.ChatID "Please Type Your Name:" [.editProfileMenuKeyboard]])
  else if message.Text = "🗣️🌍 Edit English Level" then
    let (s, _) := setCurrentEditProfileQuestion s user "english_level"
    some (s, [sendMessage message.ChatID "Please Select Your English Level:" [.editEnglishLevelKeyboard]])
  else if message.Text = "👫 Edit Gender" then
    let (s, _) := setCurrentEditProfileQuestion s user "gender"
    some (s, [sendMessage message.ChatID "Please Select Your Gender:" [.editGenderKeyboard]])
  else if message.Text = "🖼️ Edit Profile Photo" then
    let (s, _) := setCurrentEditProfileQuestion s user "profile_photo"
    some (s, [sendMessage message.ChatID "Please Upload Your Profile Photo:" [.editProfileMenuKeyboard]])
  else if message.Text = "🤜🤛👥 Find Partner" then
    let (s, _, out) := handleFindPartner s message.ChatID user
    some (s, out)
  else if message.Text = "➡️ Next Partner" then
    match handleNextPartner s now message.ChatID user with
    | none => none
    | some (s, _, out) => some (s, out)
  else if message.Text = "✅ Follow Partner" then
    handleFollowRequest s now message.ChatID user
  else if message.Text = "🏠 Back To Home Menu" then
    some (startBot s message)
  else if user.CurrentFindPartnerQuestion = 1000 then
    let (s, _, out) := handleEnglishLevelFilter s message user
    some (s, out)
  else if user.CurrentFindPartnerQuestion = 1001 then
    match handleGenderFilter s now message user with
    | none => none
    | some (s, _, out) => some (s, out)
  else
    let (s, _, out) := processUserAnswer s message user
    some (s, out)

/-! ## Sequences of follow-request operations -/

/-- The stores reached from an empty follow-request table by Request, Accept
and Decline calls of any users with any arguments, interleaved with any other
activity that does not write the follow-request table. -/
inductive Reachable : Store → Prop where
  | start (s : Store) (h : s.followRequests = []) : Reachable s
  | request (s t : Store) (now chatID : Int) (user : User) (out : List Outbound)
      (hs : Reachable s) (h : handleFollowRequest s now chatID user = some (t, out)) :
      Reachable t
  | accept (s : Store) (chatID partnerID : Int) (hs : Reachable s) :
      Reachable (handleAcceptFollow s chatID partnerID).1
  | decline (s : Store) (chatID partnerID : Int) (hs : Reachable s) :
      Reachable (handleDeclineFollow s chatID partnerID).1
  | other (s t : Store) (hs : Reachable s) (h : t.followRequests = s.followRequests) :
      Reachable t

/-- The rows from requester to target that are not marked deleted, whatever
their accepted flag. -/
def isPair (requesterID targetID : Int) (r : FollowRequest) : Bool :=
  decide (r.RequesterID = requesterID ∧ r.TargetID = targetID ∧ r.Deleted = false)

/-! ## Outcomes named by the specification -/

/-- The reply of `handleFollowRequest` when a request already exists
(`AlreadyRequested`). -/
def alreadyRequested (chatID : Int) : Outbound :=
  sendMessage chatID "You have already sent a follow request to this partner."
    [.backToHomeMenuKeyboard]

/-- The reply of `handleAcceptFollow` when no row was updated (`NotFound`). -/
def noRequestToAccept (chatID : Int) : Outbound :=
  sendMessage chatID "No follow request found to Accept." [.backToHomeMenuKeyboard]

/-- The reply of `handleDeclineFollow` when no row was deleted (`NotFound`). -/
def noRequestToDelete (chatID : Int) : Outbound :=
  sendMessage chatID "No follow request found to delete." [.backToHomeMenuKeyboard]

/-- The reply of `handleNextPartner` at the end of the list
(`NoMoreCandidates`). -/
def noMoreCandidates (chatID : Int) : Outbound :=
  sendErrorMessage chatID "dont exist another partner for you."

/-- The row `handleFollowRequest` inserts for requester and target. -/
def newFollowRequest (s : Store) (requesterID targetID : Int) : FollowRequest :=
  { ID := s.followRequestSeq + 1, RequesterID := requesterID, TargetID := targetID,
    Accepted := false, Deleted := false }

/-- Successive "➡️ Next Partner" messages of one chat at the given instants, as
`handleUserResponse` routes them: each call loads the user of the chat and
runs `handleNextPartner`.  The result is the store after the last call; `none`
when a call finds no user, runs out of range, or answers that there is no
other partner. -/
def nextPartnerCalls (chatID : Int) : List Int → Store → Option Store
  | [], s => some s
  | now :: rest, s =>
    match firstUser s fun u => decide (u.TelegramID = chatID) with
    | none => none
    | some user =>
      match handleNextPartner s now chatID user with
      | none => none
      | some (t, _, out) =>
        if noMoreCandidates chatID ∈ out then none else nextPartnerCalls chatID rest t

/-- The reply of `showPartnerDetail` when the rate limiter rejects the show
attempt (`RateLimitError`). -/
def cooldown (chatID : Int) : Outbound :=
  sendMessage chatID "🔒⏰ You need to wait 24 hours before finding the next partner." [.backToHomeMenuKeyboard]

/-- Successive show attempts for one requester at the given instants, each on
the candidate at index `k` of `partners`, each with the user record the
previous attempt left.  The result is the store and the record after the last
attempt; `none` when an attempt runs out of range or is answered with the
cooldown message. -/
def showCalls (chatID : Int) (partners : List User) (k : Int) :
    List Int → Store → User → Option (Store × User)
  | [], s, user => some (s, user)
  | now :: rest, s, user =>
    match showPartnerDetail s now chatID user partners k with
    | none => none
    | some (t, u1, out) =>
      if cooldown chatID ∈ out then none else showCalls chatID partners k rest t u1

/-- The row stored for the user of a chat. -/
def persistedUser (s : Store) (chatID : Int) : Option User :=
  firstUser s fun u => decide (u.TelegramID = chatID)

/-- The onboarding cursor stored for the user of a chat. -/
def persistedQuestion (s : Store) (chatID : Int) : Option Int :=
  (persistedUser s chatID).map fun u => u.CurrentQuestion

/-- The texts that `handleUserResponse` treats as commands. -/
def routerCommands : List String :=
  ["Next Question", "🧑‍💼 Show Profile", "🧑‍💼🛠️ Edit Profile", "👤 Edit Name", "🗣️🌍 Edit English Level", "👫 Edit Gender", "🖼️ Edit Profile Photo", "🤜🤛👥 Find Partner", "➡️ Next Partner", "✅ Follow Partner", "🏠 Back To Home Menu"]

/-- The caption of the button that skips the mobile number. -/
def skipMobileNumber : String :=
  "⏭️ I do not want to enter mobile number"

/-- The message passes the guard that `processUserAnswer` applies at the
onboarding question with the given number: any text for the name; the skip
caption or a text for which `isValidMobileNumber` does not return "error"; a
level accepted by `isValidEnglishLevel`; a photo; a caption that
`validSelectedGender` maps to male or female. -/
def acceptedAnswer (question : Int) (message : Message) : Prop :=
  (question = QuestionName) ∨
  (question = QuestionMobileNumber ∧
    (message.Text = skipMobileNumber ∨ isValidMobileNumber message.Text ≠ "error")) ∨
  (question = QuestionEnglishLevel ∧ isValidEnglishLevel message.Text = true) ∨
  (question = QuestionProfilePhoto ∧ message.Photo ≠ []) ∨
  (question = QuestionGender ∧
    (validSelectedGender message.Text = "male" ∨ validSelectedGender message.Text = "female"))

instance (question : Int) (message : Message) : Decidable (acceptedAnswer question message) :=
  inferInstanceAs (Decidable (_ ∨ _))

/-- A valid mobile number in the words of the specification: after stripping
spaces, hyphens and underscores the text is exactly 11 numeric characters. -/
def validMobileNumber (text : String) : Prop :=
  (stripped text).length = 11 ∧ ∀ c ∈ (stripped text).data, unicodeIsDigit c = true

instance (text : String) : Decidable (validMobileNumber text) :=
  inferInstanceAs (Decidable (_ ∧ _))

/-- A valid answer in the words of the specification, for the onboarding
question with the given number: any text for the name; the skip option or a
valid mobile number; one of the levels Beginner, Intermediate, Advanced; a
message with a photo; the caption for male or for female. -/
def validAnswer (question : Int) (message : Message) : Prop :=
  (question = QuestionName) ∨
  (question = QuestionMobileNumber ∧
    (message.Text = skipMobileNumber ∨ validMobileNumber message.Text)) ∨
  (question = QuestionEnglishLevel ∧
    message.Text ∈ ["Beginner", "Intermediate", "Advanced"]) ∨
  (question = QuestionProfilePhoto ∧ message.Photo ≠ []) ∨
  (question = QuestionGender ∧ message.Text ∈ ["👨 Male", "👩 Female"])

instance (question : Int) (message : Message) : Decidable (validAnswer question message) :=
  inferInstanceAs (Decidable (_ ∨ _))

/-- The onboarding states that validate their answer. -/
def validatingQuestion (question : Int) : Prop :=
  question = QuestionMobileNumber ∨ question = QuestionEnglishLevel ∨
    question = QuestionProfilePhoto ∨ question = QuestionGender

instance (question : Int) : Decidable (validatingQuestion question) :=
  inferInstanceAs (Decidable (_ ∨ _))

/-- Successive answers of one user, each handled by `processUserAnswer` with
the user record the previous answer left. -/
def processAnswers : List Message → Store → User → Store × User
  | [], s, user => (s, user)
  | message :: rest, s, user =>
    let (t, u1, _) := processUserAnswer s message user
    processAnswers rest t u1

/-- Successive inbound messages, each with the instant at which it is
handled by `handleUserResponse`; `none` when a handler runs out of range. -/
def handleUserResponses : List (Int × Message) → Store → Option Store
  | [], s => some s
  | (now, message) :: rest, s =>
    match handleUserResponse s now message with
    | none => none
    | some (t, _) => handleUserResponses rest t

/-- The users table holds the record `user`, and every row with its key is
that record: `user` is what the store has persisted for this user. -/
def Persisted (s : Store) (user : User) : Prop :=
  user ∈ s.users ∧ ∀ u ∈ s.users, u.ID = user.ID → u = user

/-- The browse cursor stored for the user of a chat. -/
def persistedCursor (s : Store) (chatID : Int) : Option Int :=
  (firstUser s fun u => decide (u.TelegramID = chatID)).map fun u =>
    u.CurrentNumberInPartnerList

/-- The rate limiter of `showPartnerDetail` rejects the show attempt. -/
def rateLimited (now : Int) (user : User) : Prop :=
  has24HoursPassed now user.LastFindPartnerTime = false ∧ user.CountWatchPartnerLimit ≥ 20

instance (now : Int) (user : User) : Decidable (rateLimited now user) :=
  inferInstanceAs (Decidable (_ ∧ _))

/-! ## Example data -/

/-- A registered user with the given key, Telegram id, name, level and gender;
the remaining columns hold the values of a user who is not browsing. -/
def mkUser (id : Nat) (telegramID : Int) (name level gender : String) : User :=
  { ID := id, TelegramID := telegramID, Username := "", Name := name,
    MobileNumber := "empty", EnglishLevel := level, Gender := gender, MediaID := 0,
    CurrentQuestion := 5, CurrentFindPartnerQuestion := 0, LastSelectedEnglishLevel := "",
    LastSelectedGender := "", LastFindPartnerTime := 0, CountWatchPartnerLimit := 0,
    CurrentNumberInPartnerList := 0, CurrentEditProfileQuestion := "empty" }

/-- The requester A of the end-to-end example. -/
def userA : User := mkUser 1 100 "A" "Intermediate" "male"

/-- Candidate B of the end-to-end example. -/
def userB : User := mkUser 2 200 "B" "Intermediate" "female"

/-- Candidate C of the end-to-end example. -/
def userC : User := mkUser 3 300 "C" "Intermediate" "male"

/-- Candidate D of the end-to-end example. -/
def userD : User := mkUser 4 400 "D" "Intermediate" "female"

/-- Candidate E of the end-to-end example, a beginner. -/
def userE : User := mkUser 5 500 "E" "Beginner" "male"

/-- The store of the end-to-end example: the five users, nothing watched, no
follow request, an empty cache. -/
def exampleStore : Store :=
  { users := [userA, userB, userC, userD, userE], medias := [], followRequests := [],
    watchLists := [], followRequestSeq := 0, watchListSeq := 0, cache := [], userSeq := 5,
    mediaSeq := 0 }

/-- The example store after A (100) has been shown B (200): one watch record. -/
def watchedStore : Store :=
  { exampleStore with
    watchLists := [{ ID := 1, UserID := 100, WatchID := 200 }], watchListSeq := 1 }

/-- The example store after A's search (Intermediate, "no matter") at time 0:
the result B, C, D is cached under A's key. -/
def browsingStore : Store :=
  cachePartners exampleStore 0 [userB, userC, userD] 100

/-- The browsing store in which A's request to B has already been accepted. -/
def acceptedStore : Store :=
  { browsingStore with
    followRequests :=
      [{ ID := 1, RequesterID := 100, TargetID := 200, Accepted := true, Deleted := false }],
    followRequestSeq := 1 }

/-- The browsing store after A asked to follow B. -/
def requestedStore : Store :=
  { browsingStore with
    followRequests :=
      [{ ID := 1, RequesterID := 100, TargetID := 200, Accepted := false, Deleted := false }],
    followRequestSeq := 1 }

/-- The browsing store after A asked to follow B and B declined: the row is
still in the table, marked deleted. -/
def declinedStore : Store :=
  { browsingStore with
    followRequests :=
      [{ ID := 1, RequesterID := 100, TargetID := 200, Accepted := false, Deleted := true }],
    followRequestSeq := 1 }

/-- The store `declinedStore` after A asked to follow B once more. -/
def requestedAgainStore : Store :=
  { browsingStore with
    followRequests :=
      [{ ID := 1, RequesterID := 100, TargetID := 200, Accepted := false, Deleted := true },
       { ID := 2, RequesterID := 100, TargetID := 200, Accepted := false, Deleted := false }],
    followRequestSeq := 2 }

/-- User A with the filters (Intermediate, "no matter") selected. -/
def searchingUser : User :=
  { userA with LastSelectedEnglishLevel := "Intermediate", LastSelectedGender := "no matter",
               CurrentFindPartnerQuestion := 1000 }

/-- The example store with A about to search. -/
def searchStore : Store :=
  { exampleStore with users := [searchingUser, userB, userC, userD, userE] }

/-- User A at cursor 2 of an earlier list, now filtering for (Advanced, "no
matter"), which nobody in the pool matches. -/
def staleUser : User :=
  { userA with LastSelectedEnglishLevel := "Advanced", LastSelectedGender := "no matter",
               CurrentFindPartnerQuestion := 1000, CurrentNumberInPartnerList := 2 }

/-- The browsing store with A as `staleUser`. -/
def staleStore : Store :=
  { browsingStore with users := [staleUser, userB, userC, userD, userE] }

/-- User A at cursor 2 of an earlier list, with 20 views in the window that
started at time 0, now filtering for (Intermediate, "no matter"). -/
def limitedUser : User :=
  { userA with LastSelectedEnglishLevel := "Intermediate", LastSelectedGender := "no matter",
               CurrentFindPartnerQuestion := 1000, CurrentNumberInPartnerList := 2,
               CountWatchPartnerLimit := 20 }

/-- The browsing store with A as `limitedUser`. -/
def limitedStore : Store :=
  { browsingStore with users := [limitedUser, userB, userC, userD, userE] }

/-- User A with 20 views in the window that started at time 0, at cursor 0
of the cached list. -/
def limitedNextUser : User :=
  { userA with CountWatchPartnerLimit := 20 }

/-- The browsing store with A as `limitedNextUser`. -/
def limitedNextStore : Store :=
  { browsingStore with users := [limitedNextUser, userB, userC, userD, userE] }

/-- The store in which A, with 20 views in the window that started at time 0,
has the list B, C, D cached since hour 20. -/
def expiredWindowStore : Store :=
  cachePartners { exampleStore with users := [limitedNextUser, userB, userC, userD, userE] }
    (20 * hour) [userB, userC, userD] 100

/-- A text message of chat 100. -/
def textMessage (text : String) : Message :=
  { ChatID := 100, Text := text, FromUserName := "a_user", Photo := [] }

/-- A photo message of chat 100 with a single size. -/
def photoMessage : Message :=
  { ChatID := 100, Text := "", FromUserName := "a_user",
    Photo := [{ FileID := "file-1", FileSize := 1000, Ext := ".jpg" }] }

/-- The five answers of a registration in chat 100 (name, mobile number,
English level, photo, gender), handled at the instants 1 to 5. -/
def registrationAnswers : List (Int × Message) :=
  [(1, textMessage "Ali"), (2, textMessage "0912 345 6789"), (3, textMessage "Advanced"),
    (4, photoMessage), (5, textMessage "👨 Male")]

/-- A user of chat 100 who has given a name and is asked for the mobile
number. -/
def onboardingUser : User :=
  { newUser 1 100 with Name := "A", CurrentQuestion := 1 }

/-- A store whose only user is `onboardingUser`. -/
def onboardingStore : Store :=
  { exampleStore with users := [onboardingUser], userSeq := 1 }

/-- A store whose only user has just been created for chat 100. -/
def freshStore : Store :=
  { exampleStore with users := [newUser 1 100], userSeq := 1 }

/-- The registered user A about to edit the English level. -/
def editingUser : User :=
  { userA with CurrentEditProfileQuestion := "english_level" }

/-- The example store with A as `editingUser`. -/
def editingStore : Store :=
  { exampleStore with users := [editingUser, userB, userC, userD, userE] }

/-- An input of 11 bytes and 6 characters: the digit 1 followed by five
Extended Arabic-Indic (Persian) digits, each two bytes long in UTF-8. -/
def sixDigitInput : String := "1\u06F0\u06F1\u06F2\u06F3\u06F4"

/-- A mobile number typed with Persian digits: 11 characters, 22 bytes. -/
def persianMobileNumber : String :=
  "\u06F0\u06F9\u06F1\u06F2\u06F3\u06F4\u06F5\u06F6\u06F7\u06F8\u06F9"

/-! ## Theorems: validation -/

/-- What `isValidMobileNumber` computes, in terms of the stripped string: the
length test is on bytes. -/
theorem isValidMobileNumber_eq (s : String) :
    isValidMobileNumber s =
      if len (stripped s) = 11 ∧ isNumeric (stripped s) = true then stripped s else "error" :=
  rfl

/-- C1 (defect in the code): `isValidMobileNumber` measures the stripped string
in bytes.  The input `sixDigitInput` strips to itself, holds 6 numeric
characters, and is returned as a valid number instead of `"error"`; the input
`persianMobileNumber` strips to 11 numeric characters and is answered with
`"error"`. -/
theorem isValidMobileNumber_counts_bytes :
    (stripped sixDigitInput = sixDigitInput ∧ (stripped sixDigitInput).length = 6 ∧
      isNumeric (stripped sixDigitInput) = true ∧
      isValidMobileNumber sixDigitInput = sixDigitInput ∧
      isValidMobileNumber sixDigitInput ≠ "error") ∧
    ((stripped persianMobileNumber).length = 11 ∧
      isNumeric (stripped persianMobileNumber) = true ∧
      isValidMobileNumber persianMobileNumber = "error") := by
  decide

/-! ## Theorems: matching engine -/

/-- The two queries of `getMatchingPartners` select by the match predicate of
the specification, with the watch ids of the requester as exclusion set, and
keep the first 10 rows. -/
theorem getMatchingPartners_eq_take_filter (s : Store) (L G : String) (R : Int) :
    getMatchingPartners s L G R =
      (s.users.filter (matchPredicate L G R (getWatchIDs s R))).take 10 := by
  unfold getMatchingPartners
  have hnil : (getWatchIDs s R).length > 0 ∨ getWatchIDs s R = [] := by
    cases h : getWatchIDs s R with
    | nil => exact Or.inr rfl
    | cons a l => exact Or.inl (by simp)
  by_cases hG : G = "no matter"
  · rcases hnil with hpos | hempty
    · simp only [hG, if_true, hpos]
      congr 1
      apply List.filter_congr
      intro u _
      simp [matchPredicate, Bool.and_assoc]
    · simp only [hG, if_true, hempty, List.length_nil, gt_iff_lt, lt_self_iff_false, if_false]
      congr 1
      apply List.filter_congr
      intro u _
      simp [matchPredicate]
  · rcases hnil with hpos | hempty
    · simp only [hG, if_false, hpos, if_true]
      congr 1
      apply List.filter_congr
      intro u _
      simp [matchPredicate, hG, Bool.and_assoc]
    · simp only [hG, if_false, hempty, List.length_nil, gt_iff_lt, lt_self_iff_false]
      congr 1
      apply List.filter_congr
      intro u _
      simp [matchPredicate, hG]

/-- The watch ids of a requester are the `watch_id` values of the watch-list
rows whose `user_id` is the requester. -/
theorem mem_getWatchIDs (s : Store) (R id : Int) :
    id ∈ getWatchIDs s R ↔ ∃ w ∈ s.watchLists, w.UserID = R ∧ w.WatchID = id := by
  unfold getWatchIDs
  simp only [List.mem_map, List.mem_filter, decide_eq_true_eq]
  constructor
  · rintro ⟨w, ⟨hw, hu⟩, hid⟩
    exact ⟨w, hw, hu, hid⟩
  · rintro ⟨w, hw, hu, hid⟩
    exact ⟨w, ⟨hw, hu⟩, hid⟩

/-- The two queries of `getMatchingPartners` select by the match predicate of
the specification for every exclusion set that holds exactly the ids recorded
as watched by the requester in the watch-list table. -/
theorem getMatchingPartners_eq_of_exclusion (s : Store) (L G : String) (R : Int)
    (X : List Int)
    (hX : ∀ id : Int, id ∈ X ↔ ∃ w ∈ s.watchLists, w.UserID = R ∧ w.WatchID = id) :
    getMatchingPartners s L G R = (s.users.filter (matchPredicate L G R X)).take 10 := by
  rw [getMatchingPartners_eq_take_filter]
  congr 1
  apply List.filter_congr
  intro u _
  have hiff : u.TelegramID ∈ getWatchIDs s R ↔ u.TelegramID ∈ X :=
    (mem_getWatchIDs s R u.TelegramID).trans (hX u.TelegramID).symm
  simp only [matchPredicate, hiff]

/-- C2: let X be the exclusion set of the requester R, that is, X holds
exactly the ids that the rows of the watch-list table record as watched by R.
Every profile returned by `getMatchingPartners s L G R` has an id different
from R, an id outside X (no watch-list row of R names it), English level L,
and gender G unless G is "no matter"; and at most 10 profiles are returned. -/
theorem getMatchingPartners_sound (s : Store) (L G : String) (R : Int) (X : List Int)
    (hX : ∀ id : Int, id ∈ X ↔ ∃ w ∈ s.watchLists, w.UserID = R ∧ w.WatchID = id) :
    (∀ p ∈ getMatchingPartners s L G R,
      p.TelegramID ≠ R ∧ p.TelegramID ∉ X ∧ p.EnglishLevel = L ∧
        (G ≠ "no matter" → p.Gender = G)) ∧
    (∀ p ∈ getMatchingPartners s L G R, ∀ w ∈ s.watchLists,
      w.UserID = R → w.WatchID ≠ p.TelegramID) ∧
    (getMatchingPartners s L G R).length ≤ 10 := by
  rw [getMatchingPartners_eq_of_exclusion s L G R X hX]
  have hpred : ∀ p ∈ (s.users.filter (matchPredicate L G R X)).take 10,
      p.EnglishLevel = L ∧ (p.Gender = G ∨ G = "no matter") ∧ p.TelegramID ≠ R ∧
        p.TelegramID ∉ X := by
    intro p hp
    have hmem := List.mem_of_mem_take hp
    have h := (List.mem_filter.mp hmem).2
    simp only [matchPredicate, decide_eq_true_eq] at h
    exact h
  refine ⟨?_, ?_, ?_⟩
  · intro p hp
    obtain ⟨hl, hg, hr, hx⟩ := hpred p hp
    refine ⟨hr, hx, hl, ?_⟩
    intro hne
    rcases hg with hg | hg
    · exact hg
    · exact absurd hg hne
  · intro p hp w hw hu hid
    exact (hpred p hp).2.2.2 ((hX p.TelegramID).mpr ⟨w, hw, hu, hid⟩)
  · rw [List.length_take]
    exact Nat.min_le_left _ _

/-- Witness for C2: in `watchedStore` A (100) has watched B (200), so the
exclusion set of A is [200]; of the two Intermediate women B and D, the search
(Intermediate, female) of A returns D only. -/
theorem getMatchingPartners_sound_example :
    (∀ id : Int, id ∈ [(200 : Int)] ↔
        ∃ w ∈ watchedStore.watchLists, w.UserID = 100 ∧ w.WatchID = id) ∧
      getMatchingPartners watchedStore "Intermediate" "female" 100 = [userD] ∧
      getMatchingPartners exampleStore "Intermediate" "female" 100 = [userB, userD] ∧
      (∀ p ∈ getMatchingPartners watchedStore "Intermediate" "female" 100,
        p.TelegramID ≠ 100 ∧ p.TelegramID ∉ [(200 : Int)] ∧ p.EnglishLevel = "Intermediate" ∧
          ("female" ≠ "no matter" → p.Gender = "female")) :=
  have hX : ∀ id : Int, id ∈ [(200 : Int)] ↔
      ∃ w ∈ watchedStore.watchLists, w.UserID = 100 ∧ w.WatchID = id := by
    intro id
    simp [watchedStore, eq_comm]
  ⟨hX, by decide, by decide,
    (getMatchingPartners_sound watchedStore "Intermediate" "female" 100 [200] hX).1⟩

/-- C3: let X be the exclusion set of the requester R (exactly the ids that
the rows of the watch-list table record as watched by R).  When the store
lists the users in ascending creation order (ascending primary key),
`getMatchingPartners` returns exactly the first min(10, n) of the n users that
satisfy the match predicate for X, in ascending creation order: every matching
user left out was created after every user returned.  The result is a
function of the user table and the watch list alone, so a second call on an
unchanged pool returns the same sequence, and it is empty when no user
matches. -/
theorem getMatchingPartners_first_matches (s : Store) (L G : String) (R : Int)
    (X : List Int)
    (hX : ∀ id : Int, id ∈ X ↔ ∃ w ∈ s.watchLists, w.UserID = R ∧ w.WatchID = id)
    (hsorted : s.users.Pairwise fun a b => a.ID < b.ID) :
    getMatchingPartners s L G R =
        (s.users.filter (matchPredicate L G R X)).take
          (min 10 (s.users.filter (matchPredicate L G R X)).length) ∧
      (getMatchingPartners s L G R).length =
        min 10 (s.users.filter (matchPredicate L G R X)).length ∧
      (getMatchingPartners s L G R).Pairwise (fun a b => a.ID < b.ID) ∧
      (∀ u ∈ s.users.filter (matchPredicate L G R X),
        u ∉ getMatchingPartners s L G R → ∀ v ∈ getMatchingPartners s L G R, v.ID < u.ID) ∧
      (∀ t : Store, t.users = s.users → t.watchLists = s.watchLists →
        getMatchingPartners t L G R = getMatchingPartners s L G R) ∧
      (s.users.filter (matchPredicate L G R X) = [] →
        getMatchingPartners s L G R = []) := by
  have hmatching : (s.users.filter (matchPredicate L G R X)).Pairwise
      fun a b => a.ID < b.ID :=
    List.Pairwise.sublist (List.filter_sublist _) hsorted
  have hsame : ∀ t : Store, t.users = s.users → t.watchLists = s.watchLists →
      getMatchingPartners t L G R = getMatchingPartners s L G R := by
    intro t hu hw
    rw [getMatchingPartners_eq_of_exclusion s L G R X hX,
      getMatchingPartners_eq_of_exclusion t L G R X (by rw [hw]; exact hX), hu]
  rw [getMatchingPartners_eq_of_exclusion s L G R X hX]
  refine ⟨?_, ?_, ?_, ?_, ?_, ?_⟩
  · rw [List.take_eq_take]
    simp
  · rw [List.length_take]
  · exact List.Pairwise.sublist (List.take_sublist _ _) hmatching
  · intro u hu hnot v hv
    rw [← List.take_append_drop 10 (s.users.filter (matchPredicate L G R X))]
      at hu hmatching
    rcases List.mem_append.mp hu with h | h
    · exact absurd h hnot
    · exact (List.pairwise_append.mp hmatching).2.2 v hv u h
  · intro t hu hw
    rw [hsame t hu hw, getMatchingPartners_eq_of_exclusion s L G R X hX]
  · intro hnone
    rw [hnone]
    rfl

/-- Witness for C3, the end-to-end example of the specification: requester A
filters (Intermediate, "no matter") against the pool B, C, D (Intermediate)
and E (Beginner) with nothing watched, and the result is B, C, D in that
order.  Once the watch list records that A has watched B (`watchedStore`), the
exclusion set is [200] and the result is C, D. -/
theorem getMatchingPartners_first_matches_example :
    (exampleStore.users.Pairwise fun a b => a.ID < b.ID) ∧
      (∀ id : Int, id ∈ ([] : List Int) ↔
        ∃ w ∈ exampleStore.watchLists, w.UserID = 100 ∧ w.WatchID = id) ∧
      getMatchingPartners exampleStore "Intermediate" "no matter" 100 =
        [userB, userC, userD] ∧
      (∀ id : Int, id ∈ [(200 : Int)] ↔
        ∃ w ∈ watchedStore.watchLists, w.UserID = 100 ∧ w.WatchID = id) ∧
      getMatchingPartners watchedStore "Intermediate" "no matter" 100 = [userC, userD] :=
  have hnone : ∀ id : Int, id ∈ ([] : List Int) ↔
      ∃ w ∈ exampleStore.watchLists, w.UserID = 100 ∧ w.WatchID = id := by
    intro id
    simp [exampleStore]
  have hB : ∀ id : Int, id ∈ [(200 : Int)] ↔
      ∃ w ∈ watchedStore.watchLists, w.UserID = 100 ∧ w.WatchID = id := by
    intro id
    simp [watchedStore, eq_comm]
  ⟨by decide, hnone,
    (getMatchingPartners_first_matches exampleStore "Intermediate" "no matter" 100 [] hnone
      (by decide)).1.trans (by decide),
    hB,
    (getMatchingPartners_first_matches watchedStore "Intermediate" "no matter" 100 [200] hB
      (by decide)).1.trans (by decide)⟩

/-! ## Theorems: follow-request workflow -/

/-- The fold of `firstUser` only ever holds rows of the list or the start
value. -/
theorem foldl_leastKey_sat (P : User → Prop) :
    ∀ (l : List User) (acc : Option User), (∀ u ∈ l, P u) → (∀ a, acc = some a → P a) →
      ∀ b, l.foldl leastKey acc = some b → P b := by
  intro l
  induction l with
  | nil =>
    intro acc _ hacc b hb
    exact hacc b hb
  | cons x xs ih =>
    intro acc hl hacc b hb
    rw [List.foldl_cons] at hb
    refine ih (leastKey acc x) (fun u hu => hl u (List.mem_cons_of_mem _ hu)) ?_ b hb
    intro a ha
    cases acc with
    | none =>
      simp only [leastKey, Option.some.injEq] at ha
      exact ha ▸ hl x (List.mem_cons_self _ _)
    | some a0 =>
      simp only [leastKey] at ha
      split at ha
      · simp only [Option.some.injEq] at ha
        exact ha ▸ hl x (List.mem_cons_self _ _)
      · exact hacc a ha

/-- A row found by `firstUser` satisfies the condition of the query. -/
theorem firstUser_cond (s : Store) (cond : User → Bool) (b : User)
    (h : firstUser s cond = some b) : cond b = true := by
  unfold firstUser at h
  refine foldl_leastKey_sat (fun u => cond u = true) _ none ?_ ?_ b h
  · intro u hu
    exact (List.mem_filter.mp hu).2
  · intro a ha
    cases ha

/-- A row found by `firstUser` is a row of the users table. -/
theorem firstUser_mem (s : Store) (cond : User → Bool) (b : User)
    (h : firstUser s cond = some b) : b ∈ s.users := by
  unfold firstUser at h
  refine foldl_leastKey_sat (fun u => u ∈ s.users) _ none ?_ ?_ b h
  · intro u hu
    exact (List.mem_filter.mp hu).1
  · intro a ha
    cases ha

/-- The lookup `firstUser` reads the users table only. -/
theorem firstUser_congr (s t : Store) (cond : User → Bool) (h : t.users = s.users) :
    firstUser t cond = firstUser s cond := by
  unfold firstUser
  rw [h]

/-- The accept query leaves a table without pending rows as it is. -/
theorem map_acceptRow_of_none (A B : Int) (rows : List FollowRequest)
    (h : ∀ r ∈ rows, isPending A B r = false) : rows.map (acceptRow A B) = rows := by
  induction rows with
  | nil => rfl
  | cons x xs ih =>
    have hx := h x (List.mem_cons_self _ _)
    rw [List.map_cons, ih (fun r hr => h r (List.mem_cons_of_mem _ hr))]
    simp [acceptRow, hx]

/-- The decline query leaves a table without pending rows as it is. -/
theorem map_declineRow_of_none (A B : Int) (rows : List FollowRequest)
    (h : ∀ r ∈ rows, isPending A B r = false) : rows.map (declineRow A B) = rows := by
  induction rows with
  | nil => rfl
  | cons x xs ih =>
    have hx := h x (List.mem_cons_self _ _)
    rw [List.map_cons, ih (fun r hr => h r (List.mem_cons_of_mem _ hr))]
    simp [declineRow, hx]

/-- No pending row for the pair is left after the accept query. -/
theorem no_pending_after_accept (A B : Int) (rows : List FollowRequest) :
    ∀ r ∈ rows.map (acceptRow A B), isPending A B r = false := by
  intro r hr
  obtain ⟨r0, _, rfl⟩ := List.mem_map.mp hr
  by_cases h0 : isPending A B r0 = true
  · have hrow : acceptRow A B r0 = { r0 with Accepted := true } := by
      simp [acceptRow, h0]
    rw [hrow]
    simp [isPending]
  · simp only [Bool.not_eq_true] at h0
    simp [acceptRow, h0]

/-- No pending row for the pair is left after the decline query. -/
theorem no_pending_after_decline (A B : Int) (rows : List FollowRequest) :
    ∀ r ∈ rows.map (declineRow A B), isPending A B r = false := by
  intro r hr
  obtain ⟨r0, _, rfl⟩ := List.mem_map.mp hr
  by_cases h0 : isPending A B r0 = true
  · have hrow : declineRow A B r0 = { r0 with Deleted := true } := by
      simp [declineRow, h0]
    rw [hrow]
    simp [isPending]
  · simp only [Bool.not_eq_true] at h0
    simp [declineRow, h0]

/-- The number of rows hit by the accept or decline query is zero exactly when
no row is pending. -/
theorem pending_count_eq_zero (A B : Int) (rows : List FollowRequest) :
    (rows.filter (isPending A B)).length = 0 ↔ ∀ r ∈ rows, isPending A B r = false := by
  rw [List.length_eq_zero, List.filter_eq_nil_iff]
  constructor
  · intro h r hr
    simpa using h r hr
  · intro h r hr
    simp [h r hr]

/-- Two texts differ when a character occurs in one and not in the other. -/
theorem text_ne_of_char (c : Char) (t u : String) (hu : c ∈ u.data) (ht : c ∉ t.data) :
    t ≠ u := by
  intro h
  rw [h] at ht
  exact ht hu

/-- A character of the left part occurs in the concatenation. -/
theorem mem_data_append_left (c : Char) (a b : String) (h : c ∈ a.data) :
    c ∈ (a ++ b).data := by
  rw [String.data_append]
  exact List.mem_append_left _ h

/-- A character of the right part occurs in the concatenation. -/
theorem mem_data_append_right (c : Char) (a b : String) (h : c ∈ b.data) :
    c ∈ (a ++ b).data := by
  rw [String.data_append]
  exact List.mem_append_right _ h

/-- The not-found text of accept is none of the contact-reveal texts sent to
the requester. -/
theorem notFound_ne_reveal (x mid y : String) (hmid : '!' ∈ mid.data) :
    "No follow request found to Accept." ≠ x ++ mid ++ y :=
  text_ne_of_char '!' _ _
    (mem_data_append_left _ _ _ (mem_data_append_right _ _ _ hmid)) (by decide)

/-- The not-found text of accept is none of the confirmation texts sent to the
accepting user. -/
theorem notFound_ne_confirm (start y : String) (hstart : 'Y' ∈ start.data) :
    "No follow request found to Accept." ≠ start ++ y :=
  text_ne_of_char 'Y' _ _ (mem_data_append_left _ _ _ hstart) (by decide)

/-- Writing a table back unchanged gives the same store. -/
theorem store_with_followRequests_self (s : Store) :
    { s with followRequests := s.followRequests } = s := by
  cases s
  rfl

/-- Accept without a pending row: the not-found reply and the same store. -/
theorem handleAcceptFollow_notFound (s : Store) (A B : Int) (b : User)
    (hB : firstUser s (fun u => decide (u.TelegramID = B)) = some b)
    (hnone : ∀ r ∈ s.followRequests, isPending A B r = false) :
    handleAcceptFollow s B A = (s, [noRequestToAccept B]) := by
  have hb : b.TelegramID = B := by
    simpa using firstUser_cond s _ b hB
  have hcount := (pending_count_eq_zero A B s.followRequests).mpr hnone
  unfold handleAcceptFollow
  simp only [hB, hb, hcount, if_true, map_acceptRow_of_none A B _ hnone,
    store_with_followRequests_self]
  rfl

/-- Accept with a pending row: every pending row of the pair is updated, no
other column of the store changes, and the reply is not the not-found one. -/
theorem handleAcceptFollow_found (s : Store) (A B : Int) (b : User)
    (hB : firstUser s (fun u => decide (u.TelegramID = B)) = some b)
    (hsome : ∃ r ∈ s.followRequests, isPending A B r = true) :
    (handleAcceptFollow s B A).1 =
        { s with followRequests := s.followRequests.map (acceptRow A B) } ∧
      noRequestToAccept B ∉ (handleAcceptFollow s B A).2 ∧
      ∃ text, (handleAcceptFollow s B A).2.head? =
        some (sendMessage A text [.backToHomeMenuKeyboard]) := by
  have hb : b.TelegramID = B := by
    simpa using firstUser_cond s _ b hB
  have hcount : (s.followRequests.filter (isPending A B)).length ≠ 0 := by
    intro h0
    obtain ⟨r, hr, hp⟩ := hsome
    have := (pending_count_eq_zero A B s.followRequests).mp h0 r hr
    rw [this] at hp
    cases hp
  unfold handleAcceptFollow
  simp only [hB, hb, hcount, if_false]
  have hreveal : ∀ t : String, t = (if b.Username ≠ "" then
        b.Name ++ " has accepted your follow request! 🎉\nAccepted username: @" ++ b.Username
      else
        b.Name ++ " has accepted your follow request! 🎉\nAccepted Mobile Number: " ++
          b.MobileNumber) → "No follow request found to Accept." ≠ t := by
    intro t ht
    rw [ht]
    split
    · exact notFound_ne_reveal _ _ _ (by decide)
    · exact notFound_ne_reveal _ _ _ (by decide)
  have hconfirm : ∀ (u2 : User) (t : String), t = (if u2.Username ≠ "" then
        "You have accepted the follow request \n username: @" ++ u2.Username
      else
        "You have accepted the follow request \n Mobile Number: " ++ u2.MobileNumber ++ ": ") →
      "No follow request found to Accept." ≠ t := by
    intro u2 t ht
    rw [ht]
    split
    · exact notFound_ne_confirm _ _ (by decide)
    · exact text_ne_of_char 'Y' _ _
        (mem_data_append_left _ _ _ (mem_data_append_left _ _ _ (by decide))) (by decide)
  split
  · refine ⟨rfl, ?_, ⟨_, rfl⟩⟩
    intro hmem
    simp only [List.mem_singleton, noRequestToAccept, sendMessage, Outbound.message.injEq] at hmem
    exact hreveal _ rfl hmem.2.1
  · rename_i u2 _
    refine ⟨rfl, ?_, ⟨_, rfl⟩⟩
    intro hmem
    simp only [List.singleton_append, List.mem_cons, List.mem_singleton, noRequestToAccept,
      sendMessage, Outbound.message.injEq, List.not_mem_nil, or_false] at hmem
    rcases hmem with h | h
    · exact hreveal _ rfl h.2.1
    · exact hconfirm u2 _ rfl h.2.1

/-- Decline without a pending row: the not-found reply and the same store. -/
theorem handleDeclineFollow_notFound (s : Store) (A B : Int) (b : User)
    (hB : firstUser s (fun u => decide (u.TelegramID = B)) = some b)
    (hnone : ∀ r ∈ s.followRequests, isPending A B r = false) :
    handleDeclineFollow s B A = (s, [noRequestToDelete B]) := by
  have hb : b.TelegramID = B := by
    simpa using firstUser_cond s _ b hB
  have hcount := (pending_count_eq_zero A B s.followRequests).mpr hnone
  unfold handleDeclineFollow
  simp only [hB, hb, hcount, if_true, map_declineRow_of_none A B _ hnone,
    store_with_followRequests_self]
  rfl

/-- Decline with a pending row: every pending row of the pair is marked
deleted, no other column of the store changes, and the two replies are sent. -/
theorem handleDeclineFollow_found (s : Store) (A B : Int) (b : User)
    (hB : firstUser s (fun u => decide (u.TelegramID = B)) = some b)
    (hsome : ∃ r ∈ s.followRequests, isPending A B r = true) :
    handleDeclineFollow s B A =
      ({ s with followRequests := s.followRequests.map (declineRow A B) },
        [sendMessage A (b.Name ++ " has declined your follow request. 😔")
            [.backToHomeMenuKeyboard],
         sendMessage B "You have declined the follow request." [.backToHomeMenuKeyboard]]) := by
  have hb : b.TelegramID = B := by
    simpa using firstUser_cond s _ b hB
  have hcount : (s.followRequests.filter (isPending A B)).length ≠ 0 := by
    intro h0
    obtain ⟨r, hr, hp⟩ := hsome
    have := (pending_count_eq_zero A B s.followRequests).mp h0 r hr
    rw [this] at hp
    cases hp
  unfold handleDeclineFollow
  simp only [hB, hb, hcount, if_false]

/-- C4 as stated fails: in `acceptedStore` the only row from A (100) to B
(200) is accepted, so no row (A, B) with accepted=false exists; B is the
candidate at A's cursor; yet `handleFollowRequest` reports that the request
was already sent and adds no row. -/
theorem handleFollowRequest_accepted_row_blocks :
    (∀ r ∈ acceptedStore.followRequests, isPending 100 200 r = false) ∧
      getPartnersFromCache acceptedStore 5 userA.TelegramID = some [userB, userC, userD] ∧
      index? [userB, userC, userD] userA.CurrentNumberInPartnerList = some userB ∧
      handleFollowRequest acceptedStore 5 100 userA =
        some (acceptedStore, [alreadyRequested 100]) := by
  decide

/-- C4 (amended): with B the candidate at A's browse cursor,
`handleFollowRequest` reports that the request was already sent and leaves the
store as it is exactly when a row (A, B) exists that is not marked deleted,
whatever its accepted flag; in every other case it appends exactly one new
row (A, B, accepted=false), changes no other row, and does not send that
report. -/
theorem handleFollowRequest_creates_unless_row_exists (s : Store) (now chatID : Int)
    (user : User) (partners : List User) (partner : User)
    (hcache : getPartnersFromCache s now user.TelegramID = some partners)
    (hcursor : index? partners user.CurrentNumberInPartnerList = some partner) :
    ((∃ r ∈ s.followRequests,
          r.RequesterID = user.TelegramID ∧ r.TargetID = partner.TelegramID ∧
            r.Deleted = false) →
        handleFollowRequest s now chatID user = some (s, [alreadyRequested chatID])) ∧
      ((¬ ∃ r ∈ s.followRequests,
          r.RequesterID = user.TelegramID ∧ r.TargetID = partner.TelegramID ∧
            r.Deleted = false) →
        ∃ out, handleFollowRequest s now chatID user =
            some ({ s with
                followRequests := s.followRequests ++
                  [newFollowRequest s user.TelegramID partner.TelegramID],
                followRequestSeq := s.followRequestSeq + 1 }, out) ∧
          alreadyRequested chatID ∉ out) := by
  have hexists : isFollowRequestExists s user.TelegramID partner.TelegramID = true ↔
      ∃ r ∈ s.followRequests,
        r.RequesterID = user.TelegramID ∧ r.TargetID = partner.TelegramID ∧
          r.Deleted = false := by
    unfold isFollowRequestExists
    simp only [gt_iff_lt, decide_eq_true_eq, List.length_pos_iff_exists_mem, List.mem_filter]
  constructor
  · intro h
    have hex := hexists.mpr h
    unfold handleFollowRequest
    simp only [hcache, hcursor, hex, Bool.not_true, Bool.false_eq_true, if_false]
    rfl
  · intro h
    have hex : isFollowRequestExists s user.TelegramID partner.TelegramID = false := by
      cases hval : isFollowRequestExists s user.TelegramID partner.TelegramID with
      | false => rfl
      | true => exact absurd (hexists.mp hval) h
    unfold handleFollowRequest
    simp only [hcache, hcursor, hex, Bool.not_false, if_true]
    refine ⟨_, rfl, ?_⟩
    intro hmem
    rcases List.mem_append.mp hmem with h1 | h1
    · unfold sendFollowRequestMessage at h1
      split at h1
      · split at h1
        · cases h1
        · simp only [List.mem_singleton, alreadyRequested, sendMessage] at h1
          cases h1
      · cases h1
    · simp only [List.mem_singleton, alreadyRequested, sendMessage, Outbound.message.injEq] at h1
      exact absurd h1.2.1 (by decide)

/-- Witness for C4 (amended): in `browsingStore` A has sent nothing yet, B is
at A's cursor, and the request appends the row (A, B, accepted=false). -/
theorem handleFollowRequest_creates_example :
    getPartnersFromCache browsingStore 5 userA.TelegramID = some [userB, userC, userD] ∧
      index? [userB, userC, userD] userA.CurrentNumberInPartnerList = some userB ∧
      ∃ out, handleFollowRequest browsingStore 5 100 userA = some (requestedStore, out) ∧
        alreadyRequested 100 ∉ out :=
  ⟨by decide, by decide,
    (handleFollowRequest_creates_unless_row_exists browsingStore 5 100 userA
      [userB, userC, userD] userB (by decide) (by decide)).2 (by decide)⟩

/-- C5: when B has a profile and calls Accept with partner id A,
`handleAcceptFollow` reports not-found and leaves the store unchanged when no
row (A, B) with accepted=false exists among the rows not marked deleted;
otherwise it sets accepted=true on every such row, leaves every other row
(the rows marked deleted included) and every other table unchanged, and does
not report not-found. -/
theorem handleAcceptFollow_rows (s : Store) (A B : Int) (b : User)
    (hB : firstUser s (fun u => decide (u.TelegramID = B)) = some b) :
    ((∀ r ∈ s.followRequests, isPending A B r = false) →
        handleAcceptFollow s B A = (s, [noRequestToAccept B])) ∧
      ((∃ r ∈ s.followRequests, isPending A B r = true) →
        (handleAcceptFollow s B A).1 =
            { s with followRequests := s.followRequests.map fun r =>
                if r.RequesterID = A ∧ r.TargetID = B ∧ r.Accepted = false ∧
                    r.Deleted = false then
                  { r with Accepted := true }
                else r } ∧
          noRequestToAccept B ∉ (handleAcceptFollow s B A).2) := by
  constructor
  · exact handleAcceptFollow_notFound s A B b hB
  · intro hsome
    obtain ⟨hstore, hout, _⟩ := handleAcceptFollow_found s A B b hB hsome
    refine ⟨?_, hout⟩
    rw [hstore]
    congr 1
    apply List.map_congr_left
    intro r _
    simp [acceptRow, isPending]

/-- Witness for C5: in `requestedStore` B (200) has a profile and a pending
request from A (100); Accept turns it into an accepted row. -/
theorem handleAcceptFollow_rows_example :
    firstUser requestedStore (fun u => decide (u.TelegramID = 200)) = some userB ∧
      (handleAcceptFollow requestedStore 200 100).1 = acceptedStore ∧
      noRequestToAccept 200 ∉ (handleAcceptFollow requestedStore 200 100).2 :=
  ⟨by decide,
    ((handleAcceptFollow_rows requestedStore 100 200 userB (by decide)).2 (by decide)).1.trans
      (by decide),
    ((handleAcceptFollow_rows requestedStore 100 200 userB (by decide)).2 (by decide)).2⟩

/-- C6: with B registered and a request A→B pending, Accept(B,A) succeeds and
a second Accept(B,A) reports not-found; Decline(B,A) succeeds and a following
Accept(B,A) or Decline(B,A) reports not-found.  Each replay returns the store
it was given, so the follow-request table is unchanged, and its only message
is the not-found reply, addressed to B: no message goes to the requester A,
a different user. -/
theorem accept_decline_replay (s : Store) (A B : Int) (b : User)
    (hB : firstUser s (fun u => decide (u.TelegramID = B)) = some b)
    (hpending : ∃ r ∈ s.followRequests, isPending A B r = true) :
    (noRequestToAccept B ∉ (handleAcceptFollow s B A).2 ∧
        handleAcceptFollow (handleAcceptFollow s B A).1 B A =
          ((handleAcceptFollow s B A).1, [noRequestToAccept B])) ∧
      (noRequestToDelete B ∉ (handleDeclineFollow s B A).2 ∧
        handleAcceptFollow (handleDeclineFollow s B A).1 B A =
          ((handleDeclineFollow s B A).1, [noRequestToAccept B]) ∧
        handleDeclineFollow (handleDeclineFollow s B A).1 B A =
          ((handleDeclineFollow s B A).1, [noRequestToDelete B])) ∧
      ((noRequestToAccept B).recipient = B ∧ (noRequestToDelete B).recipient = B) ∧
      (A ≠ B →
        (noRequestToAccept B).recipient ≠ A ∧ (noRequestToDelete B).recipient ≠ A) := by
  obtain ⟨hstore, hout, _⟩ := handleAcceptFollow_found s A B b hB hpending
  have hdecline := handleDeclineFollow_found s A B b hB hpending
  refine ⟨⟨hout, ?_⟩, ⟨?_, ?_, ?_⟩, ⟨rfl, rfl⟩, fun hne => ⟨Ne.symm hne, Ne.symm hne⟩⟩
  · refine handleAcceptFollow_notFound _ A B b ?_ ?_
    · exact (firstUser_congr s _ _ (by rw [hstore])).trans hB
    · rw [hstore]
      exact no_pending_after_accept A B s.followRequests
  · rw [hdecline]
    intro hmem
    simp only [List.mem_cons, List.mem_singleton, noRequestToDelete, sendMessage,
      Outbound.message.injEq, List.not_mem_nil, or_false] at hmem
    rcases hmem with h | h
    · exact text_ne_of_char 'h' _ _ (mem_data_append_right _ _ _ (by decide)) (by decide) h.2.1
    · exact absurd h.2.1 (by decide)
  · refine handleAcceptFollow_notFound _ A B b ?_ ?_
    · exact (firstUser_congr s _ _ (by rw [hdecline])).trans hB
    · rw [hdecline]
      exact no_pending_after_decline A B s.followRequests
  · refine handleDeclineFollow_notFound _ A B b ?_ ?_
    · exact (firstUser_congr s _ _ (by rw [hdecline])).trans hB
    · rw [hdecline]
      exact no_pending_after_decline A B s.followRequests

/-- Witness for C6: the pending request A→B of `requestedStore`, with B the
registered user 200; the replayed Accept leaves `acceptedStore` as it is. -/
theorem accept_decline_replay_example :
    firstUser requestedStore (fun u => decide (u.TelegramID = 200)) = some userB ∧
      (∃ r ∈ requestedStore.followRequests, isPending 100 200 r = true) ∧
      handleAcceptFollow (handleAcceptFollow requestedStore 200 100).1 200 100 =
        (acceptedStore, [noRequestToAccept 200]) :=
  ⟨by decide, by decide,
    (accept_decline_replay requestedStore 100 200 userB (by decide) (by decide)).1.2.trans
      (by decide)⟩

/-- A Request either leaves the follow-request table alone or appends one
unaccepted row for a pair that had no row. -/
theorem handleFollowRequest_table (s t : Store) (now chatID : Int) (user : User)
    (out : List Outbound) (h : handleFollowRequest s now chatID user = some (t, out)) :
    t.followRequests = s.followRequests ∨
      ∃ B, isFollowRequestExists s user.TelegramID B = false ∧
        t.followRequests = s.followRequests ++ [newFollowRequest s user.TelegramID B] := by
  unfold handleFollowRequest at h
  split at h
  · simp only [Option.some.injEq, Prod.mk.injEq] at h
    exact Or.inl (by rw [← h.1])
  · split at h
    · cases h
    · rename_i partner _
      by_cases hex : isFollowRequestExists s user.TelegramID partner.TelegramID = true
      · simp only [hex, Bool.not_true, Bool.false_eq_true, if_false, Option.some.injEq,
          Prod.mk.injEq] at h
        exact Or.inl (by rw [← h.1])
      · simp only [Bool.not_eq_true] at hex
        simp only [hex, Bool.not_false, if_true, Option.some.injEq, Prod.mk.injEq] at h
        exact Or.inr ⟨partner.TelegramID, hex, by rw [← h.1]; rfl⟩

/-- An Accept either leaves the follow-request table alone or applies the
accept update of one pair to it. -/
theorem handleAcceptFollow_table (s : Store) (chatID partnerID : Int) :
    (handleAcceptFollow s chatID partnerID).1.followRequests = s.followRequests ∨
      ∃ B, (handleAcceptFollow s chatID partnerID).1.followRequests =
        s.followRequests.map (acceptRow partnerID B) := by
  unfold handleAcceptFollow
  split
  · exact Or.inl rfl
  · rename_i existUser _
    refine Or.inr ⟨existUser.TelegramID, ?_⟩
    dsimp only
    split
    · rfl
    · split <;> rfl

/-- A Decline either leaves the follow-request table alone or applies the
decline update of one pair to it. -/
theorem handleDeclineFollow_table (s : Store) (chatID partnerID : Int) :
    (handleDeclineFollow s chatID partnerID).1.followRequests = s.followRequests ∨
      ∃ B, (handleDeclineFollow s chatID partnerID).1.followRequests =
        s.followRequests.map (declineRow partnerID B) := by
  unfold handleDeclineFollow
  split
  · exact Or.inl rfl
  · rename_i existUser _
    refine Or.inr ⟨existUser.TelegramID, ?_⟩
    dsimp only
    split <;> rfl

/-- The accept update does not change how many rows a pair has. -/
theorem countP_isPair_map_acceptRow (A B C D : Int) (rows : List FollowRequest) :
    (rows.map (acceptRow C D)).countP (isPair A B) = rows.countP (isPair A B) := by
  rw [List.countP_map]
  apply List.countP_congr
  intro r _
  by_cases hp : isPending C D r = true
  · simp [acceptRow, hp, isPair]
  · simp [acceptRow, hp, isPair]

/-- The decline update does not add rows that are not marked deleted. -/
theorem countP_isPair_map_declineRow (A B C D : Int) (rows : List FollowRequest) :
    (rows.map (declineRow C D)).countP (isPair A B) ≤ rows.countP (isPair A B) := by
  rw [List.countP_map]
  apply List.countP_mono_left
  intro r _ hr
  by_cases hp : isPending C D r = true
  · simp [declineRow, hp, isPair] at hr
  · simpa [declineRow, hp] using hr

/-- In every reachable store each ordered pair has at most one row that is not
marked deleted. -/
theorem reachable_pair_unique (s : Store) (h : Reachable s) :
    ∀ A B : Int, s.followRequests.countP (isPair A B) ≤ 1 := by
  induction h with
  | start s h =>
    intro A B
    rw [h]
    exact Nat.zero_le _
  | request s t now chatID user out _ h ih =>
    intro A B
    rcases handleFollowRequest_table s t now chatID user out h with heq | ⟨C, hnone, heq⟩
    · rw [heq]
      exact ih A B
    · rw [heq, List.countP_append, List.countP_singleton]
      by_cases hp : isPair A B (newFollowRequest s user.TelegramID C) = true
      · simp only [isPair, newFollowRequest, decide_eq_true_eq] at hp
        have hzero : s.followRequests.countP (isPair A B) = 0 := by
          rw [← hp.1, ← hp.2.1, List.countP_eq_length_filter]
          unfold isFollowRequestExists at hnone
          simpa [isPair] using hnone
        rw [hzero]
        split <;> simp
      · simp only [hp, if_false, Nat.add_zero]
        exact ih A B
  | accept s chatID partnerID _ ih =>
    intro A B
    rcases handleAcceptFollow_table s chatID partnerID with heq | ⟨C, heq⟩
    · rw [heq]
      exact ih A B
    · rw [heq, countP_isPair_map_acceptRow]
      exact ih A B
  | decline s chatID partnerID _ ih =>
    intro A B
    rcases handleDeclineFollow_table s chatID partnerID with heq | ⟨C, heq⟩
    · rw [heq]
      exact ih A B
    · rw [heq]
      exact Nat.le_trans (countP_isPair_map_declineRow A B partnerID C _) (ih A B)
  | other s t _ h ih =>
    intro A B
    rw [h]
    exact ih A B

/-- In every store reached from an empty follow-request table by Request,
Accept and Decline calls of any users, each ordered pair (requester, target)
has at most one row with accepted=false among the rows not marked deleted; and
after a Decline by a registered target no row of the pair is pending. -/
theorem pending_unique_among_live_rows (s : Store) (h : Reachable s) :
    (∀ A B : Int, (s.followRequests.filter (isPending A B)).length ≤ 1) ∧
      (∀ (A B : Int) (b : User),
        firstUser s (fun u => decide (u.TelegramID = B)) = some b →
        ∀ r ∈ (handleDeclineFollow s B A).1.followRequests, isPending A B r = false) := by
  constructor
  · intro A B
    rw [← List.countP_eq_length_filter]
    refine Nat.le_trans (List.countP_mono_left ?_) (reachable_pair_unique s h A B)
    intro r _ hr
    simp only [isPending, decide_eq_true_eq] at hr
    simp [isPair, hr.1, hr.2.1, hr.2.2.2]
  · intro A B b hB r hr
    by_cases hsome : ∃ r0 ∈ s.followRequests, isPending A B r0 = true
    · rw [handleDeclineFollow_found s A B b hB hsome] at hr
      exact no_pending_after_decline A B s.followRequests r hr
    · have hnone : ∀ r0 ∈ s.followRequests, isPending A B r0 = false := by
        intro r0 hr0
        cases hval : isPending A B r0 with
        | false => rfl
        | true => exact absurd ⟨r0, hr0, hval⟩ hsome
      rw [handleDeclineFollow_notFound s A B b hB hnone] at hr
      exact hnone r hr

/-- C7 (defect in the code): starting from the empty table of `browsingStore`,
A (100) asks to follow B (200), B declines, and A asks again.  The Decline
succeeds, but the declined row is still a row of the table, only marked
deleted (`FollowRequest` embeds `gorm.Model`, so `Delete` sets `deleted_at`);
after the second Request the table holds two rows with accepted=false for the
ordered pair (A, B). -/
theorem handleDeclineFollow_keeps_declined_row :
    browsingStore.followRequests = [] ∧
      (handleFollowRequest browsingStore 5 100 userA).map (fun r => r.1) =
        some requestedStore ∧
      (handleDeclineFollow requestedStore 200 100).1 = declinedStore ∧
      noRequestToDelete 200 ∉ (handleDeclineFollow requestedStore 200 100).2 ∧
      declinedStore.followRequests =
        [{ ID := 1, RequesterID := 100, TargetID := 200, Accepted := false,
           Deleted := true }] ∧
      (handleFollowRequest declinedStore 6 100 userA).map (fun r => r.1) =
        some requestedAgainStore ∧
      (requestedAgainStore.followRequests.filter fun r =>
          decide (r.RequesterID = 100 ∧ r.TargetID = 200 ∧ r.Accepted = false)).length =
        2 := by
  refine ⟨by decide, by decide, by decide, by decide, by decide, by decide, by decide⟩

/-! ## Theorems: browsing -/

/-- An addition that stays inside the 64-bit range is not changed by the
wrap. -/
theorem wrapInt_of_range (x : Int) (hlo : -9223372036854775808 ≤ x)
    (hhi : x < 9223372036854775808) : wrapInt x = x := by
  unfold wrapInt
  omega

/-- With a valid index `showPartnerDetail` returns: the cache is untouched,
the user record keeps its keys, the users table is either untouched (cooldown)
or has the row of the user overwritten by the returned record, and the
no-more-candidates reply is not among the messages. -/
theorem showPartnerDetail_valid (s : Store) (now chatID : Int) (user : User)
    (partners : List User) (k : Int) (partner : User)
    (hk : index? partners k = some partner) :
    ∃ t u1 out, showPartnerDetail s now chatID user partners k = some (t, u1, out) ∧
      t.cache = s.cache ∧ u1.ID = user.ID ∧ u1.TelegramID = user.TelegramID ∧
      (t.users = s.users ∨
        t.users = s.users.map fun u => if u.ID = user.ID then u1 else u) ∧
      noMoreCandidates chatID ∉ out := by
  unfold showPartnerDetail
  split
  · exact ⟨_, _, _, rfl, rfl, rfl, rfl, Or.inl rfl,
      by simp [noMoreCandidates, sendErrorMessage, sendMessage]⟩
  · simp only [hk]
    split
    · split
      · exact ⟨_, _, _, rfl, rfl, rfl, rfl, Or.inr rfl, by simp⟩
      · exact ⟨_, _, _, rfl, rfl, rfl, rfl, Or.inr rfl,
          by simp [noMoreCandidates, sendErrorMessage, sendMessage]⟩
    · exact ⟨_, _, _, rfl, rfl, rfl, rfl, Or.inr rfl,
        by simp [noMoreCandidates, sendErrorMessage, sendMessage]⟩

/-- A valid `int` index into a list. -/
theorem index?_of_lt {α : Type} (xs : List α) (i : Int) (h0 : 0 ≤ i) (hlt : i < xs.length) :
    ∃ x, index? xs i = some x := by
  unfold index?
  have hnat : i.toNat < xs.length := by omega
  rw [if_neg (by omega)]
  exact ⟨xs.get ⟨i.toNat, hnat⟩, List.get?_eq_get hnat⟩

/-- Next with a further candidate: the call returns, the cache is untouched,
the row of the user is overwritten by the returned record, whose cursor is one
more than before, and the reply is not the no-more-candidates one. -/
theorem handleNextPartner_advance (s : Store) (now chatID : Int) (user : User)
    (partners : List User)
    (hcache : getPartnersFromCache s now user.TelegramID = some partners)
    (hc : 0 ≤ user.CurrentNumberInPartnerList)
    (hmax : user.CurrentNumberInPartnerList + 1 < 2 ^ 63)
    (hlt : user.CurrentNumberInPartnerList + 1 < partners.length) :
    ∃ t u1 out, handleNextPartner s now chatID user = some (t, u1, out) ∧
      t.cache = s.cache ∧ u1.ID = user.ID ∧ u1.TelegramID = user.TelegramID ∧
      u1.CurrentNumberInPartnerList = user.CurrentNumberInPartnerList + 1 ∧
      (t.users = s.users.map fun u => if u.ID = user.ID then u1 else u) ∧
      noMoreCandidates chatID ∉ out := by
  have hpos : (if user.CurrentNumberInPartnerList > 0 then
      wrapInt (user.CurrentNumberInPartnerList + 1) else 1) =
      user.CurrentNumberInPartnerList + 1 := by
    split
    · exact wrapInt_of_range _ (by omega) (by omega)
    · omega
  obtain ⟨partner, hk⟩ := index?_of_lt partners (user.CurrentNumberInPartnerList + 1)
    (by omega) hlt
  obtain ⟨t0, u0, out, hshow, hcache0, hid, htid, husers, hout⟩ :=
    showPartnerDetail_valid s now chatID user partners _ partner hk
  unfold handleNextPartner
  simp only [hpos, hcache, gt_iff_lt, hlt, if_true, hshow]
  refine ⟨_, _, _, rfl, hcache0, hid, htid, rfl, ?_, hout⟩
  simp only [saveUser, hid]
  rcases husers with h | h
  · rw [h]
  · rw [h, List.map_map]
    apply List.map_congr_left
    intro u _
    simp only [Function.comp]
    by_cases hu : u.ID = user.ID
    · simp [hu, hid]
    · simp [hu]

/-- Next at the end of the list: the no-more-candidates reply, nothing saved. -/
theorem handleNextPartner_exhausted (s : Store) (now chatID : Int) (user : User)
    (partners : List User)
    (hcache : getPartnersFromCache s now user.TelegramID = some partners)
    (hc : 0 ≤ user.CurrentNumberInPartnerList)
    (hmax : user.CurrentNumberInPartnerList + 1 < 2 ^ 63)
    (hge : (partners.length : Int) ≤ user.CurrentNumberInPartnerList + 1) :
    handleNextPartner s now chatID user = some (s, user, [noMoreCandidates chatID]) := by
  have hpos : (if user.CurrentNumberInPartnerList > 0 then
      wrapInt (user.CurrentNumberInPartnerList + 1) else 1) =
      user.CurrentNumberInPartnerList + 1 := by
    split
    · exact wrapInt_of_range _ (by omega) (by omega)
    · omega
  unfold handleNextPartner
  simp only [hpos, hcache, gt_iff_lt, not_lt.mpr hge, if_false]
  rfl

/-- The fold of `firstUser` keeps a row once it holds one. -/
theorem foldl_leastKey_isSome :
    ∀ (l : List User) (a : User), ∃ b, l.foldl leastKey (some a) = some b := by
  intro l
  induction l with
  | nil => exact fun a => ⟨a, rfl⟩
  | cons x xs ih =>
    intro a
    rw [List.foldl_cons]
    have hstep : leastKey (some a) x = some x ∨ leastKey (some a) x = some a := by
      simp only [leastKey]
      split
      · exact Or.inl rfl
      · exact Or.inr rfl
    rcases hstep with h | h
    · rw [h]
      exact ih x
    · rw [h]
      exact ih a

/-- When exactly the rows equal to `user` carry the Telegram id of the chat,
the lookup of the chat's user returns `user`. -/
theorem firstUser_of_unique (s : Store) (chatID : Int) (user : User)
    (hmem : user ∈ s.users) (hid : user.TelegramID = chatID)
    (huniq : ∀ u ∈ s.users, u.TelegramID = chatID → u = user) :
    firstUser s (fun u => decide (u.TelegramID = chatID)) = some user := by
  have hfilter : user ∈ s.users.filter fun u => decide (u.TelegramID = chatID) :=
    List.mem_filter.mpr ⟨hmem, by simpa using hid⟩
  have hsome : ∃ b, firstUser s (fun u => decide (u.TelegramID = chatID)) = some b := by
    unfold firstUser
    cases hl : s.users.filter fun u => decide (u.TelegramID = chatID) with
    | nil =>
      rw [hl] at hfilter
      cases hfilter
    | cons x xs => exact foldl_leastKey_isSome xs x
  obtain ⟨b, hb⟩ := hsome
  rw [hb]
  have hcond := firstUser_cond s _ b hb
  have hb2 := firstUser_mem s _ b hb
  exact congrArg some (huniq b hb2 (by simpa using hcond))

/-- The cache lookup reads the cache only. -/
theorem getPartnersFromCache_congr (s t : Store) (now telegramID : Int)
    (h : t.cache = s.cache) :
    getPartnersFromCache t now telegramID = getPartnersFromCache s now telegramID := by
  unfold getPartnersFromCache
  rw [h]

/-- Successive Next calls advance the persisted cursor by one each, as long
as the cached list has a further candidate. -/
theorem nextPartnerCalls_advance (chatID : Int) (partners : List User)
    (hlen : (partners.length : Int) < 2 ^ 63) :
    ∀ (times : List Int) (s : Store) (user : User),
      user ∈ s.users → user.TelegramID = chatID →
      (∀ u ∈ s.users, u.TelegramID = chatID → u = user) →
      (∀ now ∈ times, getPartnersFromCache s now chatID = some partners) →
      0 ≤ user.CurrentNumberInPartnerList →
      user.CurrentNumberInPartnerList + times.length < partners.length →
      ∃ t u1, nextPartnerCalls chatID times s = some t ∧ u1 ∈ t.users ∧
        u1.TelegramID = chatID ∧ (∀ u ∈ t.users, u.TelegramID = chatID → u = u1) ∧
        u1.CurrentNumberInPartnerList = user.CurrentNumberInPartnerList + times.length ∧
        t.cache = s.cache := by
  intro times
  induction times with
  | nil =>
    intro s user hmem hid huniq _ _ _
    exact ⟨s, user, rfl, hmem, hid, huniq, by simp, rfl⟩
  | cons now rest ih =>
    intro s user hmem hid huniq hcache hc hlt
    have hlen2 : ((now :: rest).length : Int) = (rest.length : Int) + 1 := by
      simp
    rw [hlen2] at hlt
    have hnow := hcache now (List.mem_cons_self _ _)
    rw [← hid] at hnow
    obtain ⟨t, u1, out, hstep, hcache1, hid1, htid1, hcur1, husers1, hout1⟩ :=
      handleNextPartner_advance s now chatID user partners hnow hc (by omega) (by omega)
    have hmem1 : u1 ∈ t.users := by
      rw [husers1]
      exact List.mem_map.mpr ⟨user, hmem, by simp⟩
    have huniq1 : ∀ u ∈ t.users, u.TelegramID = chatID → u = u1 := by
      intro u hu htid
      rw [husers1] at hu
      obtain ⟨u0, hu0, hmap⟩ := List.mem_map.mp hu
      by_cases hsame : u0.ID = user.ID
      · rw [if_pos hsame] at hmap
        exact hmap.symm
      · rw [if_neg hsame] at hmap
        rw [← hmap] at htid
        exact absurd (congrArg User.ID (huniq u0 hu0 htid)) hsame
    obtain ⟨t2, u2, hcalls, hmem2, htid2, huniq2, hcur2, hcache2⟩ :=
      ih t u1 hmem1 (htid1.trans hid) huniq1
        (fun n hn => (getPartnersFromCache_congr s t n chatID hcache1).trans
          (hcache n (List.mem_cons_of_mem _ hn)))
        (by omega) (by omega)
    refine ⟨t2, u2, ?_, hmem2, htid2, huniq2, by rw [hcur2, hcur1, hlen2]; omega,
      hcache2.trans hcache1⟩
    unfold nextPartnerCalls
    simp only [firstUser_of_unique s chatID user hmem hid huniq, hstep, hout1, if_false]
    exact hcalls

/-- C8: for a persisted user with browse cursor c ≥ 0 (c+1 inside the range
of `int`) and a cached list of length n, `handleNextPartner` returns; when
c+1 < n the persisted cursor becomes c+1 and the reply is not "no more
candidates"; when c+1 ≥ n the reply is "no more candidates" and the store,
the user row and its cursor included, is unchanged.  Hence, for the only user
of the chat with cursor 0 and a cached list of length n > 0, n-1 successive
Next calls succeed and leave the cursor at n-1, and one more call answers "no
more candidates" and changes nothing. -/
theorem handleNextPartner_cursor (s : Store) (now chatID : Int) (user : User)
    (partners : List User)
    (hcache : getPartnersFromCache s now user.TelegramID = some partners)
    (hc : 0 ≤ user.CurrentNumberInPartnerList)
    (hmax : user.CurrentNumberInPartnerList + 1 < 2 ^ 63)
    (hrow : user ∈ s.users) :
    (user.CurrentNumberInPartnerList + 1 < partners.length →
        ∃ t u1 out, handleNextPartner s now chatID user = some (t, u1, out) ∧
          noMoreCandidates chatID ∉ out ∧ u1 ∈ t.users ∧ u1.ID = user.ID ∧
          ∀ u ∈ t.users, u.ID = user.ID →
            u.CurrentNumberInPartnerList = user.CurrentNumberInPartnerList + 1) ∧
      ((partners.length : Int) ≤ user.CurrentNumberInPartnerList + 1 →
        handleNextPartner s now chatID user = some (s, user, [noMoreCandidates chatID])) ∧
      (∀ times : List Int,
        user.TelegramID = chatID →
        (∀ u ∈ s.users, u.TelegramID = chatID → u = user) →
        user.CurrentNumberInPartnerList = 0 →
        (∀ n ∈ times, getPartnersFromCache s n chatID = some partners) →
        times.length + 1 = partners.length →
        (partners.length : Int) < 2 ^ 63 →
        ∃ t u1, nextPartnerCalls chatID times s = some t ∧
          firstUser t (fun u => decide (u.TelegramID = chatID)) = some u1 ∧
          u1.CurrentNumberInPartnerList = (partners.length : Int) - 1 ∧
          handleNextPartner t now chatID u1 = some (t, u1, [noMoreCandidates chatID])) := by
  refine ⟨?_, ?_, ?_⟩
  · intro hlt
    obtain ⟨t, u1, out, hstep, _, hid1, _, hcur1, husers1, hout1⟩ :=
      handleNextPartner_advance s now chatID user partners hcache hc hmax hlt
    refine ⟨t, u1, out, hstep, hout1, ?_, hid1, ?_⟩
    · rw [husers1]
      exact List.mem_map.mpr ⟨user, hrow, by simp⟩
    · intro u hu hid
      rw [husers1] at hu
      obtain ⟨u0, _, hmap⟩ := List.mem_map.mp hu
      by_cases hsame : u0.ID = user.ID
      · rw [if_pos hsame] at hmap
        rw [← hmap]
        exact hcur1
      · rw [if_neg hsame] at hmap
        rw [← hmap] at hid
        exact absurd hid hsame
  · exact handleNextPartner_exhausted s now chatID user partners hcache hc hmax
  · intro times htid huniq hzero hlive hlen hbound
    have hlen2 : (times.length : Int) + 1 = (partners.length : Int) := by
      exact_mod_cast hlen
    obtain ⟨t, u1, hcalls, hmem1, htid1, huniq1, hcur1, hcache1⟩ :=
      nextPartnerCalls_advance chatID partners hbound times s user hrow htid huniq hlive
        (by omega) (by omega)
    refine ⟨t, u1, hcalls, firstUser_of_unique t chatID u1 hmem1 htid1 huniq1,
      by rw [hcur1]; omega, ?_⟩
    refine handleNextPartner_exhausted t now chatID u1 partners ?_ (by omega) (by omega)
      (by omega)
    rw [htid1, getPartnersFromCache_congr s t now chatID hcache1, ← htid]
    exact hcache

/-- Witness for C8: in `browsingStore` A has cursor 0 and the cached list
B, C, D; two Next calls succeed, the cursor is 2, and a third call answers
"no more candidates" and changes nothing. -/
theorem handleNextPartner_cursor_example :
    getPartnersFromCache browsingStore 5 userA.TelegramID = some [userB, userC, userD] ∧
      userA ∈ browsingStore.users ∧
      ∃ t u1, nextPartnerCalls 100 [6, 7] browsingStore = some t ∧
        firstUser t (fun u => decide (u.TelegramID = 100)) = some u1 ∧
        u1.CurrentNumberInPartnerList = 2 ∧
        handleNextPartner t 5 100 u1 = some (t, u1, [noMoreCandidates 100]) :=
  ⟨by decide, by decide,
    (handleNextPartner_cursor browsingStore 5 100 userA [userB, userC, userD]
      (by decide) (by decide) (by decide) (by decide)).2.2 [6, 7]
      (by decide) (by decide) (by decide) (by decide) (by decide) (by decide)⟩

/-- What the rate limiter decides for the cursor: a show attempt that is not
rejected returns the user record with cursor 0, a rejected one returns the
store and the record it was given. -/
theorem showPartnerDetail_cursor (s : Store) (now chatID : Int) (user : User)
    (partners : List User) (k : Int) (t : Store) (u1 : User) (out : List Outbound)
    (h : showPartnerDetail s now chatID user partners k = some (t, u1, out)) :
    (¬ rateLimited now user → u1.CurrentNumberInPartnerList = 0) ∧
      (rateLimited now user → u1 = user ∧ t = s) := by
  unfold showPartnerDetail at h
  split at h
  · rename_i hlim
    simp only [Option.some.injEq, Prod.mk.injEq] at h
    exact ⟨fun hfree => absurd hlim hfree, fun _ => ⟨h.2.1.symm, h.1.symm⟩⟩
  · rename_i hfree
    refine ⟨fun _ => ?_, fun hlim => absurd hlim hfree⟩
    split at h
    · cases h
    · split at h
      · dsimp only at h
        split at h <;>
        · simp only [Option.some.injEq, Prod.mk.injEq] at h
          rw [← h.2.1]
      · simp only [Option.some.injEq, Prod.mk.injEq] at h
        rw [← h.2.1]

/-- The rows of the users table after `saveUser`: every row with the key of
the saved record is that record, a row with that key exists if one existed,
and the keys present are the same. -/
theorem saveUser_rows (s : Store) (v : User) :
    (∀ u ∈ (saveUser s v).users, u.ID = v.ID → u = v) ∧
      ((∃ u ∈ s.users, u.ID = v.ID) → v ∈ (saveUser s v).users) ∧
      (saveUser s v).cache = s.cache := by
  refine ⟨?_, ?_, rfl⟩
  · intro u hu hid
    simp only [saveUser] at hu
    obtain ⟨u0, _, hmap⟩ := List.mem_map.mp hu
    by_cases hsame : u0.ID = v.ID
    · rw [if_pos hsame] at hmap
      exact hmap.symm
    · rw [if_neg hsame] at hmap
      rw [← hmap] at hid
      exact absurd hid hsame
  · rintro ⟨u, hu, hid⟩
    simp only [saveUser]
    exact List.mem_map.mpr ⟨u, hu, by simp [hid]⟩

/-- Nothing has passed between an instant and itself. -/
theorem has24HoursPassed_self (now : Int) : has24HoursPassed now now = false := by
  simp [has24HoursPassed]

/-- The lookup of the requester's key right after `cachePartners`. -/
theorem getPartnersFromCache_cachePartners (s : Store) (now time : Int)
    (partners : List User) (telegramID : Int) :
    getPartnersFromCache (cachePartners s now partners telegramID) time telegramID =
      if time < now + cacheTTL then some partners else none := by
  simp [getPartnersFromCache, cachePartners]

/-- The tail of a search with a non-empty result: show the first candidate,
then store the find-partner question 1002. -/
theorem show_then_setQuestion (s1 : Store) (now chatID : Int) (user1 : User)
    (partners : List User) (p : User) (hk : index? partners 0 = some p) :
    ∃ t u1 out,
      (match showPartnerDetail s1 now chatID user1 partners 0 with
        | none => none
        | some (s, user, out) =>
          some ((setCurrentFindPartnerQuestion s user [1002]).1,
            (setCurrentFindPartnerQuestion s user [1002]).2, out)) = some (t, u1, out) ∧
      t.cache = s1.cache ∧ u1.ID = user1.ID ∧
      (∀ u ∈ t.users, u.ID = user1.ID → u = u1) ∧
      ((∃ u ∈ s1.users, u.ID = user1.ID) → u1 ∈ t.users) ∧
      (¬ rateLimited now user1 → u1.CurrentNumberInPartnerList = 0) ∧
      (rateLimited now user1 →
        u1.CurrentNumberInPartnerList = user1.CurrentNumberInPartnerList) := by
  obtain ⟨t0, u0, out, hshow, hcache0, hid, _, husers, _⟩ :=
    showPartnerDetail_valid s1 now chatID user1 partners 0 p hk
  obtain ⟨hfree, hlim⟩ := showPartnerDetail_cursor s1 now chatID user1 partners 0 t0 u0 out hshow
  rw [hshow]
  have hrows := saveUser_rows t0 { u0 with CurrentFindPartnerQuestion := 1002 }
  refine ⟨_, _, out, rfl, hcache0, hid, ?_, ?_, hfree, ?_⟩
  · intro u hu huid
    exact hrows.1 u hu (huid.trans hid.symm)
  · rintro ⟨u, hu, huid⟩
    apply hrows.2.1
    rcases husers with h | h
    · exact ⟨u, h ▸ hu, huid.trans hid.symm⟩
    · refine ⟨u0, ?_, rfl⟩
      rw [h]
      exact List.mem_map.mpr ⟨u, hu, by simp [huid]⟩
  · intro h
    rw [← (hlim h).1]
    rfl

/-- A search returns, with the cache written by `cachePartners` and the row of
the user overwritten by the returned record; the returned record has cursor 0
when a candidate was shown and the cursor it was given when the rate limiter
rejected the show attempt. -/
theorem processFindPartnerAnswers_result (s : Store) (now chatID : Int) (user : User) :
    ∃ t u1 out, processFindPartnerAnswers s now chatID user = some (t, u1, out) ∧
      t.cache = (cachePartners s now
        (getMatchingPartners s user.LastSelectedEnglishLevel user.LastSelectedGender
          user.TelegramID) user.TelegramID).cache ∧
      u1.ID = user.ID ∧
      (∀ u ∈ t.users, u.ID = user.ID → u = u1) ∧
      ((∃ u ∈ s.users, u.ID = user.ID) → u1 ∈ t.users) ∧
      (getMatchingPartners s user.LastSelectedEnglishLevel user.LastSelectedGender
          user.TelegramID ≠ [] →
        (¬ rateLimited now user → u1.CurrentNumberInPartnerList = 0) ∧
        (rateLimited now user →
          u1.CurrentNumberInPartnerList = user.CurrentNumberInPartnerList)) := by
  unfold processFindPartnerAnswers
  cases hp : getMatchingPartners s user.LastSelectedEnglishLevel user.LastSelectedGender
      user.TelegramID with
  | nil =>
    simp only [List.length_nil, gt_iff_lt, lt_self_iff_false, if_false]
    refine ⟨_, _, _, rfl, rfl, rfl, ?_, ?_, fun h => absurd rfl h⟩
    · exact (saveUser_rows (cachePartners s now [] user.TelegramID)
        { user with CurrentFindPartnerQuestion := 1002 }).1
    · exact (saveUser_rows (cachePartners s now [] user.TelegramID)
        { user with CurrentFindPartnerQuestion := 1002 }).2.1
  | cons p ps =>
    have hk : index? (p :: ps) 0 = some p := rfl
    simp only [List.length_cons, gt_iff_lt, Nat.zero_lt_succ, if_true]
    by_cases h24 : has24HoursPassed now user.LastFindPartnerTime = true
    · simp only [h24, if_true]
      obtain ⟨t, u1, out, hres, hcache, hid, hall, hex, hfree, _⟩ :=
        show_then_setQuestion
          (saveUser (cachePartners s now (p :: ps) user.TelegramID)
            { user with LastFindPartnerTime := now, CountWatchPartnerLimit := 0 })
          now chatID { user with LastFindPartnerTime := now, CountWatchPartnerLimit := 0 }
          (p :: ps) p hk
      refine ⟨t, u1, out, hres, hcache, hid, hall, ?_, fun _ => ⟨fun _ => hfree ?_, ?_⟩⟩
      · intro hrow
        apply hex
        exact ⟨_, (saveUser_rows (cachePartners s now (p :: ps) user.TelegramID)
          { user with LastFindPartnerTime := now, CountWatchPartnerLimit := 0 }).2.1 hrow, rfl⟩
      · intro hlim
        have hcount : (0 : Int) ≥ 20 := hlim.2
        omega
      · intro hlim
        rw [hlim.1] at h24
        cases h24
    · simp only [h24, if_false]
      obtain ⟨t, u1, out, hres, hcache, hid, hall, hex, hfree, hlim⟩ :=
        show_then_setQuestion (cachePartners s now (p :: ps) user.TelegramID) now chatID user
          (p :: ps) p hk
      exact ⟨t, u1, out, hres, hcache, hid, hall, hex, fun _ => ⟨hfree, hlim⟩⟩

/-- C9 as stated fails: A is at cursor 2 of an earlier list.  A search that
matches nobody stores the empty list in the cache and leaves the persisted
cursor at 2; a search that matches B, C, D while the rate limiter rejects the
show attempt stores B, C, D and leaves the persisted cursor at 2. -/
theorem processFindPartnerAnswers_keeps_cursor :
    (processFindPartnerAnswers staleStore 5 100 staleUser).map
        (fun r => (getPartnersFromCache r.1 5 100, persistedCursor r.1 100)) =
      some (some [], some 2) ∧
    rateLimited hour limitedUser ∧
    (processFindPartnerAnswers limitedStore hour 100 limitedUser).map
        (fun r => (getPartnersFromCache r.1 hour 100, persistedCursor r.1 100)) =
      some (some [userB, userC, userD], some 2) := by
  refine ⟨by decide, ⟨by decide, by decide⟩, by decide⟩

/-- C9 (amended): a filtered search by a persisted user returns; afterwards
the only cache entry under the requester's key is the full list returned by
the matching engine with an expiry 12 hours after the search, the entries of
other requesters are untouched, and a lookup finds that list until then.
When the list is not empty and the rate limiter does not reject the show
attempt, the persisted browse cursor is 0; when the rate limiter rejects it,
the persisted browse cursor keeps its value. -/
theorem processFindPartnerAnswers_cache_and_cursor (s : Store) (now chatID : Int)
    (user : User) (hrow : user ∈ s.users) :
    ∃ t u1 out, processFindPartnerAnswers s now chatID user = some (t, u1, out) ∧
      t.cache.filter (fun e => decide (e.key = redisKey user.TelegramID)) =
        [⟨redisKey user.TelegramID,
          getMatchingPartners s user.LastSelectedEnglishLevel user.LastSelectedGender
            user.TelegramID, now + 12 * hour⟩] ∧
      t.cache.filter (fun e => decide (e.key ≠ redisKey user.TelegramID)) =
        s.cache.filter (fun e => decide (e.key ≠ redisKey user.TelegramID)) ∧
      (∀ time, getPartnersFromCache t time user.TelegramID =
        if time < now + 12 * hour then
          some (getMatchingPartners s user.LastSelectedEnglishLevel user.LastSelectedGender
            user.TelegramID)
        else none) ∧
      (getMatchingPartners s user.LastSelectedEnglishLevel user.LastSelectedGender
          user.TelegramID ≠ [] →
        u1 ∈ t.users ∧ u1.ID = user.ID ∧
        (¬ rateLimited now user →
          ∀ u ∈ t.users, u.ID = user.ID → u.CurrentNumberInPartnerList = 0) ∧
        (rateLimited now user →
          ∀ u ∈ t.users, u.ID = user.ID →
            u.CurrentNumberInPartnerList = user.CurrentNumberInPartnerList)) := by
  obtain ⟨t, u1, out, hres, hcache, hid, hall, hex, hcur⟩ :=
    processFindPartnerAnswers_result s now chatID user
  refine ⟨t, u1, out, hres, ?_, ?_, ?_, ?_⟩
  · rw [hcache]
    simp [cachePartners, cacheTTL, List.filter_filter]
  · rw [hcache]
    simp [cachePartners, List.filter_filter]
  · intro time
    rw [getPartnersFromCache_congr _ t time user.TelegramID hcache]
    exact getPartnersFromCache_cachePartners s now time _ user.TelegramID
  · intro hne
    refine ⟨hex ⟨user, hrow, rfl⟩, hid, ?_, ?_⟩
    · intro hfree u hu huid
      rw [hall u hu huid]
      exact (hcur hne).1 hfree
    · intro hlim u hu huid
      rw [hall u hu huid]
      exact (hcur hne).2 hlim

/-- Witness for C9 (amended): A searches (Intermediate, "no matter") in
`searchStore` one hour into the window; B, C, D are cached for twelve hours
and the persisted cursor is 0. -/
theorem processFindPartnerAnswers_cache_and_cursor_example :
    searchingUser ∈ searchStore.users ∧
      (∃ t u1 out, processFindPartnerAnswers searchStore hour 100 searchingUser =
        some (t, u1, out)) ∧
      (processFindPartnerAnswers searchStore hour 100 searchingUser).map
          (fun r => (getPartnersFromCache r.1 (12 * hour) 100, persistedCursor r.1 100)) =
        some (some [userB, userC, userD], some 0) :=
  ⟨by decide,
    (processFindPartnerAnswers_cache_and_cursor searchStore hour 100 searchingUser
      (by decide)).imp fun _ ht => ht.imp fun _ hu => hu.imp fun _ hout => hout.1,
    by decide⟩

/-- The cache lookup fails exactly when the key is absent or its entry has
expired. -/
theorem getPartnersFromCache_eq_none (s : Store) (now telegramID : Int) :
    getPartnersFromCache s now telegramID = none ↔
      ∀ e, s.cache.find? (fun e => decide (e.key = redisKey telegramID)) = some e →
        e.expiresAt ≤ now := by
  unfold getPartnersFromCache
  cases hfind : s.cache.find? fun e => decide (e.key = redisKey telegramID) with
  | none => simp
  | some e =>
    by_cases hlive : now < e.expiresAt
    · simp [hlive]
    · simp [hlive, not_lt.mp hlive]

/-- C10 as stated fails: `exampleStore` has no cache entry for A; Next and
Follow by A return without any message to anyone. -/
theorem navigation_without_cache_sends_nothing :
    getPartnersFromCache exampleStore 5 userA.TelegramID = none ∧
      handleNextPartner exampleStore 5 100 userA = some (exampleStore, userA, []) ∧
      handleFollowRequest exampleStore 5 100 userA = some (exampleStore, []) := by
  decide

/-- C10 (amended): when the cache entry of the user is absent or expired (the
lookup fails), Next and Follow return without sending any message, which
differs from the "no more candidates" outcome, where a reply is sent, and
they leave the store unchanged. -/
theorem navigation_without_cache_is_silent (s : Store) (now chatID : Int) (user : User)
    (hmiss : getPartnersFromCache s now user.TelegramID = none) :
    handleNextPartner s now chatID user = some (s, user, []) ∧
      handleFollowRequest s now chatID user = some (s, []) ∧
      ([] : List Outbound) ≠ [noMoreCandidates chatID] := by
  refine ⟨?_, ?_, ?_⟩
  · unfold handleNextPartner
    simp only [hmiss]
  · unfold handleFollowRequest
    simp only [hmiss]
  · intro h
    cases h

/-- Witness for C10 (amended): the entry cached at time 0 in `browsingStore`
has expired twelve hours later, and Next then sends nothing. -/
theorem navigation_without_cache_is_silent_example :
    getPartnersFromCache browsingStore (12 * hour) userA.TelegramID = none ∧
      handleNextPartner browsingStore (12 * hour) 100 userA =
        some (browsingStore, userA, []) :=
  ⟨by decide,
    (navigation_without_cache_is_silent browsingStore (12 * hour) 100 userA (by decide)).1⟩

/-! ## Theorems: rate limiter -/

/-- C19: `isValidEnglishLevel s` is true exactly when `s` is one of
"Beginner", "Intermediate", "Advanced"; it is false for every other string,
and in particular for the empty string. -/
theorem isValidEnglishLevel_iff (s : String) :
    (isValidEnglishLevel s = true ↔ s = "Beginner" ∨ s = "Intermediate" ∨ s = "Advanced") ∧
      (¬ (s = "Beginner" ∨ s = "Intermediate" ∨ s = "Advanced") →
        isValidEnglishLevel s = false) ∧
      isValidEnglishLevel "" = false := by
  refine ⟨⟨?_, ?_⟩, ?_, by decide⟩
  · intro h
    unfold isValidEnglishLevel at h
    split at h
    · assumption
    · cases h
  · intro h
    unfold isValidEnglishLevel
    rw [if_pos h]
    rcases h with h | h | h <;> rw [h] <;> decide
  · intro h
    unfold isValidEnglishLevel
    rw [if_neg h]

/-- The window test of the rate limiter in terms of the elapsed time: fewer
than 24 whole hours have passed exactly when now - windowStart < 24h. -/
theorem has24HoursPassed_eq_false_iff (now lastTime : Int) :
    has24HoursPassed now lastTime = false ↔ now - lastTime < 24 * hour := by
  unfold has24HoursPassed hour
  rw [decide_eq_false_iff_not]
  by_cases h : 0 ≤ now - lastTime
  · rw [Int.tdiv_eq_ediv h (by decide)]
    omega
  · have hneg : Int.tdiv (now - lastTime) (3600 * 1000000000) =
        -Int.tdiv (-(now - lastTime)) (3600 * 1000000000) := by
      rw [Int.neg_tdiv]
      simp
    rw [hneg, Int.tdiv_eq_ediv (by omega) (by decide)]
    omega

/-- The rate limiter rejects exactly when now - windowStart < 24h and the
views of the window are at least 20. -/
theorem rateLimited_iff (now : Int) (user : User) :
    rateLimited now user ↔
      (now - user.LastFindPartnerTime < 24 * hour ∧ user.CountWatchPartnerLimit ≥ 20) := by
  unfold rateLimited
  rw [has24HoursPassed_eq_false_iff]

/-- A rejected show attempt: the cooldown message, and the store and the user
record as they were. -/
theorem showPartnerDetail_rejected (s : Store) (now chatID : Int) (user : User)
    (partners : List User) (k : Int) (hlim : rateLimited now user) :
    showPartnerDetail s now chatID user partners k = some (s, user, [cooldown chatID]) := by
  unfold rateLimited at hlim
  unfold showPartnerDetail
  rw [if_pos hlim]
  rfl

/-- A show attempt that is not rejected, on an existing candidate: the user
record gets cursor 0 and one more view and is saved, one watch record is
appended, and the cooldown message is not sent. -/
theorem showPartnerDetail_shown (s : Store) (now chatID : Int) (user : User)
    (partners : List User) (k : Int) (partner : User)
    (hk : index? partners k = some partner) (hfree : ¬ rateLimited now user) :
    ∃ out, showPartnerDetail s now chatID user partners k =
        some ({ saveUser s { user with
                  CurrentNumberInPartnerList := 0,
                  CountWatchPartnerLimit := wrapInt (user.CountWatchPartnerLimit + 1) } with
                watchLists := s.watchLists ++
                  [{ ID := s.watchListSeq + 1, UserID := chatID, WatchID := partner.TelegramID }],
                watchListSeq := s.watchListSeq + 1 },
              { user with
                  CurrentNumberInPartnerList := 0,
                  CountWatchPartnerLimit := wrapInt (user.CountWatchPartnerLimit + 1) },
              out) ∧
      cooldown chatID ∉ out ∧ out.length ≠ 1 := by
  unfold rateLimited at hfree
  unfold showPartnerDetail
  rw [if_neg hfree]
  simp only [hk]
  split
  · split
    · exact ⟨_, rfl, by simp, by simp⟩
    · exact ⟨_, rfl, by simp [cooldown, sendMessage], by simp⟩
  · exact ⟨_, rfl, by simp [cooldown, sendMessage], by simp⟩

/-- Show attempts inside one window, starting below the limit: each one is
served and adds one view, and the window start stays. -/
theorem showCalls_within_limit (chatID : Int) (partners : List User) (k : Int)
    (partner : User) (hk : index? partners k = some partner) :
    ∀ (times : List Int) (s : Store) (user : User),
      (∀ t ∈ times, t - user.LastFindPartnerTime < 24 * hour) →
      0 ≤ user.CountWatchPartnerLimit →
      user.CountWatchPartnerLimit + times.length ≤ 20 →
      ∃ t u1, showCalls chatID partners k times s user = some (t, u1) ∧
        u1.CountWatchPartnerLimit = user.CountWatchPartnerLimit + times.length ∧
        u1.LastFindPartnerTime = user.LastFindPartnerTime := by
  intro times
  induction times with
  | nil =>
    intro s user _ _ _
    exact ⟨s, user, rfl, by simp, rfl⟩
  | cons now rest ih =>
    intro s user hwin h0 hle
    have hlen : ((now :: rest).length : Int) = (rest.length : Int) + 1 := by
      simp
    rw [hlen] at hle
    have hfree : ¬ rateLimited now user := by
      rw [rateLimited_iff]
      omega
    obtain ⟨out, hshow, hout, _⟩ :=
      showPartnerDetail_shown s now chatID user partners k partner hk hfree
    have hwrap : wrapInt (user.CountWatchPartnerLimit + 1) = user.CountWatchPartnerLimit + 1 :=
      wrapInt_of_range _ (by omega) (by omega)
    obtain ⟨t, u1, hcalls, hcount, hlast⟩ :=
      ih _ { user with
          CurrentNumberInPartnerList := 0,
          CountWatchPartnerLimit := wrapInt (user.CountWatchPartnerLimit + 1) }
        (fun n hn => hwin n (List.mem_cons_of_mem _ hn))
        (by show 0 ≤ wrapInt (user.CountWatchPartnerLimit + 1); omega)
        (by show wrapInt (user.CountWatchPartnerLimit + 1) + rest.length ≤ 20; omega)
    refine ⟨t, u1, ?_, ?_, hlast⟩
    · unfold showCalls
      simp only [hshow, hout, if_false]
      exact hcalls
    · rw [hcount, hlen]
      show wrapInt (user.CountWatchPartnerLimit + 1) + rest.length = _
      omega

/-- C11: a show attempt on an existing candidate is answered with the
cooldown message, and nothing else, exactly when now - windowStart < 24h and
the views of the window are at least 20; whenever the attempt returns, the
cooldown message is among its messages exactly in that case.  In particular,
from a window with 0 views, 20 show attempts inside the window are all served
and every further attempt inside the window is rejected. -/
theorem showPartnerDetail_rate_limit (s : Store) (now chatID : Int) (user : User)
    (partners : List User) (k : Int) (partner : User)
    (hk : index? partners k = some partner) :
    (showPartnerDetail s now chatID user partners k = some (s, user, [cooldown chatID]) ↔
        (now - user.LastFindPartnerTime < 24 * hour ∧ user.CountWatchPartnerLimit ≥ 20)) ∧
      (∀ t u1 out, showPartnerDetail s now chatID user partners k = some (t, u1, out) →
        (cooldown chatID ∈ out ↔
          (now - user.LastFindPartnerTime < 24 * hour ∧ user.CountWatchPartnerLimit ≥ 20))) ∧
      (∀ times : List Int,
        user.CountWatchPartnerLimit = 0 → times.length = 20 →
        (∀ t ∈ times, t - user.LastFindPartnerTime < 24 * hour) →
        ∃ t u1, showCalls chatID partners k times s user = some (t, u1) ∧
          u1.CountWatchPartnerLimit = 20 ∧
          ∀ later, later - user.LastFindPartnerTime < 24 * hour →
            showPartnerDetail t later chatID u1 partners k =
              some (t, u1, [cooldown chatID])) := by
  refine ⟨⟨?_, ?_⟩, ?_, ?_⟩
  · intro h
    by_cases hlim : rateLimited now user
    · exact (rateLimited_iff now user).mp hlim
    · obtain ⟨out, hshow, _, hlen⟩ :=
        showPartnerDetail_shown s now chatID user partners k partner hk hlim
      rw [hshow] at h
      simp only [Option.some.injEq, Prod.mk.injEq] at h
      rw [h.2.2] at hlen
      exact absurd rfl hlen
  · intro h
    exact showPartnerDetail_rejected s now chatID user partners k
      ((rateLimited_iff now user).mpr h)
  · intro t u1 out h
    by_cases hlim : rateLimited now user
    · rw [showPartnerDetail_rejected s now chatID user partners k hlim] at h
      simp only [Option.some.injEq, Prod.mk.injEq] at h
      rw [← h.2.2]
      simp [(rateLimited_iff now user).mp hlim]
    · obtain ⟨out2, hshow, hout, _⟩ :=
        showPartnerDetail_shown s now chatID user partners k partner hk hlim
      rw [hshow] at h
      simp only [Option.some.injEq, Prod.mk.injEq] at h
      rw [← h.2.2]
      constructor
      · intro hmem
        exact absurd hmem hout
      · intro hcond
        exact absurd ((rateLimited_iff now user).mpr hcond) hlim
  · intro times hzero hlen hwin
    obtain ⟨t, u1, hcalls, hcount, hlast⟩ :=
      showCalls_within_limit chatID partners k partner hk times s user hwin
        (by omega) (by rw [hzero, hlen]; decide)
    have hcount20 : u1.CountWatchPartnerLimit = 20 := by
      rw [hcount, hzero, hlen]
      decide
    refine ⟨t, u1, hcalls, hcount20, ?_⟩
    intro later hlater
    apply showPartnerDetail_rejected
    rw [rateLimited_iff, hlast, hcount20]
    exact ⟨hlater, by decide⟩

/-- Witness for C11: A, with no view in the window that started at time 0,
is shown B twenty times one hour into the window; the views are then 20 and
every further attempt inside the window is rejected. -/
theorem showPartnerDetail_rate_limit_example :
    index? [userB, userC, userD] 0 = some userB ∧
      ∃ t u1, showCalls 100 [userB, userC, userD] 0 (List.replicate 20 hour) browsingStore
          userA = some (t, u1) ∧
        u1.CountWatchPartnerLimit = 20 ∧
        ∀ later, later - userA.LastFindPartnerTime < 24 * hour →
          showPartnerDetail t later 100 u1 [userB, userC, userD] 0 =
            some (t, u1, [cooldown 100]) :=
  ⟨by decide,
    (showPartnerDetail_rate_limit browsingStore 0 100 userA [userB, userC, userD] 0 userB
      (by decide)).2.2 (List.replicate 20 hour) (by decide) (by decide) (by decide)⟩

/-- A filtered search whose show attempt is rejected: the list is cached, the
find-partner question becomes 1002, and the user record is otherwise saved as
it was loaded; the watch list is not written. -/
theorem processFindPartnerAnswers_rejected (s : Store) (now chatID : Int) (user : User)
    (hne : getMatchingPartners s user.LastSelectedEnglishLevel user.LastSelectedGender
      user.TelegramID ≠ [])
    (hlim : rateLimited now user) :
    processFindPartnerAnswers s now chatID user =
      some (saveUser
          (cachePartners s now
            (getMatchingPartners s user.LastSelectedEnglishLevel user.LastSelectedGender
              user.TelegramID) user.TelegramID)
          { user with CurrentFindPartnerQuestion := 1002 },
        { user with CurrentFindPartnerQuestion := 1002 }, [cooldown chatID]) := by
  unfold processFindPartnerAnswers
  cases hp : getMatchingPartners s user.LastSelectedEnglishLevel user.LastSelectedGender
      user.TelegramID with
  | nil => exact absurd hp hne
  | cons p ps =>
    simp only [List.length_cons, gt_iff_lt, Nat.zero_lt_succ, if_true, hlim.1,
      Bool.false_eq_true, if_false]
    rw [showPartnerDetail_rejected _ now chatID user (p :: ps) 0 hlim]
    rfl

/-- A filtered search after the window has run out, with a non-empty result:
the returned user record has the window start at now and one view. -/
theorem processFindPartnerAnswers_new_window (s : Store) (now chatID : Int) (user : User)
    (hne : getMatchingPartners s user.LastSelectedEnglishLevel user.LastSelectedGender
      user.TelegramID ≠ [])
    (h24 : now - user.LastFindPartnerTime ≥ 24 * hour) :
    ∃ t u1 out, processFindPartnerAnswers s now chatID user = some (t, u1, out) ∧
      cooldown chatID ∉ out ∧ u1.LastFindPartnerTime = now ∧ u1.CountWatchPartnerLimit = 1 ∧
      ∀ u ∈ t.users, u.ID = user.ID → u = u1 := by
  have hpassed : has24HoursPassed now user.LastFindPartnerTime = true := by
    cases hval : has24HoursPassed now user.LastFindPartnerTime with
    | true => rfl
    | false =>
      have := (has24HoursPassed_eq_false_iff now user.LastFindPartnerTime).mp hval
      omega
  unfold processFindPartnerAnswers
  cases hp : getMatchingPartners s user.LastSelectedEnglishLevel user.LastSelectedGender
      user.TelegramID with
  | nil => exact absurd hp hne
  | cons p ps =>
    have hk : index? (p :: ps) 0 = some p := rfl
    have hfree : ¬ rateLimited now
        { user with LastFindPartnerTime := now, CountWatchPartnerLimit := 0 } := by
      intro hlim
      have hcount : (0 : Int) ≥ 20 := hlim.2
      omega
    obtain ⟨out, hshow, hout, _⟩ :=
      showPartnerDetail_shown
        (saveUser (cachePartners s now (p :: ps) user.TelegramID)
          { user with LastFindPartnerTime := now, CountWatchPartnerLimit := 0 })
        now chatID { user with LastFindPartnerTime := now, CountWatchPartnerLimit := 0 }
        (p :: ps) 0 p hk hfree
    simp only [List.length_cons, gt_iff_lt, Nat.zero_lt_succ, if_true, hpassed, hshow]
    refine ⟨_, _, out, rfl, hout, rfl, ?_, ?_⟩
    · show wrapInt (0 + 1) = 1
      decide
    · intro u hu hid
      exact (saveUser_rows _ _).1 u hu hid

/-- C12 (defect in the code): A has 20 views in the running window and is at
cursor 0 of the cached list B, C, D.  Next is rejected with the cooldown
message and writes no watch record, yet the persisted browse cursor moves
from 0 to 1. -/
theorem handleNextPartner_rejected_moves_cursor :
    rateLimited hour limitedNextUser ∧
      persistedCursor limitedNextStore 100 = some 0 ∧
      (handleNextPartner limitedNextStore hour 100 limitedNextUser).map
          (fun r => (r.2.2, persistedCursor r.1 100, r.1.watchLists)) =
        some ([cooldown 100], some 1, []) := by
  refine ⟨⟨by decide, by decide⟩, by decide, by decide⟩

/-- C13 (defect in the code): A has 20 views in a window that started 25 hours
ago and is at cursor 0 of the list B, C, D cached 5 hours ago.  Next shows C
without the cooldown message, but the window start stays at 0 instead of now
and the views become 21 instead of 1. -/
theorem handleNextPartner_keeps_expired_window :
    25 * hour - limitedNextUser.LastFindPartnerTime ≥ 24 * hour ∧
      (handleNextPartner expiredWindowStore (25 * hour) 100 limitedNextUser).map
          (fun r => (decide (cooldown 100 ∈ r.2.2),
            (persistedUser r.1 100).map fun u =>
              (u.LastFindPartnerTime, u.CountWatchPartnerLimit))) =
        some (false, some (0, 21)) := by
  refine ⟨by decide, by decide⟩

/-- C14: a show attempt on an existing candidate that the rate limiter does
not reject, made for a persisted requester in the requester's own chat with a
views counter whose increment stays inside `int`, returns; afterwards the
persisted views counter is one more than before, and exactly one watch record
(viewer = the requester, viewed = the shown candidate) has been appended
behind the existing watch records, which are all still in place. -/
theorem showPartnerDetail_counts_and_records (s : Store) (now chatID : Int) (user : User)
    (partners : List User) (k : Int) (partner : User)
    (hk : index? partners k = some partner)
    (hfree : ¬ (now - user.LastFindPartnerTime < 24 * hour ∧
      user.CountWatchPartnerLimit ≥ 20))
    (hrow : user ∈ s.users) (hchat : chatID = user.TelegramID)
    (hlo : -2 ^ 63 ≤ user.CountWatchPartnerLimit)
    (hhi : user.CountWatchPartnerLimit + 1 < 2 ^ 63) :
    ∃ t u1 out, showPartnerDetail s now chatID user partners k = some (t, u1, out) ∧
      cooldown chatID ∉ out ∧ u1 ∈ t.users ∧ u1.ID = user.ID ∧
      (∀ u ∈ t.users, u.ID = user.ID →
        u.CountWatchPartnerLimit = user.CountWatchPartnerLimit + 1) ∧
      t.watchLists = s.watchLists ++
        [{ ID := s.watchListSeq + 1, UserID := user.TelegramID,
           WatchID := partner.TelegramID }] := by
  have hnot : ¬ rateLimited now user := fun h => hfree ((rateLimited_iff now user).mp h)
  obtain ⟨out, hshow, hout, _⟩ :=
    showPartnerDetail_shown s now chatID user partners k partner hk hnot
  have hwrap : wrapInt (user.CountWatchPartnerLimit + 1) = user.CountWatchPartnerLimit + 1 :=
    wrapInt_of_range _ (by omega) (by omega)
  have hrows := saveUser_rows s { user with
    CurrentNumberInPartnerList := 0,
    CountWatchPartnerLimit := wrapInt (user.CountWatchPartnerLimit + 1) }
  refine ⟨_, _, out, hshow, hout, hrows.2.1 ⟨user, hrow, rfl⟩, rfl, ?_, ?_⟩
  · intro u hu hid
    rw [hrows.1 u hu hid]
    exact hwrap
  · rw [hchat]

/-- Witness for C14: A, with no view yet, is shown B from the cached list; the
views become 1 and the watch record (A, B) is the only one. -/
theorem showPartnerDetail_counts_and_records_example :
    index? [userB, userC, userD] 0 = some userB ∧ userA ∈ browsingStore.users ∧
      ∃ t u1 out, showPartnerDetail browsingStore hour 100 userA [userB, userC, userD] 0 =
          some (t, u1, out) ∧
        (∀ u ∈ t.users, u.ID = userA.ID → u.CountWatchPartnerLimit = 1) ∧
        t.watchLists = [{ ID := 1, UserID := 100, WatchID := 200 }] :=
  ⟨by decide, by decide,
    (showPartnerDetail_counts_and_records browsingStore hour 100 userA [userB, userC, userD] 0
      userB (by decide) (by decide) (by decide) (by decide) (by decide) (by decide)).imp
      fun _ ht => ht.imp fun _ hu => hu.imp fun _ hout => ⟨hout.1, hout.2.2.2.2.1, hout.2.2.2.2.2⟩⟩

/-! ## Theorems: onboarding and editing -/

/-- Saving a record whose key is in the users table persists it. -/
theorem persisted_saveUser (s : Store) (v : User) (hrow : ∃ u ∈ s.users, u.ID = v.ID) :
    Persisted (saveUser s v) v :=
  ⟨(saveUser_rows s v).2.1 hrow, (saveUser_rows s v).1⟩

/-- A persisted record has its key in the users table. -/
theorem Persisted.hasRow {s : Store} {v : User} (h : Persisted s v) :
    ∃ u ∈ s.users, u.ID = v.ID :=
  ⟨v, h.1, rfl⟩

/-- Saving keeps every key that is in the users table. -/
theorem saveUser_hasRow (s : Store) (v : User) (id : Nat)
    (hrow : ∃ u ∈ s.users, u.ID = id) : ∃ u ∈ (saveUser s v).users, u.ID = id := by
  obtain ⟨u, hu, hid⟩ := hrow
  simp only [saveUser]
  by_cases hsame : u.ID = v.ID
  · exact ⟨v, List.mem_map.mpr ⟨u, hu, by simp [hsame]⟩, hsame.symm.trans hid⟩
  · exact ⟨u, List.mem_map.mpr ⟨u, hu, by simp [hsame]⟩, hid⟩

/-- The store after `askQuestion` is the store before, or that store with the
user saved once more (at the end of the registration). -/
theorem askQuestion_store (s : Store) (chatID : Int) (user : User) :
    (askQuestion s chatID user).1 = s ∨ (askQuestion s chatID user).1 = saveUser s user := by
  unfold askQuestion
  repeat' split
  all_goals first
    | exact Or.inl rfl
    | exact Or.inr rfl

/-- Moving to the next question: the cursor is incremented, the record is
persisted, and the tables other than users are untouched. -/
theorem thenNextQuestion_spec (s : Store) (chatID : Int) (v : User) (out : List Outbound)
    (hrow : ∃ u ∈ s.users, u.ID = v.ID) :
    ∃ t asked, thenNextQuestion s chatID v out =
        (t, { v with CurrentQuestion := wrapInt (v.CurrentQuestion + 1) }, out ++ asked) ∧
      Persisted t { v with CurrentQuestion := wrapInt (v.CurrentQuestion + 1) } ∧
      t.medias = s.medias ∧ t.mediaSeq = s.mediaSeq ∧ t.watchLists = s.watchLists ∧
      t.followRequests = s.followRequests ∧ t.cache = s.cache := by
  have hsave := persisted_saveUser s
    { v with CurrentQuestion := wrapInt (v.CurrentQuestion + 1) } hrow
  have heq : thenNextQuestion s chatID v out =
      ((askQuestion (saveUser s { v with CurrentQuestion := wrapInt (v.CurrentQuestion + 1) })
          chatID { v with CurrentQuestion := wrapInt (v.CurrentQuestion + 1) }).1,
        { v with CurrentQuestion := wrapInt (v.CurrentQuestion + 1) },
        out ++ (askQuestion
          (saveUser s { v with CurrentQuestion := wrapInt (v.CurrentQuestion + 1) })
          chatID { v with CurrentQuestion := wrapInt (v.CurrentQuestion + 1) }).2) := rfl
  rcases askQuestion_store (saveUser s { v with CurrentQuestion := wrapInt (v.CurrentQuestion + 1) })
    chatID { v with CurrentQuestion := wrapInt (v.CurrentQuestion + 1) } with h | h
  · refine ⟨_, _, heq, ?_, ?_, ?_, ?_, ?_, ?_⟩
    · rw [h]
      exact hsave
    all_goals rw [h]; rfl
  · refine ⟨_, _, heq, ?_, ?_, ?_, ?_, ?_, ?_⟩
    · rw [h]
      exact persisted_saveUser _ _ hsave.hasRow
    all_goals rw [h]; rfl

/-- The name answer: any text is stored. -/
theorem processUserAnswer_name (s : Store) (message : Message) (user : User)
    (hq : user.CurrentQuestion = QuestionName) :
    processUserAnswer s message user =
      thenNextQuestion s message.ChatID
        { user with Username := message.FromUserName, Name := message.Text } [] := by
  unfold processUserAnswer
  simp only [hq, if_true]

/-- The mobile answer given with the skip button. -/
theorem processUserAnswer_skip (s : Store) (message : Message) (user : User)
    (hq : user.CurrentQuestion = QuestionMobileNumber)
    (hskip : message.Text = skipMobileNumber) :
    processUserAnswer s message user =
      thenNextQuestion s message.ChatID
        { user with Username := message.FromUserName, MobileNumber := "empty" } [] := by
  unfold processUserAnswer
  unfold skipMobileNumber at hskip
  simp only [hq, hskip, if_true, QuestionMobileNumber, QuestionName]
  rfl

/-- The mobile answer typed as text. -/
theorem processUserAnswer_mobile (s : Store) (message : Message) (user : User)
    (hq : user.CurrentQuestion = QuestionMobileNumber)
    (hskip : message.Text ≠ skipMobileNumber) :
    processUserAnswer s message user =
      if isValidMobileNumber message.Text ≠ "error" then
        thenNextQuestion s message.ChatID
          { user with Username := message.FromUserName,
                      MobileNumber := isValidMobileNumber message.Text } []
      else
        (s, { user with Username := message.FromUserName },
          [sendErrorMessage message.ChatID
            "Invalid mobile number. Please enter a valid 11-digit mobile number."]) := by
  unfold processUserAnswer
  unfold skipMobileNumber at hskip
  simp only [hq, hskip, if_false, QuestionMobileNumber, QuestionName]
  rfl

/-- The English level answer. -/
theorem processUserAnswer_level (s : Store) (message : Message) (user : User)
    (hq : user.CurrentQuestion = QuestionEnglishLevel) :
    processUserAnswer s message user =
      if isValidEnglishLevel message.Text = true then
        thenNextQuestion s message.ChatID
          { user with Username := message.FromUserName, EnglishLevel := message.Text } []
      else
        (s, { user with Username := message.FromUserName },
          [sendErrorMessage message.ChatID
            "Invalid English level. Please select from Beginner, Intermediate, or Advanced."]) := by
  unfold processUserAnswer
  simp only [hq, QuestionEnglishLevel, QuestionMobileNumber, QuestionName]
  rfl

/-- The photo answer. -/
theorem processUserAnswer_photo (s : Store) (message : Message) (user : User)
    (hq : user.CurrentQuestion = QuestionProfilePhoto) :
    processUserAnswer s message user =
      if message.Photo ≠ [] then
        thenNextQuestion
          (handlePhotoUpload
            (handleExistingUser s { user with Username := message.FromUserName }).1 message).1
          message.ChatID
          { (handleExistingUser s { user with Username := message.FromUserName }).2 with
            MediaID := (handlePhotoUpload
              (handleExistingUser s { user with Username := message.FromUserName }).1
              message).2.1 }
          (handlePhotoUpload
            (handleExistingUser s { user with Username := message.FromUserName }).1 message).2.2
      else
        (s, { user with Username := message.FromUserName },
          [sendErrorMessage message.ChatID "Please Upload a Your Profile Photo."]) := by
  unfold processUserAnswer
  simp only [hq, QuestionProfilePhoto, QuestionEnglishLevel, QuestionMobileNumber, QuestionName]
  rfl

/-- The gender answer. -/
theorem processUserAnswer_gender (s : Store) (message : Message) (user : User)
    (hq : user.CurrentQuestion = QuestionGender) :
    processUserAnswer s message user =
      if validSelectedGender message.Text = "male" ∨
          validSelectedGender message.Text = "female" then
        thenNextQuestion s message.ChatID
          { user with Username := message.FromUserName,
                      Gender := validSelectedGender message.Text } []
      else
        (s, { user with Username := message.FromUserName },
          [sendErrorMessage message.ChatID
            "Invalid Gender. Please select from Male or Female."]) := by
  unfold processUserAnswer
  simp only [hq, QuestionGender, QuestionProfilePhoto, QuestionEnglishLevel,
    QuestionMobileNumber, QuestionName]
  rfl

/-- Any cursor outside the five questions: the answer to an edit question. -/
theorem processUserAnswer_edit (s : Store) (message : Message) (user : User)
    (hq : QuestionDone ≤ user.CurrentQuestion) :
    processUserAnswer s message user =
      processEditAnswer s message { user with Username := message.FromUserName } := by
  unfold processUserAnswer
  unfold QuestionDone at hq
  have h0 : user.CurrentQuestion ≠ 0 := by omega
  have h1 : user.CurrentQuestion ≠ 1 := by omega
  have h2 : user.CurrentQuestion ≠ 2 := by omega
  have h3 : user.CurrentQuestion ≠ 3 := by omega
  have h4 : user.CurrentQuestion ≠ 4 := by omega
  simp only [QuestionGender, QuestionProfilePhoto, QuestionEnglishLevel,
    QuestionMobileNumber, QuestionName, h0, h1, h2, h3, h4, if_false]

/-- Freeing the old photo keeps the key of the user in the users table, leaves
the media sequence alone and changes at most the photo reference of the
record. -/
theorem handleExistingUser_spec (s : Store) (user : User)
    (hrow : ∃ u ∈ s.users, u.ID = user.ID) :
    (∃ u ∈ (handleExistingUser s user).1.users, u.ID = user.ID) ∧
      (handleExistingUser s user).1.mediaSeq = s.mediaSeq ∧
      ((handleExistingUser s user).2 = user ∨
        (handleExistingUser s user).2 = { user with MediaID := 0 }) := by
  unfold handleExistingUser
  split
  · split
    · exact ⟨hrow, rfl, Or.inl rfl⟩
    · exact ⟨saveUser_hasRow _ _ _ hrow, rfl, Or.inr rfl⟩
  · exact ⟨hrow, rfl, Or.inl rfl⟩

/-- Storing the photo of a message that carries one: a media row with the next
key of the media sequence is appended and its key is returned. -/
theorem handlePhotoUpload_photo (s : Store) (message : Message) (hphoto : message.Photo ≠ []) :
    ∃ media : Media, media.ID = s.mediaSeq + 1 ∧
      handlePhotoUpload s message =
        ({ s with medias := s.medias ++ [media], mediaSeq := s.mediaSeq + 1 },
          s.mediaSeq + 1, []) := by
  unfold handlePhotoUpload
  cases hp : message.Photo with
  | nil => exact absurd hp hphoto
  | cons first rest => exact ⟨_, rfl, rfl⟩

/-- A number accepted by the validator is the stripped input. -/
theorem isValidMobileNumber_of_ne_error (text : String)
    (h : isValidMobileNumber text ≠ "error") : isValidMobileNumber text = stripped text := by
  rw [isValidMobileNumber_eq] at h ⊢
  split
  · rfl
  · rename_i hcond
    rw [if_neg hcond] at h
    exact absurd rfl h

/-- One valid onboarding answer: the record is persisted with the answered
field set and the cursor one further. -/
theorem processUserAnswer_step (s : Store) (message : Message) (user : User)
    (hrow : ∃ u ∈ s.users, u.ID = user.ID)
    (hvalid : acceptedAnswer user.CurrentQuestion message) :
    ∃ t u1 out, processUserAnswer s message user = (t, u1, out) ∧ Persisted t u1 ∧
      u1.ID = user.ID ∧ u1.CurrentQuestion = user.CurrentQuestion + 1 ∧
      (user.CurrentQuestion = QuestionName → u1.Name = message.Text) ∧
      (user.CurrentQuestion = QuestionMobileNumber →
        u1.MobileNumber =
          if message.Text = skipMobileNumber then "empty" else stripped message.Text) ∧
      (user.CurrentQuestion = QuestionEnglishLevel → u1.EnglishLevel = message.Text) ∧
      (user.CurrentQuestion = QuestionProfilePhoto →
        u1.MediaID = s.mediaSeq + 1 ∧ ∃ m ∈ t.medias, m.ID = s.mediaSeq + 1) ∧
      (user.CurrentQuestion = QuestionGender →
        u1.Gender = validSelectedGender message.Text) := by
  rcases hvalid with hq | ⟨hq, hv⟩ | ⟨hq, hv⟩ | ⟨hq, hv⟩ | ⟨hq, hv⟩
  · obtain ⟨t, asked, heq, hpers, _⟩ := thenNextQuestion_spec s message.ChatID
      { user with Username := message.FromUserName, Name := message.Text } [] hrow
    rw [processUserAnswer_name s message user hq, heq]
    refine ⟨_, _, _, rfl, hpers, rfl, ?_, fun _ => rfl, ?_, ?_, ?_, ?_⟩
    · show wrapInt (user.CurrentQuestion + 1) = _
      rw [hq]
      decide
    all_goals
      intro h
      rw [hq] at h
      exact absurd h (by decide)
  · by_cases hskip : message.Text = skipMobileNumber
    · obtain ⟨t, asked, heq, hpers, _⟩ := thenNextQuestion_spec s message.ChatID
        { user with Username := message.FromUserName, MobileNumber := "empty" } [] hrow
      rw [processUserAnswer_skip s message user hq hskip, heq]
      refine ⟨_, _, _, rfl, hpers, rfl, ?_, ?_, fun _ => by rw [if_pos hskip], ?_, ?_, ?_⟩
      · show wrapInt (user.CurrentQuestion + 1) = _
        rw [hq]
        decide
      all_goals
        intro h
        rw [hq] at h
        exact absurd h (by decide)
    · have hnum : isValidMobileNumber message.Text ≠ "error" := by
        rcases hv with h | h
        · exact absurd h hskip
        · exact h
      obtain ⟨t, asked, heq, hpers, _⟩ := thenNextQuestion_spec s message.ChatID
        { user with Username := message.FromUserName,
                    MobileNumber := isValidMobileNumber message.Text } [] hrow
      rw [processUserAnswer_mobile s message user hq hskip, if_pos hnum, heq]
      refine ⟨_, _, _, rfl, hpers, rfl, ?_, ?_,
        fun _ => by rw [if_neg hskip]; exact isValidMobileNumber_of_ne_error _ hnum, ?_, ?_, ?_⟩
      · show wrapInt (user.CurrentQuestion + 1) = _
        rw [hq]
        decide
      all_goals
        intro h
        rw [hq] at h
        exact absurd h (by decide)
  · obtain ⟨t, asked, heq, hpers, _⟩ := thenNextQuestion_spec s message.ChatID
      { user with Username := message.FromUserName, EnglishLevel := message.Text } [] hrow
    rw [processUserAnswer_level s message user hq, if_pos hv, heq]
    refine ⟨_, _, _, rfl, hpers, rfl, ?_, ?_, ?_, fun _ => rfl, ?_, ?_⟩
    · show wrapInt (user.CurrentQuestion + 1) = _
      rw [hq]
      decide
    all_goals
      intro h
      rw [hq] at h
      exact absurd h (by decide)
  · obtain ⟨hrow1, hseq1, _⟩ :=
      handleExistingUser_spec s { user with Username := message.FromUserName } hrow
    obtain ⟨media, hmid, hup⟩ := handlePhotoUpload_photo
      (handleExistingUser s { user with Username := message.FromUserName }).1 message hv
    have hid1 : (handleExistingUser s { user with Username := message.FromUserName }).2.ID =
        user.ID := by
      rcases (handleExistingUser_spec s { user with Username := message.FromUserName } hrow).2.2
        with h | h <;> rw [h]
    rw [processUserAnswer_photo s message user hq, if_pos hv, hup]
    obtain ⟨t, asked, heq, hpers, hmedias, _⟩ := thenNextQuestion_spec
      { (handleExistingUser s { user with Username := message.FromUserName }).1 with
        medias := (handleExistingUser s { user with Username := message.FromUserName }).1.medias ++
          [media],
        mediaSeq :=
          (handleExistingUser s { user with Username := message.FromUserName }).1.mediaSeq + 1 }
      message.ChatID
      { (handleExistingUser s { user with Username := message.FromUserName }).2 with
        MediaID :=
          (handleExistingUser s { user with Username := message.FromUserName }).1.mediaSeq + 1 }
      [] (by rw [show _ = user.ID from hid1]; exact hrow1)
    rw [heq]
    refine ⟨_, _, _, rfl, hpers, hid1, ?_, ?_, ?_, ?_,
      fun _ => ⟨congrArg (fun n => n + 1) hseq1, ?_⟩, ?_⟩
    · show wrapInt ((handleExistingUser s _).2.CurrentQuestion + 1) = _
      have hcq : (handleExistingUser s { user with Username := message.FromUserName }).2.CurrentQuestion
          = user.CurrentQuestion := by
        rcases (handleExistingUser_spec s { user with Username := message.FromUserName } hrow).2.2
          with h | h <;> rw [h]
      rw [hcq, hq]
      decide
    · intro h
      rw [hq] at h
      exact absurd h (by decide)
    · intro h
      rw [hq] at h
      exact absurd h (by decide)
    · intro h
      rw [hq] at h
      exact absurd h (by decide)
    · rw [hmedias]
      exact ⟨media, List.mem_append_right _ (List.mem_singleton.mpr rfl),
        hmid.trans (congrArg (fun n => n + 1) hseq1)⟩
    · intro h
      rw [hq] at h
      exact absurd h (by decide)
  · obtain ⟨t, asked, heq, hpers, _⟩ := thenNextQuestion_spec s message.ChatID
      { user with Username := message.FromUserName,
                  Gender := validSelectedGender message.Text } [] hrow
    rw [processUserAnswer_gender s message user hq, if_pos hv, heq]
    refine ⟨_, _, _, rfl, hpers, rfl, ?_, ?_, ?_, ?_, ?_, fun _ => rfl⟩
    · show wrapInt (user.CurrentQuestion + 1) = _
      rw [hq]
      decide
    all_goals
      intro h
      rw [hq] at h
      exact absurd h (by decide)

/-- For a persisted user in an onboarding state before Registered and an
answer that passes the guard of that state, `processUserAnswer` persists the
record with the answered field set (name = the text; mobile = "empty" for the
skip button and the stripped text otherwise; English level = the text; photo
reference = the key of the media row created for the upload; gender = male or
female) and with the onboarding cursor one further.  Hence five accepted
answers in the order name, mobile, English level, photo, gender take the
persisted cursor from `QuestionName` to `QuestionDone`. -/
theorem processUserAnswer_accepted_answer (s : Store) (message : Message) (user : User)
    (hrow : user ∈ s.users)
    (hvalid : acceptedAnswer user.CurrentQuestion message) :
    (∃ t u1 out, processUserAnswer s message user = (t, u1, out) ∧ Persisted t u1 ∧
        u1.ID = user.ID ∧ u1.CurrentQuestion = user.CurrentQuestion + 1 ∧
        (user.CurrentQuestion = QuestionName → u1.Name = message.Text) ∧
        (user.CurrentQuestion = QuestionMobileNumber →
          u1.MobileNumber =
            if message.Text = skipMobileNumber then "empty" else stripped message.Text) ∧
        (user.CurrentQuestion = QuestionEnglishLevel → u1.EnglishLevel = message.Text) ∧
        (user.CurrentQuestion = QuestionProfilePhoto →
          u1.MediaID = s.mediaSeq + 1 ∧ ∃ m ∈ t.medias, m.ID = s.mediaSeq + 1) ∧
        (user.CurrentQuestion = QuestionGender →
          u1.Gender = validSelectedGender message.Text ∧
            (u1.Gender = "male" ∨ u1.Gender = "female"))) ∧
      (∀ m2 m3 m4 m5 : Message,
        user.CurrentQuestion = QuestionName →
        acceptedAnswer QuestionMobileNumber m2 → acceptedAnswer QuestionEnglishLevel m3 →
        acceptedAnswer QuestionProfilePhoto m4 → acceptedAnswer QuestionGender m5 →
        Persisted (processAnswers [message, m2, m3, m4, m5] s user).1
            (processAnswers [message, m2, m3, m4, m5] s user).2 ∧
          (processAnswers [message, m2, m3, m4, m5] s user).2.CurrentQuestion =
            QuestionDone) := by
  constructor
  · obtain ⟨t, u1, out, heq, hpers, hid, hcq, hname, hmobile, hlevel, hphoto, hgender⟩ :=
      processUserAnswer_step s message user ⟨user, hrow, rfl⟩ hvalid
    refine ⟨t, u1, out, heq, hpers, hid, hcq, hname, hmobile, hlevel, hphoto, ?_⟩
    intro hq
    refine ⟨hgender hq, ?_⟩
    rw [hgender hq]
    rcases hvalid with h | ⟨h, _⟩ | ⟨h, _⟩ | ⟨h, _⟩ | ⟨_, hv⟩
    · rw [hq] at h
      exact absurd h (by decide)
    · rw [hq] at h
      exact absurd h (by decide)
    · rw [hq] at h
      exact absurd h (by decide)
    · rw [hq] at h
      exact absurd h (by decide)
    · exact hv
  · intro m2 m3 m4 m5 hq hv2 hv3 hv4 hv5
    obtain ⟨t1, u1, o1, h1, p1, _, c1, _⟩ :=
      processUserAnswer_step s message user ⟨user, hrow, rfl⟩ hvalid
    have q1 : u1.CurrentQuestion = QuestionMobileNumber := by
      rw [c1, hq]
      rfl
    obtain ⟨t2, u2, o2, h2, p2, _, c2, _⟩ :=
      processUserAnswer_step t1 m2 u1 p1.hasRow (q1 ▸ hv2)
    have q2 : u2.CurrentQuestion = QuestionEnglishLevel := by
      rw [c2, q1]
      rfl
    obtain ⟨t3, u3, o3, h3, p3, _, c3, _⟩ :=
      processUserAnswer_step t2 m3 u2 p2.hasRow (q2 ▸ hv3)
    have q3 : u3.CurrentQuestion = QuestionProfilePhoto := by
      rw [c3, q2]
      rfl
    obtain ⟨t4, u4, o4, h4, p4, _, c4, _⟩ :=
      processUserAnswer_step t3 m4 u3 p3.hasRow (q3 ▸ hv4)
    have q4 : u4.CurrentQuestion = QuestionGender := by
      rw [c4, q3]
      rfl
    obtain ⟨t5, u5, o5, h5, p5, _, c5, _⟩ :=
      processUserAnswer_step t4 m5 u4 p4.hasRow (q4 ▸ hv5)
    have q5 : u5.CurrentQuestion = QuestionDone := by
      rw [c5, q4]
      rfl
    simp only [processAnswers, h1, h2, h3, h4, h5]
    exact ⟨p5, q5⟩

/-- Example of a registration: the user just created for chat 100 answers with
a name, a mobile number, a level, a photo and a gender; the persisted cursor
ends at `QuestionDone`. -/
theorem processUserAnswer_accepted_answer_example :
    newUser 1 100 ∈ freshStore.users ∧
      acceptedAnswer (newUser 1 100).CurrentQuestion (textMessage "Ali") ∧
      (processAnswers [textMessage "Ali", textMessage "0912 345 6789", textMessage "Advanced",
          photoMessage, textMessage "👨 Male"] freshStore (newUser 1 100)).2.CurrentQuestion =
        QuestionDone :=
  ⟨by decide, by decide,
    ((processUserAnswer_accepted_answer freshStore (textMessage "Ali") (newUser 1 100)
      (by decide) (by decide)).2 (textMessage "0912 345 6789") (textMessage "Advanced")
      photoMessage (textMessage "👨 Male") (by decide) (by decide) (by decide) (by decide)
      (by decide)).2⟩

/-- Routing of a message that is no command, for a known user outside the
filter dialogue: it is handled by `processUserAnswer`. -/
theorem handleUserResponse_answer (s : Store) (now : Int) (message : Message) (user : User)
    (hload : firstUser s (fun u => decide (u.TelegramID = message.ChatID)) = some user)
    (hcommand : message.Text ∉ routerCommands)
    (hfilter : user.CurrentFindPartnerQuestion ≠ 1000 ∧
      user.CurrentFindPartnerQuestion ≠ 1001) :
    handleUserResponse s now message =
      some ((processUserAnswer s message user).1, (processUserAnswer s message user).2.2) := by
  simp only [routerCommands, List.mem_cons, List.mem_singleton, List.not_mem_nil, or_false,
    not_or] at hcommand
  obtain ⟨c1, c2, c3, c4, c5, c6, c7, c8, c9, c10, c11⟩ := hcommand
  unfold handleUserResponse firstOrCreateUser
  simp only [hload, c1, c2, c3, c4, c5, c6, c7, c8, c9, c10, c11, hfilter.1, hfilter.2,
    if_false]

/-- The router looks at the text before the onboarding state.  The user of
chat 100 is asked for the mobile number (cursor 1); the text "Next Question"
passes no guard of that state, yet handling it stores cursor 2.  The home-menu
caption restarts the registration of this user: it stores cursor 0. -/
theorem handleUserResponse_commands_before_answers :
    validatingQuestion onboardingUser.CurrentQuestion ∧
      ¬ acceptedAnswer onboardingUser.CurrentQuestion (textMessage "Next Question") ∧
      persistedUser onboardingStore 100 = some onboardingUser ∧
      (handleUserResponse onboardingStore 5 (textMessage "Next Question")).map
          (fun r => (persistedUser r.1 100).map fun u => u.CurrentQuestion) =
        some (some 2) ∧
      ¬ acceptedAnswer onboardingUser.CurrentQuestion (textMessage "🏠 Back To Home Menu") ∧
      (handleUserResponse onboardingStore 5 (textMessage "🏠 Back To Home Menu")).map
          (fun r => (persistedUser r.1 100).map fun u => u.CurrentQuestion) =
        some (some 0) := by
  refine ⟨by decide, by decide, by decide, by decide, by decide, by decide⟩

/-- The rejecting branches write nothing: for a user in an onboarding state
that validates its answer and a message that does not pass the guard of that
state, `processUserAnswer` returns the store as it was, with one corrective
message to the chat; and `handleUserResponse` does the same whenever it routes
the message to `processUserAnswer`, that is, when the text is none of the
router's commands and the find-partner dialogue is not awaiting a filter. -/
theorem rejected_answer_changes_nothing (s : Store) (now : Int) (message : Message)
    (user : User)
    (hstate : validatingQuestion user.CurrentQuestion)
    (hinvalid : ¬ acceptedAnswer user.CurrentQuestion message) :
    (∃ reply, processUserAnswer s message user =
        (s, { user with Username := message.FromUserName }, [reply]) ∧
        reply.recipient = message.ChatID) ∧
      (firstUser s (fun u => decide (u.TelegramID = message.ChatID)) = some user →
        message.Text ∉ routerCommands →
        user.CurrentFindPartnerQuestion ≠ 1000 → user.CurrentFindPartnerQuestion ≠ 1001 →
        ∃ reply, handleUserResponse s now message = some (s, [reply]) ∧
          reply.recipient = message.ChatID) := by
  have hanswer : ∃ reply, processUserAnswer s message user =
      (s, { user with Username := message.FromUserName }, [reply]) ∧
      reply.recipient = message.ChatID := by
    unfold acceptedAnswer at hinvalid
    simp only [not_or, not_and] at hinvalid
    obtain ⟨_, hmobile, hlevel, hphoto, hgender⟩ := hinvalid
    rcases hstate with hq | hq | hq | hq
    · have h := hmobile hq
      rw [processUserAnswer_mobile s message user hq h.1, if_neg (by simpa using h.2)]
      exact ⟨_, rfl, rfl⟩
    · have h := hlevel hq
      rw [processUserAnswer_level s message user hq, if_neg h]
      exact ⟨_, rfl, rfl⟩
    · have h := hphoto hq
      rw [processUserAnswer_photo s message user hq, if_neg h]
      exact ⟨_, rfl, rfl⟩
    · have h := hgender hq
      rw [processUserAnswer_gender s message user hq, if_neg (by simpa using h)]
      exact ⟨_, rfl, rfl⟩
  refine ⟨hanswer, ?_⟩
  intro hload hcommand h1000 h1001
  obtain ⟨reply, heq, hto⟩ := hanswer
  rw [handleUserResponse_answer s now message user hload hcommand ⟨h1000, h1001⟩, heq]
  exact ⟨reply, rfl, hto⟩

/-- Example of a rejected answer: the user of chat 100, asked for the mobile
number, sends "hello"; the store is unchanged and one message answers. -/
theorem rejected_answer_changes_nothing_example :
    validatingQuestion onboardingUser.CurrentQuestion ∧
      ¬ acceptedAnswer onboardingUser.CurrentQuestion (textMessage "hello") ∧
      ∃ reply, handleUserResponse onboardingStore 5 (textMessage "hello") =
          some (onboardingStore, [reply]) ∧ reply.recipient = 100 :=
  ⟨by decide, by decide,
    (rejected_answer_changes_nothing onboardingStore 5 (textMessage "hello") onboardingUser
      (by decide) (by decide)).2 (by decide) (by decide) (by decide) (by decide)⟩

/-- Both branches of `setCurrentEditProfileQuestion` store the given value. -/
theorem setCurrentEditProfileQuestion_eq (s : Store) (user : User) (question : String) :
    setCurrentEditProfileQuestion s user question =
      (saveUser s { user with CurrentEditProfileQuestion := question },
        { user with CurrentEditProfileQuestion := question }) := by
  unfold setCurrentEditProfileQuestion
  by_cases h : question = "empty"
  · simp only [h, if_true]
  · simp only [h, if_false]

/-- The gender captions accepted by the edit handler are those that
`validSelectedGender` maps to male and female. -/
theorem validSelectedGender_male_female (text : String) :
    (validSelectedGender text = "male" ↔ text = "👨 Male") ∧
      (validSelectedGender text = "female" ↔ text = "👩 Female") := by
  unfold validSelectedGender
  by_cases h1 : text = "👨 Male"
  · rw [if_pos h1, h1]
    exact ⟨⟨fun _ => rfl, fun _ => rfl⟩, by decide⟩
  · rw [if_neg h1]
    by_cases h2 : text = "👩 Female"
    · rw [if_pos h2]
      exact ⟨⟨fun h => absurd h (by decide), fun h => absurd h h1⟩, ⟨fun _ => h2, fun _ => rfl⟩⟩
    · rw [if_neg h2]
      by_cases h3 : text = "🤷‍♂️ Does Not Matter"
      · rw [if_pos h3]
        exact ⟨⟨fun h => absurd h (by decide), fun h => absurd h h1⟩,
          ⟨fun h => absurd h (by decide), fun h => absurd h h2⟩⟩
      · rw [if_neg h3]
        exact ⟨⟨fun h => absurd h (by decide), fun h => absurd h h1⟩,
          ⟨fun h => absurd h (by decide), fun h => absurd h h2⟩⟩

/-- The loop of `isNumeric` accepts exactly the lists of decimal digits. -/
theorem isNumericLoop_iff (l : List Char) :
    isNumericLoop l = true ↔ ∀ c ∈ l, unicodeIsDigit c = true := by
  induction l with
  | nil => simp [isNumericLoop]
  | cons x xs ih =>
    unfold isNumericLoop
    by_cases hx : unicodeIsDigit x = true
    · simp [hx, ih]
    · simp [hx]

/-- On a text whose stripped form has as many bytes as characters, the guard of
`isValidMobileNumber` accepts exactly the valid mobile numbers of the
specification. -/
theorem isValidMobileNumber_ne_error_iff (text : String)
    (hbytes : len (stripped text) = (stripped text).length) :
    isValidMobileNumber text ≠ "error" ↔ validMobileNumber text := by
  rw [isValidMobileNumber_eq]
  unfold validMobileNumber
  constructor
  · intro h
    by_cases hc : len (stripped text) = 11 ∧ isNumeric (stripped text) = true
    · exact ⟨hbytes.symm.trans hc.1, (isNumericLoop_iff _).mp hc.2⟩
    · rw [if_neg hc] at h
      exact absurd rfl h
  · rintro ⟨hl, hd⟩
    have hc : len (stripped text) = 11 ∧ isNumeric (stripped text) = true :=
      ⟨hbytes.trans hl, (isNumericLoop_iff _).mpr hd⟩
    rw [if_pos hc]
    intro heq
    rw [heq] at hl
    exact absurd hl (by decide)

/-- The guard `isValidEnglishLevel` accepts exactly the three levels. -/
theorem isValidEnglishLevel_eq_true_iff_mem (text : String) :
    isValidEnglishLevel text = true ↔ text ∈ ["Beginner", "Intermediate", "Advanced"] := by
  unfold isValidEnglishLevel
  simp only [List.mem_cons, List.mem_singleton, List.not_mem_nil, or_false]
  by_cases h : text = "Beginner" ∨ text = "Intermediate" ∨ text = "Advanced"
  · rw [if_pos h]
    refine ⟨fun _ => h, fun _ => ?_⟩
    rcases h with h | h | h <;> rw [h] <;> decide
  · rw [if_neg h]
    exact ⟨fun hf => absurd hf (by decide), fun hv => absurd hv h⟩

/-- Where the stripped text of a mobile answer has as many bytes as
characters, the guards of `processUserAnswer` accept exactly the valid answers
of the specification. -/
theorem acceptedAnswer_iff_validAnswer (question : Int) (message : Message)
    (hbytes : question = QuestionMobileNumber →
      len (stripped message.Text) = (stripped message.Text).length) :
    acceptedAnswer question message ↔ validAnswer question message := by
  unfold acceptedAnswer validAnswer
  refine or_congr Iff.rfl (or_congr ?_ (or_congr ?_ (or_congr Iff.rfl ?_)))
  · exact and_congr_right fun hq =>
      or_congr Iff.rfl (isValidMobileNumber_ne_error_iff message.Text (hbytes hq))
  · exact and_congr_right fun _ => isValidEnglishLevel_eq_true_iff_mem message.Text
  · refine and_congr_right fun _ => ?_
    simp only [List.mem_cons, List.mem_singleton, List.not_mem_nil, or_false]
    exact or_congr (validSelectedGender_male_female message.Text).1
      (validSelectedGender_male_female message.Text).2

/-- Outside the inputs on which bytes and characters differ, a valid answer of
the specification is persisted and advances the onboarding cursor by one; a
valid mobile number is stored as its stripped text. -/
theorem processUserAnswer_valid_of_bytes (s : Store) (message : Message) (user : User)
    (hrow : user ∈ s.users)
    (hvalid : validAnswer user.CurrentQuestion message)
    (hbytes : user.CurrentQuestion = QuestionMobileNumber →
      len (stripped message.Text) = (stripped message.Text).length) :
    ∃ t u1 out, processUserAnswer s message user = (t, u1, out) ∧ Persisted t u1 ∧
      u1.ID = user.ID ∧ u1.CurrentQuestion = user.CurrentQuestion + 1 ∧
      (user.CurrentQuestion = QuestionMobileNumber →
        u1.MobileNumber =
          if message.Text = skipMobileNumber then "empty" else stripped message.Text) := by
  obtain ⟨t, u1, out, heq, hp, hid, hcq, _, hmobile, _⟩ :=
    (processUserAnswer_accepted_answer s message user hrow
      ((acceptedAnswer_iff_validAnswer _ _ hbytes).mpr hvalid)).1
  exact ⟨t, u1, out, heq, hp, hid, hcq, hmobile⟩

/-- Outside the inputs on which bytes and characters differ, a message that is
no valid answer of the specification for a validating state leaves the store
as it was and is answered with one corrective message. -/
theorem processUserAnswer_invalid_of_bytes (s : Store) (message : Message) (user : User)
    (hstate : validatingQuestion user.CurrentQuestion)
    (hinvalid : ¬ validAnswer user.CurrentQuestion message)
    (hbytes : user.CurrentQuestion = QuestionMobileNumber →
      len (stripped message.Text) = (stripped message.Text).length) :
    ∃ reply, processUserAnswer s message user =
        (s, { user with Username := message.FromUserName }, [reply]) ∧
      reply.recipient = message.ChatID :=
  (rejected_answer_changes_nothing s 0 message user hstate
    (fun h => hinvalid ((acceptedAnswer_iff_validAnswer _ _ hbytes).mp h))).1

/-- C15 (defect in the code): the user of chat 100 is asked for the mobile
number (cursor 1) and sends `sixDigitInput`, six numeric characters.  The text
is no valid mobile number (not 11 numeric characters), it is none of the
router's commands, and the user is not in the filter dialogue; yet the message
is not rejected: the text is stored as the mobile number and the persisted
onboarding cursor moves from 1 to 2.  The validator counts the 11 bytes of the
text instead of its characters. -/
theorem invalid_mobile_answer_is_stored :
    validatingQuestion onboardingUser.CurrentQuestion ∧
      onboardingUser.CurrentQuestion = QuestionMobileNumber ∧
      (stripped sixDigitInput).length = 6 ∧
      ¬ validAnswer onboardingUser.CurrentQuestion (textMessage sixDigitInput) ∧
      sixDigitInput ∉ routerCommands ∧
      (persistedUser onboardingStore 100).map
          (fun u => (u.CurrentQuestion, u.MobileNumber, u.CurrentFindPartnerQuestion)) =
        some (1, "", 0) ∧
      (handleUserResponse onboardingStore 5 (textMessage sixDigitInput)).map
          (fun r => (persistedUser r.1 100).map fun u =>
            (u.CurrentQuestion, u.MobileNumber)) =
        some (some (2, sixDigitInput)) ∧
      (processUserAnswer onboardingStore (textMessage sixDigitInput) onboardingUser).2.1 =
        { onboardingUser with
          Username := "a_user", MobileNumber := sixDigitInput, CurrentQuestion := 2 } := by
  refine ⟨by decide, by decide, by decide, by decide, by decide, by decide, by decide,
    by decide⟩

/-- C16 (defect in the code): the user of chat 100 is asked for the mobile
number (cursor 1) and sends `persianMobileNumber`, a valid answer: after
stripping it is exactly 11 numeric characters.  `processUserAnswer` rejects it
with the invalid-number message and returns the store as it was: the number is
not persisted and the onboarding cursor stays at 1.  The validator counts the
22 bytes of the text instead of its 11 characters. -/
theorem valid_mobile_answer_is_rejected :
    onboardingUser.CurrentQuestion = QuestionMobileNumber ∧
      (stripped persianMobileNumber).length = 11 ∧
      (∀ c ∈ (stripped persianMobileNumber).data, unicodeIsDigit c = true) ∧
      validAnswer onboardingUser.CurrentQuestion (textMessage persianMobileNumber) ∧
      processUserAnswer onboardingStore (textMessage persianMobileNumber) onboardingUser =
        (onboardingStore, { onboardingUser with Username := "a_user" },
          [sendErrorMessage 100
            "Invalid mobile number. Please enter a valid 11-digit mobile number."]) ∧
      (handleUserResponse onboardingStore 5 (textMessage persianMobileNumber)).map
          (fun r => (persistedUser r.1 100).map fun u =>
            (u.CurrentQuestion, u.MobileNumber)) =
        some (some (1, "")) := by
  refine ⟨by decide, by decide, by decide, by decide, by decide, by decide⟩

/-- The edit answer for the name. -/
theorem processEditAnswer_name (s : Store) (message : Message) (user : User)
    (he : user.CurrentEditProfileQuestion = "name") :
    processEditAnswer s message user =
      thenNextQuestion
        (saveUser (saveUser s { user with Name := message.Text })
          { user with Name := message.Text, CurrentEditProfileQuestion := "empty" })
        message.ChatID
        { user with Name := message.Text, CurrentEditProfileQuestion := "empty" }
        [sendMessage message.ChatID "Your name has been edited successfully"
          [.editProfileMenuKeyboard]] := by
  have h1 : user.CurrentEditProfileQuestion ≠ "empty" := by
    rw [he]
    decide
  unfold processEditAnswer handleEditProfileName
  rw [if_pos h1, if_pos he]
  simp only [setCurrentEditProfileQuestion_eq]

/-- The edit answer for the English level. -/
theorem processEditAnswer_level (s : Store) (message : Message) (user : User)
    (he : user.CurrentEditProfileQuestion = "english_level") :
    processEditAnswer s message user =
      if message.Text = "Beginner" ∨ message.Text = "Intermediate" ∨
          message.Text = "Advanced" then
        thenNextQuestion
          (saveUser (saveUser s { user with EnglishLevel := message.Text })
            { user with EnglishLevel := message.Text, CurrentEditProfileQuestion := "empty" })
          message.ChatID
          { user with EnglishLevel := message.Text, CurrentEditProfileQuestion := "empty" }
          [sendMessage message.ChatID "Your English Level has been edited successfully"
            [.editProfileMenuKeyboard]]
      else
        thenNextQuestion s message.ChatID user
          [sendMessage message.ChatID "Please Select Your English Level"
            [.editEnglishLevelKeyboard]] := by
  have h1 : user.CurrentEditProfileQuestion ≠ "empty" := by
    rw [he]
    decide
  have h2 : ¬ user.CurrentEditProfileQuestion = "name" := by
    rw [he]
    decide
  unfold processEditAnswer handleEditProfileEnglishLevel
  rw [if_pos h1, if_neg h2, if_pos he]
  by_cases hc : message.Text = "Beginner" ∨ message.Text = "Intermediate" ∨
      message.Text = "Advanced"
  · simp only [hc, if_true, setCurrentEditProfileQuestion_eq]
  · simp only [hc, if_false]

/-- The edit answer for the gender. -/
theorem processEditAnswer_gender (s : Store) (message : Message) (user : User)
    (he : user.CurrentEditProfileQuestion = "gender") :
    processEditAnswer s message user =
      if message.Text = "👨 Male" ∨ message.Text = "👩 Female" then
        thenNextQuestion
          (saveUser (saveUser s { user with Gender := validSelectedGender message.Text })
            { user with Gender := validSelectedGender message.Text,
                        CurrentEditProfileQuestion := "empty" })
          message.ChatID
          { user with Gender := validSelectedGender message.Text,
                      CurrentEditProfileQuestion := "empty" }
          [sendMessage message.ChatID "Your Gender has been edited successfully"
            [.editProfileMenuKeyboard]]
      else
        thenNextQuestion s message.ChatID user
          [sendMessage message.ChatID "Please Select Your Gender" [.editGenderKeyboard]] := by
  have e1 : user.CurrentEditProfileQuestion ≠ "empty" := by
    rw [he]
    decide
  have e2 : ¬ user.CurrentEditProfileQuestion = "name" := by
    rw [he]
    decide
  have e3 : ¬ user.CurrentEditProfileQuestion = "english_level" := by
    rw [he]
    decide
  unfold processEditAnswer handleEditProfileGender saveEditedGender
  rw [if_pos e1, if_neg e2, if_neg e3, if_pos he]
  by_cases h1 : message.Text = "👨 Male"
  · have hv : validSelectedGender message.Text = "male" :=
      (validSelectedGender_male_female message.Text).1.mpr h1
    rw [hv, if_pos h1, if_pos (Or.inl h1)]
    simp only [setCurrentEditProfileQuestion_eq]
  · by_cases h2 : message.Text = "👩 Female"
    · have hv : validSelectedGender message.Text = "female" :=
        (validSelectedGender_male_female message.Text).2.mpr h2
      rw [hv, if_neg h1, if_pos h2, if_pos (Or.inr h2)]
      simp only [setCurrentEditProfileQuestion_eq]
    · rw [if_neg h1, if_neg h2, if_neg (not_or.mpr ⟨h1, h2⟩)]

/-- The edit answer for the profile photo. -/
theorem processEditAnswer_photo (s : Store) (message : Message) (user : User)
    (he : user.CurrentEditProfileQuestion = "profile_photo") :
    processEditAnswer s message user =
      if message.Photo ≠ [] then
        thenNextQuestion
          (saveUser
            (saveUser (handlePhotoUpload (handleExistingUser s user).1 message).1
              { (handleExistingUser s user).2 with
                MediaID := (handlePhotoUpload (handleExistingUser s user).1 message).2.1 })
            { (handleExistingUser s user).2 with
              MediaID := (handlePhotoUpload (handleExistingUser s user).1 message).2.1,
              CurrentEditProfileQuestion := "empty" })
          message.ChatID
          { (handleExistingUser s user).2 with
            MediaID := (handlePhotoUpload (handleExistingUser s user).1 message).2.1,
            CurrentEditProfileQuestion := "empty" }
          ((handlePhotoUpload (handleExistingUser s user).1 message).2.2 ++
            [sendMessage message.ChatID "Your Profile Photo has been updated successfully"
              [.editProfileMenuKeyboard]])
      else
        (s, user, [sendErrorMessage message.ChatID "Please Upload a Your Profile Photo."]) := by
  have e1 : user.CurrentEditProfileQuestion ≠ "empty" := by
    rw [he]
    decide
  have e2 : ¬ user.CurrentEditProfileQuestion = "name" := by
    rw [he]
    decide
  have e3 : ¬ user.CurrentEditProfileQuestion = "english_level" := by
    rw [he]
    decide
  have e4 : ¬ user.CurrentEditProfileQuestion = "gender" := by
    rw [he]
    decide
  unfold processEditAnswer
  rw [if_pos e1, if_neg e2, if_neg e3, if_neg e4, if_pos he]
  by_cases hc : message.Photo ≠ []
  · simp only [hc, if_true, setCurrentEditProfileQuestion_eq]
  · simp only [hc, if_false]


/-- The record returned by `thenNextQuestion` is persisted. -/
theorem thenNextQuestion_persisted (s : Store) (chatID : Int) (v : User) (out : List Outbound)
    (hrow : ∃ u ∈ s.users, u.ID = v.ID) :
    Persisted (thenNextQuestion s chatID v out).1 (thenNextQuestion s chatID v out).2.1 := by
  obtain ⟨t, asked, heq, hp, -⟩ := thenNextQuestion_spec s chatID v out hrow
  rw [heq]
  exact hp

/-- Moving to the next question keeps the rows of the media table. -/
theorem thenNextQuestion_media_mem (s : Store) (chatID : Int) (v : User) (out : List Outbound)
    (hrow : ∃ u ∈ s.users, u.ID = v.ID) (m : Media) (h : m ∈ s.medias) :
    m ∈ (thenNextQuestion s chatID v out).1.medias := by
  obtain ⟨t, asked, heq, -, hm, -⟩ := thenNextQuestion_spec s chatID v out hrow
  rw [heq]
  exact hm ▸ h

/-- The messages sent before moving to the next question stay in the output. -/
theorem thenNextQuestion_out (s : Store) (chatID : Int) (v : User) (out : List Outbound)
    (m : Outbound) (h : m ∈ out) : m ∈ (thenNextQuestion s chatID v out).2.2 :=
  List.mem_append_left _ h

/-- C17: for a registered user (onboarding cursor at `QuestionDone` or past
it) whose record is persisted, `processUserAnswer` handles the answer to an
edit question as follows.  Name: every text is valid; the name is the text.
English level: one of the three levels is stored.  Gender: the captions for
male and female store "male" and "female".  Profile photo: a message with a
photo stores the key of the media row created for it.  In each valid case the
returned record is the persisted one, its edit cursor is "empty" and the
confirmation is sent.  An invalid level or gender leaves the field and the
edit cursor of the persisted record as they were and sends the prompt again;
a photo edit without a photo returns the store as it was with the request to
upload a photo. -/
theorem processUserAnswer_edit_answer (s : Store) (message : Message) (user : User)
    (hpers : Persisted s user) (hq : QuestionDone ≤ user.CurrentQuestion) :
    ∃ t v out, processUserAnswer s message user = (t, v, out) ∧
      (user.CurrentEditProfileQuestion = "name" →
        Persisted t v ∧ v.Name = message.Text ∧ v.CurrentEditProfileQuestion = "empty" ∧
          sendMessage message.ChatID "Your name has been edited successfully"
            [.editProfileMenuKeyboard] ∈ out) ∧
      (user.CurrentEditProfileQuestion = "english_level" →
        Persisted t v ∧
          (message.Text = "Beginner" ∨ message.Text = "Intermediate" ∨
              message.Text = "Advanced" →
            v.EnglishLevel = message.Text ∧ v.CurrentEditProfileQuestion = "empty" ∧
              sendMessage message.ChatID "Your English Level has been edited successfully"
                [.editProfileMenuKeyboard] ∈ out) ∧
          (¬ (message.Text = "Beginner" ∨ message.Text = "Intermediate" ∨
              message.Text = "Advanced") →
            v.EnglishLevel = user.EnglishLevel ∧
              v.CurrentEditProfileQuestion = "english_level" ∧
              sendMessage message.ChatID "Please Select Your English Level"
                [.editEnglishLevelKeyboard] ∈ out)) ∧
      (user.CurrentEditProfileQuestion = "gender" →
        Persisted t v ∧
          (message.Text = "👨 Male" →
            v.Gender = "male" ∧ v.CurrentEditProfileQuestion = "empty" ∧
              sendMessage message.ChatID "Your Gender has been edited successfully"
                [.editProfileMenuKeyboard] ∈ out) ∧
          (message.Text = "👩 Female" →
            v.Gender = "female" ∧ v.CurrentEditProfileQuestion = "empty" ∧
              sendMessage message.ChatID "Your Gender has been edited successfully"
                [.editProfileMenuKeyboard] ∈ out) ∧
          (message.Text ≠ "👨 Male" → message.Text ≠ "👩 Female" →
            v.Gender = user.Gender ∧ v.CurrentEditProfileQuestion = "gender" ∧
              sendMessage message.ChatID "Please Select Your Gender"
                [.editGenderKeyboard] ∈ out)) ∧
      (user.CurrentEditProfileQuestion = "profile_photo" →
        (message.Photo ≠ [] →
          Persisted t v ∧ v.MediaID = s.mediaSeq + 1 ∧
            (∃ m ∈ t.medias, m.ID = s.mediaSeq + 1) ∧
            v.CurrentEditProfileQuestion = "empty" ∧
            sendMessage message.ChatID "Your Profile Photo has been updated successfully"
              [.editProfileMenuKeyboard] ∈ out) ∧
        (message.Photo = [] →
          t = s ∧ v.MediaID = user.MediaID ∧
            v.CurrentEditProfileQuestion = "profile_photo" ∧
            out = [sendErrorMessage message.ChatID "Please Upload a Your Profile Photo."])) := by
  have hrow : ∃ u ∈ s.users, u.ID = user.ID := hpers.hasRow
  refine ⟨(processUserAnswer s message user).1, (processUserAnswer s message user).2.1,
    (processUserAnswer s message user).2.2, rfl, ?_, ?_, ?_, ?_⟩
  · intro he
    rw [processUserAnswer_edit s message user hq,
      processEditAnswer_name s message { user with Username := message.FromUserName } he]
    exact ⟨thenNextQuestion_persisted _ _ _ _
        (saveUser_hasRow _ _ _ (saveUser_hasRow _ _ _ hrow)), rfl, rfl,
      thenNextQuestion_out _ _ _ _ _ (List.mem_singleton.mpr rfl)⟩
  · intro he
    rw [processUserAnswer_edit s message user hq,
      processEditAnswer_level s message { user with Username := message.FromUserName } he]
    by_cases hc : message.Text = "Beginner" ∨ message.Text = "Intermediate" ∨
        message.Text = "Advanced"
    · rw [if_pos hc]
      exact ⟨thenNextQuestion_persisted _ _ _ _
          (saveUser_hasRow _ _ _ (saveUser_hasRow _ _ _ hrow)),
        fun _ => ⟨rfl, rfl, thenNextQuestion_out _ _ _ _ _ (List.mem_singleton.mpr rfl)⟩,
        fun h => absurd hc h⟩
    · rw [if_neg hc]
      exact ⟨thenNextQuestion_persisted _ _ _ _ hrow, fun h => absurd h hc,
        fun _ => ⟨rfl, he, thenNextQuestion_out _ _ _ _ _ (List.mem_singleton.mpr rfl)⟩⟩
  · intro he
    rw [processUserAnswer_edit s message user hq,
      processEditAnswer_gender s message { user with Username := message.FromUserName } he]
    by_cases hc : message.Text = "👨 Male" ∨ message.Text = "👩 Female"
    · rw [if_pos hc]
      refine ⟨thenNextQuestion_persisted _ _ _ _
          (saveUser_hasRow _ _ _ (saveUser_hasRow _ _ _ hrow)), ?_, ?_, ?_⟩
      · intro h
        exact ⟨(validSelectedGender_male_female message.Text).1.mpr h, rfl,
          thenNextQuestion_out _ _ _ _ _ (List.mem_singleton.mpr rfl)⟩
      · intro h
        exact ⟨(validSelectedGender_male_female message.Text).2.mpr h, rfl,
          thenNextQuestion_out _ _ _ _ _ (List.mem_singleton.mpr rfl)⟩
      · intro h1 h2
        exact absurd hc (not_or.mpr ⟨h1, h2⟩)
    · rw [if_neg hc]
      exact ⟨thenNextQuestion_persisted _ _ _ _ hrow,
        fun h => absurd (Or.inl h) hc, fun h => absurd (Or.inr h) hc,
        fun _ _ => ⟨rfl, he, thenNextQuestion_out _ _ _ _ _ (List.mem_singleton.mpr rfl)⟩⟩
  · intro he
    rw [processUserAnswer_edit s message user hq,
      processEditAnswer_photo s message { user with Username := message.FromUserName } he]
    by_cases hc : message.Photo ≠ []
    · rw [if_pos hc]
      obtain ⟨hrow1, hseq1, _⟩ :=
        handleExistingUser_spec s { user with Username := message.FromUserName } hrow
      obtain ⟨media, hmid, hup⟩ := handlePhotoUpload_photo
        (handleExistingUser s { user with Username := message.FromUserName }).1 message hc
      have hid1 : (handleExistingUser s { user with Username := message.FromUserName }).2.ID =
          user.ID := by
        rcases (handleExistingUser_spec s { user with Username := message.FromUserName }
          hrow).2.2 with h | h <;> rw [h]
      have hrow2 : ∃ u ∈ (handlePhotoUpload
          (handleExistingUser s { user with Username := message.FromUserName }).1
          message).1.users,
          u.ID = (handleExistingUser s { user with Username := message.FromUserName }).2.ID := by
        rw [hup, hid1]
        exact hrow1
      have hkey : (handlePhotoUpload
          (handleExistingUser s { user with Username := message.FromUserName }).1
          message).2.1 = s.mediaSeq + 1 := by
        rw [hup]
        exact congrArg (fun n => n + 1) hseq1
      have hmem : ∃ m ∈ (handlePhotoUpload
          (handleExistingUser s { user with Username := message.FromUserName }).1
          message).1.medias, m.ID = s.mediaSeq + 1 := by
        rw [hup]
        exact ⟨media, List.mem_append_right _ (List.mem_singleton.mpr rfl),
          hmid.trans (congrArg (fun n => n + 1) hseq1)⟩
      refine ⟨fun _ => ⟨thenNextQuestion_persisted _ _ _ _
          (saveUser_hasRow _ _ _ (saveUser_hasRow _ _ _ hrow2)), hkey, ?_, rfl,
        thenNextQuestion_out _ _ _ _ _
          (List.mem_append_right _ (List.mem_singleton.mpr rfl))⟩,
        fun h => absurd h hc⟩
      obtain ⟨m, hm, hkey2⟩ := hmem
      refine ⟨m, ?_, hkey2⟩
      apply thenNextQuestion_media_mem
      · exact saveUser_hasRow _ _ _ (saveUser_hasRow _ _ _ hrow2)
      · exact hm
    · rw [if_neg hc]
      exact ⟨fun h => absurd h hc, fun _ => ⟨rfl, rfl, he, rfl⟩⟩

/-- Witness for C17: the registered user A, editing the English level, sends
"Advanced"; the level is stored and the edit cursor is back at "empty". -/
theorem processUserAnswer_edit_answer_example :
    Persisted editingStore editingUser ∧ QuestionDone ≤ editingUser.CurrentQuestion ∧
      ∃ t v out, processUserAnswer editingStore (textMessage "Advanced") editingUser =
          (t, v, out) ∧
        Persisted t v ∧ v.EnglishLevel = "Advanced" ∧ v.CurrentEditProfileQuestion = "empty" :=
  have hp : Persisted editingStore editingUser := by
    unfold Persisted
    decide
  have h := processUserAnswer_edit_answer editingStore (textMessage "Advanced") editingUser
    hp (by decide)
  ⟨hp, by decide,
    h.choose, h.choose_spec.choose, h.choose_spec.choose_spec.choose,
    h.choose_spec.choose_spec.choose_spec.1,
    (h.choose_spec.choose_spec.choose_spec.2.2.1 rfl).1,
    ((h.choose_spec.choose_spec.choose_spec.2.2.1 rfl).2.1 (by decide)).1,
    ((h.choose_spec.choose_spec.choose_spec.2.2.1 rfl).2.1 (by decide)).2.1⟩


/-! ## Theorems: follow notification and cursor safety -/

/-- C18 (defect in the code): A holds no photo (`MediaID = 0`) and asks to
follow B, the candidate at A's cursor.  The row (A, B, accepted=false) is
created and A gets the confirmation, but no message at all is addressed to B;
`sendFollowRequestMessage` returns no message for any requester without a
photo.  With a photo, one photo message goes to B with the caption and the
payloads "accept_follow:100" and "decline_follow:100". -/
theorem handleFollowRequest_without_photo_notifies_nobody :
    userA.MediaID = 0 ∧
      (handleFollowRequest browsingStore 5 100 userA).map
          (fun r => (r.1.followRequests, r.2,
            r.2.filter fun m => decide (m.recipient = userB.TelegramID))) =
        some ([{ ID := 1, RequesterID := 100, TargetID := 200, Accepted := false,
                 Deleted := false }],
          [sendMessage 100 "Your follow request has been sent!" [.backToHomeMenuKeyboard]],
          []) ∧
      (∀ (s : Store) (partnerID requesterID : Int) (user : User),
        sendFollowRequestMessage s partnerID { user with MediaID := 0 } requesterID = []) ∧
      sendFollowRequestMessage
          { exampleStore with medias := [{ ID := 1, Filename := "storage/100.jpg" }] }
          200 { userA with MediaID := 1 } 100 =
        [.photo 200 "storage/100.jpg"
          "A is requesting to follow you. ✅ Accept or ❌ Decline? \nEnglish Level: Intermediate\n"
          (.inlineKeyboard [[("✅ Accept", "accept_follow:100"),
            ("❌ Decline", "decline_follow:100")]])] := by
  refine ⟨by decide, by decide, ?_, by decide⟩
  intro s partnerID requesterID user
  rfl

/-- C20 (defect in the code): A starts a search, selects Advanced and "Does
Not Matter"; no user matches, so the empty list is cached under A's key and
the persisted cursor stays 0, which is no index of the empty list.  The
following Follow reads `partners[0]` and runs out of range. -/
theorem handleFollowRequest_after_empty_search_out_of_range :
    (handleUserResponses
          [(1, textMessage "🤜🤛👥 Find Partner"), (2, textMessage "Advanced"),
            (3, textMessage "🤷‍♂️ Does Not Matter")] exampleStore).map
        (fun t => (getPartnersFromCache t 4 100, persistedCursor t 100)) =
        some (some [], some 0) ∧
      handleUserResponses
          [(1, textMessage "🤜🤛👥 Find Partner"), (2, textMessage "Advanced"),
            (3, textMessage "🤷‍♂️ Does Not Matter"), (4, textMessage "✅ Follow Partner")]
          exampleStore = none := by
  refine ⟨by decide, by decide⟩


/-! ## Theorems: range of the onboarding cursor -/

/-- Freeing the old photo leaves the onboarding cursor of the record alone. -/
theorem handleExistingUser_cursor (s : Store) (user : User) :
    (handleExistingUser s user).2.CurrentQuestion = user.CurrentQuestion := by
  unfold handleExistingUser
  split
  · split <;> rfl
  · rfl

/-- The onboarding cursor after the answer to an edit question: unchanged when
the edit cursor is "empty" and for a photo edit without a photo, incremented on
every other path. -/
theorem processEditAnswer_cursor (s : Store) (message : Message) (user : User) :
    (processEditAnswer s message user).2.1.CurrentQuestion =
      if user.CurrentEditProfileQuestion = "empty" ∨
          (user.CurrentEditProfileQuestion = "profile_photo" ∧ message.Photo = []) then
        user.CurrentQuestion
      else wrapInt (user.CurrentQuestion + 1) := by
  by_cases h0 : user.CurrentEditProfileQuestion = "empty"
  · rw [if_pos (Or.inl h0)]
    unfold processEditAnswer
    rw [if_neg (fun h => h h0)]
  by_cases h1 : user.CurrentEditProfileQuestion = "name"
  · rw [if_neg (not_or.mpr ⟨h0, fun h => absurd (h1.symm.trans h.1) (by decide)⟩),
      processEditAnswer_name s message user h1]
    rfl
  by_cases h2 : user.CurrentEditProfileQuestion = "english_level"
  · rw [if_neg (not_or.mpr ⟨h0, fun h => absurd (h2.symm.trans h.1) (by decide)⟩),
      processEditAnswer_level s message user h2]
    split <;> rfl
  by_cases h3 : user.CurrentEditProfileQuestion = "gender"
  · rw [if_neg (not_or.mpr ⟨h0, fun h => absurd (h3.symm.trans h.1) (by decide)⟩),
      processEditAnswer_gender s message user h3]
    split <;> rfl
  by_cases h4 : user.CurrentEditProfileQuestion = "profile_photo"
  · rw [processEditAnswer_photo s message user h4]
    by_cases hp : message.Photo ≠ []
    · rw [if_pos hp, if_neg (not_or.mpr ⟨h0, fun h => hp h.2⟩)]
      show wrapInt ((handleExistingUser s user).2.CurrentQuestion + 1) = _
      rw [handleExistingUser_cursor]
    · rw [if_neg hp, if_pos (Or.inr ⟨h4, not_not.mp hp⟩)]
  · rw [if_neg (not_or.mpr ⟨h0, fun h => h4 h.1⟩)]
    unfold processEditAnswer
    rw [if_pos h0, if_neg h1, if_neg h2, if_neg h3, if_neg h4]
    rfl

/-- C21 (defect in the code): the onboarding cursor of a registered user does
not stay at `QuestionDone`.  For every store and message, `processUserAnswer`
on a user at `QuestionDone` returns the cursor `QuestionDone + 1` unless the
edit cursor is "empty" or the photo edit got no photo.  In chat 100: after the
five answers of a registration the stored cursor is `QuestionDone` and the edit
cursor is still unset (""); the free texts "hello" and "thanks" then store the
cursors 6 and 7.  For the registered user A with edit cursor "english_level",
the valid answer "Advanced" and the invalid answer "hello" both store cursor
6.  With the edit cursor at "empty" the text "hello" leaves the cursor at
`QuestionDone`, and "Next Question" stores 6. -/
theorem registered_cursor_passes_QuestionDone :
    (∀ (s : Store) (message : Message) (user : User),
        (processUserAnswer s message
            { user with CurrentQuestion := QuestionDone }).2.1.CurrentQuestion =
          if user.CurrentEditProfileQuestion = "empty" ∨
              (user.CurrentEditProfileQuestion = "profile_photo" ∧ message.Photo = []) then
            QuestionDone
          else QuestionDone + 1) ∧
      (handleUserResponses registrationAnswers freshStore).map
          (fun t => (persistedUser t 100).map fun u =>
            (u.CurrentQuestion, u.CurrentEditProfileQuestion)) =
        some (some (QuestionDone, "")) ∧
      (handleUserResponses (registrationAnswers ++ [(6, textMessage "hello")]) freshStore).map
          (fun t => persistedQuestion t 100) = some (some 6) ∧
      (handleUserResponses
          (registrationAnswers ++ [(6, textMessage "hello"), (7, textMessage "thanks")])
          freshStore).map (fun t => persistedQuestion t 100) = some (some 7) ∧
      persistedQuestion editingStore 100 = some QuestionDone ∧
      (handleUserResponse editingStore 5 (textMessage "Advanced")).map
          (fun r => persistedQuestion r.1 100) = some (some 6) ∧
      (handleUserResponse editingStore 5 (textMessage "hello")).map
          (fun r => persistedQuestion r.1 100) = some (some 6) ∧
      (handleUserResponse exampleStore 5 (textMessage "hello")).map
          (fun r => persistedQuestion r.1 100) = some (some QuestionDone) ∧
      (handleUserResponse exampleStore 5 (textMessage "Next Question")).map
          (fun r => persistedQuestion r.1 100) = some (some 6) := by
  refine ⟨?_, by decide, by decide, by decide, by decide, by decide, by decide, by decide,
    by decide⟩
  intro s message user
  rw [processUserAnswer_edit s message { user with CurrentQuestion := QuestionDone }
    (le_refl _), processEditAnswer_cursor]
  rfl

end PartnerBot
